import Mathlib

/-!
# kms-core: `kmsbasertpendpoint.c`

A shallow embedding of the SDP transport negotiation code of
`src/gst-plugins/commons/kmsbasertpendpoint.c`.

C strings are Lean `String`s (sequences of Unicode code points; a `gchar *`
that the code never lets be `NULL` is a `String`, one that may be `NULL` is an
`Option String`).  GLib / GStreamer library calls are embedded by small pure
functions documented at their definition.
-/

namespace Kms

/-! ## SDP data model (`GstSDPMessage`, `GstSDPMedia`) -/

/-- An SDP attribute line `a=<key>:<value>`; a flag attribute such as
`a=rtcp-mux` has the empty value. -/
structure GstSDPAttribute where
  key : String
  value : String
  deriving DecidableEq, Repr

/-- An SDP connection line `c=<nettype> <addrtype> <address>`. -/
structure GstSDPConnection where
  nettype : String
  addrtype : String
  address : String
  ttl : Nat
  addr_number : Nat
  deriving DecidableEq, Repr

/-- One media section (`m=` line with its formats, connections, attributes). -/
structure GstSDPMedia where
  media : String
  port : Nat
  proto : Option String
  fmts : List String
  connections : List GstSDPConnection
  attributes : List GstSDPAttribute
  deriving DecidableEq, Repr

/-- An SDP message: session-level attributes and the media sections. -/
structure GstSDPMessage where
  attributes : List GstSDPAttribute
  medias : List GstSDPMedia
  deriving DecidableEq, Repr

/-- The values of the attributes with the given key, in document order. -/
def attribute_vals (attrs : List GstSDPAttribute) (key : String) : List String :=
  (attrs.filter (fun a => a.key == key)).map (fun a => a.value)

/-- `gst_sdp_message_get_attribute_val_n`: the value of the `nth` session-level
attribute with the given key, `none` (C `NULL`) when there is none. -/
def gst_sdp_message_get_attribute_val_n (msg : GstSDPMessage) (key : String)
    (nth : Nat) : Option String :=
  (attribute_vals msg.attributes key)[nth]?

/-- `gst_sdp_media_get_attribute_val_n`: the same for one media section. -/
def gst_sdp_media_get_attribute_val_n (media : GstSDPMedia) (key : String)
    (nth : Nat) : Option String :=
  (attribute_vals media.attributes key)[nth]?

/-- `gst_sdp_media_get_attribute_val`: the first attribute with the key. -/
def gst_sdp_media_get_attribute_val (media : GstSDPMedia) (key : String) :
    Option String :=
  gst_sdp_media_get_attribute_val_n media key 0

/-- `gst_sdp_media_add_attribute`: append an attribute to the section. -/
def gst_sdp_media_add_attribute (media : GstSDPMedia) (key value : String) :
    GstSDPMedia :=
  { media with attributes := media.attributes ++ [⟨key, value⟩] }

/-- `gst_sdp_message_add_attribute`: append a session-level attribute. -/
def gst_sdp_message_add_attribute (msg : GstSDPMessage) (key value : String) :
    GstSDPMessage :=
  { msg with attributes := msg.attributes ++ [⟨key, value⟩] }

/-! ## GLib string helpers -/

/-- Split at every occurrence of the one-character delimiter `d`; the result
always has at least one piece. -/
def splitOnChar (d : Char) : List Char → List (List Char)
  | [] => [[]]
  | c :: cs =>
    if c = d then [] :: splitOnChar d cs
    else
      match splitOnChar d cs with
      | [] => [[c]]
      | t :: ts => (c :: t) :: ts

/-- `g_strsplit (string, d, 0)` for a one-character delimiter: the empty
string gives the empty vector, any other string gives all the pieces between
delimiters (empty pieces included). -/
def g_strsplit (s : List Char) (d : Char) : List (List Char) :=
  if s = [] then [] else splitOnChar d s

/-- `g_strv_length`. -/
def g_strv_length (v : List (List Char)) : Nat := v.length

/-- `g_ascii_tolower`. -/
def g_ascii_tolower (c : Char) : Char :=
  if 'A' ≤ c ∧ c ≤ 'Z' then Char.ofNat (c.toNat + 32) else c

/-- `g_ascii_strcasecmp (a, b) == 0`: equality up to ASCII case. -/
def g_ascii_strcasecmp_eq (a b : String) : Bool :=
  a.data.map g_ascii_tolower == b.data.map g_ascii_tolower

/-! ## The regular expression `BUNDLE(?<mids>.*)?` -/

/-- Characters that PCRE's `.` does not match under GLib's default newline
convention (any Unicode newline). -/
def isNewlineChar (c : Char) : Bool :=
  c == '\n' || c == '\r' || c == '\x0b' || c == '\x0c' || c == '\x85'
    || c == '\u2028' || c == '\u2029'

/-- What follows the leftmost occurrence of `pat` in the subject, `none` when
`pat` does not occur. -/
def afterFirstOccurrence (pat : List Char) : List Char → Option (List Char)
  | [] => if pat = [] then some [] else none
  | c :: cs =>
    if pat.isPrefixOf (c :: cs) then some ((c :: cs).drop pat.length)
    else afterFirstOccurrence pat cs

/-- `g_regex_match` of the unanchored pattern `BUNDLE(?<mids>.*)?` followed by
`g_match_info_fetch_named (_, "mids")`: `none` when the value does not contain
`BUNDLE`, otherwise the text captured by the greedy `.*` after the leftmost
`BUNDLE` (everything up to the first newline character). -/
def bundle_regex_mids (val : String) : Option (List Char) :=
  (afterFirstOccurrence "BUNDLE".data val.data).map
    (fun rest => rest.takeWhile (fun c => !isNewlineChar c))

/-! ## Deriving the negotiated flags from a remote offer -/

/-- The loop of `sdp_message_is_bundle` over the values of the session-level
`group` attributes (`val_0, val_1, ...` until `NULL`): the first value that
the regular expression matches decides, and ends the loop. -/
def sdp_message_is_bundle_loop : List String → Bool
  | [] => false
  | val :: rest =>
    match bundle_regex_mids val with
    | some mids_str => decide (g_strv_length (g_strsplit mids_str ' ') > 0)
    | none => sdp_message_is_bundle_loop rest

/-- `sdp_message_is_bundle`. -/
def sdp_message_is_bundle (msg : GstSDPMessage) : Bool :=
  sdp_message_is_bundle_loop (attribute_vals msg.attributes "group")

/-! ## Constants of `sdp_utils.h` and `kmsbasertpendpoint.h` -/

/-- Modelled from the spec: `AUDIO_STREAM_NAME` of the header `sdp_utils.h`,
which is not among the sources; the spec names the streams "audio", "video"
and "bundle". -/
def AUDIO_STREAM_NAME : String := "audio"

/-- Modelled from the spec: `VIDEO_STREAM_NAME` of the missing `sdp_utils.h`. -/
def VIDEO_STREAM_NAME : String := "video"

/-- Modelled from the spec: `BUNDLE_STREAM_NAME` of the missing `sdp_utils.h`. -/
def BUNDLE_STREAM_NAME : String := "bundle"

/-- Modelled from the spec: `RTCP_MUX` of the missing `sdp_utils.h`, the key of
the SDP artifact `a=rtcp-mux`. -/
def RTCP_MUX : String := "rtcp-mux"

/-- Modelled from the spec: `RTCP_FB` of the missing `sdp_utils.h`, the key of
the SDP artifact `a=rtcp-fb:<pt> <fb-type>`. -/
def RTCP_FB : String := "rtcp-fb"

/-- Modelled from the spec: `VP8_ENCONDING_NAME` of the missing `sdp_utils.h`,
the expected video encoding. -/
def VP8_ENCONDING_NAME : String := "VP8"

/-- Modelled from the spec: `AUDIO_RTP_SESSION` of the missing header, one of
the two fixed small session ids. -/
def AUDIO_RTP_SESSION : Nat := 0

/-- Modelled from the spec: `VIDEO_RTP_SESSION` of the missing header, the
other fixed small session id. -/
def VIDEO_RTP_SESSION : Nat := 1

/-- The parts of `sdp_utils` that the code uses and the sources do not
contain: the four feedback type strings and the lookup of the encoding name
of a payload type in a media section. -/
structure SdpUtils where
  RTCP_FB_FIR : String
  RTCP_FB_NACK : String
  RTCP_FB_PLI : String
  RTCP_FB_REMB : String
  gst_sdp_media_format_get_encoding_name : GstSDPMedia → String → String

/-- `sdp_message_is_rtcp_mux`, the loop over the media sections. -/
def sdp_message_is_rtcp_mux_loop : List GstSDPMedia → Bool
  | [] => true
  | media :: rest =>
    match gst_sdp_media_get_attribute_val media RTCP_MUX with
    | none => false
    | some _ => sdp_message_is_rtcp_mux_loop rest

/-- `sdp_message_is_rtcp_mux`. -/
def sdp_message_is_rtcp_mux (msg : GstSDPMessage) : Bool :=
  sdp_message_is_rtcp_mux_loop msg.medias

/-- `rtcp_fb_attr_check_type`: `attr` is exactly `pt ++ " " ++ type`. -/
def rtcp_fb_attr_check_type (attr pt type : String) : Bool :=
  let aux := pt ++ " " ++ type
  attr == aux

/-- The four feedback flags (`*fir`, `*nack`, `*pli`, `*remb`). -/
structure RtcpFbFlags where
  fir : Bool
  nack : Bool
  pli : Bool
  remb : Bool
  deriving DecidableEq, Repr

/-- The innermost loop of `sdp_message_get_vp8_rtcp_fb_attrs`, over the values
of the `rtcp-fb` attributes of the section. -/
def vp8_rtcp_fb_attrs_loop (K : SdpUtils) (pt : String) :
    List String → RtcpFbFlags → RtcpFbFlags
  | [], fl => fl
  | attr :: rest, fl =>
    if rtcp_fb_attr_check_type attr pt K.RTCP_FB_FIR then
      vp8_rtcp_fb_attrs_loop K pt rest { fl with fir := true }
    else if rtcp_fb_attr_check_type attr pt K.RTCP_FB_NACK then
      vp8_rtcp_fb_attrs_loop K pt rest { fl with nack := true }
    else if rtcp_fb_attr_check_type attr pt K.RTCP_FB_PLI then
      vp8_rtcp_fb_attrs_loop K pt rest { fl with pli := true }
    else if rtcp_fb_attr_check_type attr pt K.RTCP_FB_REMB then
      vp8_rtcp_fb_attrs_loop K pt rest { fl with remb := true }
    else vp8_rtcp_fb_attrs_loop K pt rest fl

/-- The loop over the formats of one video section; the second component says
whether the function has executed its `return` (after the attributes of the
first format whose encoding is VP8). -/
def vp8_rtcp_fb_formats_loop (K : SdpUtils) (media : GstSDPMedia) :
    List String → RtcpFbFlags → RtcpFbFlags × Bool
  | [], fl => (fl, false)
  | pt :: rest, fl =>
    let enconding_name := K.gst_sdp_media_format_get_encoding_name media pt
    if !(g_ascii_strcasecmp_eq VP8_ENCONDING_NAME enconding_name) then
      vp8_rtcp_fb_formats_loop K media rest fl
    else
      (vp8_rtcp_fb_attrs_loop K pt (attribute_vals media.attributes RTCP_FB) fl, true)

/-- The loop over the media sections. -/
def vp8_rtcp_fb_medias_loop (K : SdpUtils) :
    List GstSDPMedia → RtcpFbFlags → RtcpFbFlags
  | [], fl => fl
  | media :: rest, fl =>
    if media.media != VIDEO_STREAM_NAME then vp8_rtcp_fb_medias_loop K rest fl
    else
      match vp8_rtcp_fb_formats_loop K media media.fmts fl with
      | (fl1, true) => fl1
      | (fl1, false) => vp8_rtcp_fb_medias_loop K rest fl1

/-- `sdp_message_get_vp8_rtcp_fb_attrs`: the four output flags. -/
def sdp_message_get_vp8_rtcp_fb_attrs (K : SdpUtils) (msg : GstSDPMessage) :
    RtcpFbFlags :=
  vp8_rtcp_fb_medias_loop K msg.medias ⟨false, false, false, false⟩

/-! ## Endpoint state and its collaborators -/

/-- `KmsRembLocal`, the receive-side estimator: what it was created with. -/
structure KmsRembLocal where
  remote_ssrc : Nat
  max_bw : Int
  deriving DecidableEq, Repr

/-- `KmsRembRemote`, the send-side estimator: what it was created with. -/
structure KmsRembRemote where
  local_ssrc : Nat
  min_bw : Nat
  max_bw : Nat
  deriving DecidableEq, Repr

/-- `struct _KmsBaseRtpEndpointPrivate` (the `GstElement` pointers apart). -/
structure KmsBaseRtpEndpointPrivate where
  proto : Option String
  bundle : Bool
  rtcp_mux : Bool
  rtcp_fir : Bool
  rtcp_nack : Bool
  rtcp_pli : Bool
  rtcp_remb : Bool
  local_audio_ssrc : Nat
  remote_audio_ssrc : Nat
  audio_ssrc : Nat
  local_video_ssrc : Nat
  remote_video_ssrc : Nat
  video_ssrc : Nat
  target_bitrate : Int
  min_video_send_bw : Nat
  max_video_send_bw : Nat
  rl : Option KmsRembLocal
  rm : Option KmsRembRemote
  deriving DecidableEq, Repr

/-- A transport connection handed out by the connection registry. -/
structure KmsIRtpConnection where
  id : Nat
  deriving DecidableEq, Repr

/-- A request to the connection registry (the virtual methods
`create_connection` and `create_bundle_connection` of the endpoint class). -/
inductive ConnRequest where
  | create_connection (name : String)
  | create_bundle_connection (name : String)
  deriving DecidableEq, Repr

/-- One call of the registry: the request and what it returned (`none` is the
C `NULL`). -/
structure ConnCall where
  request : ConnRequest
  result : Option KmsIRtpConnection
  deriving DecidableEq, Repr

/-- The endpoint: its private data and the calls it has made to the
connection registry so far, oldest first. -/
structure KmsBaseRtpEndpoint where
  priv : KmsBaseRtpEndpointPrivate
  conn_calls : List ConnCall
  deriving DecidableEq, Repr

/-- What `kms_base_rtp_endpoint_set_transport_to_sdp` reads from outside the
endpoint: the properties `remote-offer-sdp` and `use-ipv6` of the base SDP
endpoint, the `cname` of the `sdes` of rtpbin, the internal RTP session of
rtpbin for a session id (given by its `internal-ssrc`; `none` when rtpbin
returns no session), and the connection registry of the subclass, whose answer
may depend on the calls made before. -/
structure Env where
  remote_offer_sdp : Option GstSDPMessage
  use_ipv6 : Bool
  cname : String
  internal_session : Nat → Option Nat
  registry : List ConnCall → ConnRequest → Option KmsIRtpConnection

/-- `kms_base_rtp_endpoint_create_connection`: ask the registry and record the
call. -/
def kms_base_rtp_endpoint_create_connection (E : Env) (self : KmsBaseRtpEndpoint)
    (name : String) : KmsBaseRtpEndpoint × Option KmsIRtpConnection :=
  let conn := E.registry self.conn_calls (.create_connection name)
  ({ self with conn_calls := self.conn_calls ++ [⟨.create_connection name, conn⟩] }, conn)

/-- `kms_base_rtp_endpoint_create_bundle_connection`. -/
def kms_base_rtp_endpoint_create_bundle_connection (E : Env)
    (self : KmsBaseRtpEndpoint) (name : String) :
    KmsBaseRtpEndpoint × Option KmsIRtpConnection :=
  let conn := E.registry self.conn_calls (.create_bundle_connection name)
  ({ self with conn_calls := self.conn_calls ++ [⟨.create_bundle_connection name, conn⟩] },
    conn)

/-- `kms_base_rtp_endpoint_create_rtp_session`: the internal session of rtpbin
for the session id, identified by its `internal-ssrc`. -/
def kms_base_rtp_endpoint_create_rtp_session (E : Env) (session_id : Nat) :
    Option Nat :=
  E.internal_session session_id

/-! ## Rewriting the transport lines of one media section -/

/-- The body of the loop of `kms_base_rtp_endpoint_media_set_rtcp_fb_attrs`
for one format. -/
def media_set_rtcp_fb_attrs_step (K : SdpUtils) (priv : KmsBaseRtpEndpointPrivate)
    (media : GstSDPMedia) (pt : String) : GstSDPMedia :=
  let enconding_name := K.gst_sdp_media_format_get_encoding_name media pt
  if g_ascii_strcasecmp_eq VP8_ENCONDING_NAME enconding_name then
    let media :=
      if priv.rtcp_fir then
        gst_sdp_media_add_attribute media RTCP_FB (pt ++ " " ++ K.RTCP_FB_FIR)
      else media
    let media :=
      if priv.rtcp_nack then
        gst_sdp_media_add_attribute media RTCP_FB (pt ++ " " ++ K.RTCP_FB_NACK)
      else media
    let media :=
      if priv.rtcp_pli then
        gst_sdp_media_add_attribute media RTCP_FB (pt ++ " " ++ K.RTCP_FB_PLI)
      else media
    let media :=
      if priv.rtcp_remb then
        gst_sdp_media_add_attribute media RTCP_FB (pt ++ " " ++ K.RTCP_FB_REMB)
      else media
    media
  else media

/-- `kms_base_rtp_endpoint_media_set_rtcp_fb_attrs`. -/
def kms_base_rtp_endpoint_media_set_rtcp_fb_attrs (K : SdpUtils)
    (priv : KmsBaseRtpEndpointPrivate) (media : GstSDPMedia) : GstSDPMedia :=
  if media.media != VIDEO_STREAM_NAME then media
  else media.fmts.foldl (media_set_rtcp_fb_attrs_step K priv) media

/-- `gst_sdp_media_remove_connection`: remove the connection at `idx`; an
index past the end leaves the array as it is (`g_array_remove_index` refuses
it). -/
def gst_sdp_media_remove_connection (media : GstSDPMedia) (idx : Nat) : GstSDPMedia :=
  { media with connections := media.connections.eraseIdx idx }

/-- `gst_sdp_media_add_connection`. -/
def gst_sdp_media_add_connection (media : GstSDPMedia)
    (nettype addrtype address : String) (ttl addr_number : Nat) : GstSDPMedia :=
  { media with
    connections := media.connections ++ [⟨nettype, addrtype, address, ttl, addr_number⟩] }

/-- The part of `kms_base_rtp_endpoint_update_sdp_media` that rewrites the
transport lines of the section (from `gst_sdp_media_set_proto` to the `ssrc`
attribute), for the `internal-ssrc` of the RTP session. -/
def update_sdp_media_lines (priv : KmsBaseRtpEndpointPrivate) (media : GstSDPMedia)
    (use_ipv6 : Bool) (cname : String) (ssrc : Nat) : GstSDPMedia :=
  let media := { media with proto := priv.proto }
  let addr_type := if use_ipv6 then "IP6" else "IP4"
  let rtp_addr := "0.0.0.0"
  let rtcp_addr := "0.0.0.0"
  let rtp_port := 1
  let rtcp_port := 1
  let media := { media with port := rtp_port }
  let conn_len := media.connections.length
  let media := (List.range conn_len).foldl gst_sdp_media_remove_connection media
  let media := gst_sdp_media_add_connection media "IN" addr_type rtp_addr 0 0
  let str := toString rtcp_port ++ " IN " ++ addr_type ++ " " ++ rtcp_addr
  let media := gst_sdp_media_add_attribute media "rtcp" str
  let media :=
    if priv.bundle || priv.rtcp_mux then gst_sdp_media_add_attribute media RTCP_MUX ""
    else media
  let str := toString ssrc ++ " cname:" ++ cname
  gst_sdp_media_add_attribute media "ssrc" str

/-- The part of `kms_base_rtp_endpoint_update_sdp_media` that stores the local
SSRC of the session. -/
def update_sdp_media_local_ssrc (self : KmsBaseRtpEndpoint) (session_id ssrc : Nat) :
    KmsBaseRtpEndpoint :=
  if session_id == AUDIO_RTP_SESSION then
    { self with priv := { self.priv with local_audio_ssrc := ssrc } }
  else if session_id == VIDEO_RTP_SESSION then
    { self with priv := { self.priv with local_video_ssrc := ssrc } }
  else self

/-- `kms_base_rtp_endpoint_update_sdp_media`: the endpoint and the media
section afterwards, and the returned media string (`none` is `NULL`). -/
def kms_base_rtp_endpoint_update_sdp_media (K : SdpUtils) (E : Env)
    (self : KmsBaseRtpEndpoint) (media : GstSDPMedia) (use_ipv6 : Bool)
    (cname : String) : KmsBaseRtpEndpoint × GstSDPMedia × Option String :=
  let media_str := media.media
  let session? : Option Nat :=
    if media_str == AUDIO_STREAM_NAME then some AUDIO_RTP_SESSION
    else if media_str == VIDEO_STREAM_NAME then some VIDEO_RTP_SESSION
    else none
  match session? with
  | none => (self, media, none)
  | some session_id =>
    match kms_base_rtp_endpoint_create_rtp_session E session_id with
    | none => (self, media, none)
    | some ssrc =>
      let media := update_sdp_media_lines self.priv media use_ipv6 cname ssrc
      let self := update_sdp_media_local_ssrc self session_id ssrc
      let media := kms_base_rtp_endpoint_media_set_rtcp_fb_attrs K self.priv media
      (self, media, some media_str)

/-! ## `kms_base_rtp_endpoint_set_transport_to_sdp` -/

/-- The first step of `kms_base_rtp_endpoint_set_transport_to_sdp`: when the
base endpoint has a remote offer, the six negotiation flags are derived from
it. -/
def set_transport_derive_flags (K : SdpUtils) (E : Env)
    (priv : KmsBaseRtpEndpointPrivate) : KmsBaseRtpEndpointPrivate :=
  match E.remote_offer_sdp with
  | some remote_offer_sdp =>
    let fb := sdp_message_get_vp8_rtcp_fb_attrs K remote_offer_sdp
    { priv with
      bundle := sdp_message_is_bundle remote_offer_sdp
      rtcp_mux := sdp_message_is_rtcp_mux remote_offer_sdp
      rtcp_fir := fb.fir
      rtcp_nack := fb.nack
      rtcp_pli := fb.pli
      rtcp_remb := fb.remb }
  | none => priv

/-- The state of the loop over the media sections: the return value so far,
the endpoint, the string `bundle_mids` (`none` is `NULL`) and the media
sections of the message. -/
structure SetTransportLoop where
  ret : Bool
  self : KmsBaseRtpEndpoint
  bundle_mids : Option String
  medias : List GstSDPMedia

/-- The loop of `kms_base_rtp_endpoint_set_transport_to_sdp` over the media
sections still to be handled; `ret = false` is the `goto end`. -/
def set_transport_medias_loop (K : SdpUtils) (E : Env) :
    KmsBaseRtpEndpoint → Option String → List GstSDPMedia → SetTransportLoop
  | self, bundle_mids, [] => ⟨true, self, bundle_mids, []⟩
  | self, bundle_mids, media :: rest =>
    let use_ipv6 := E.use_ipv6
    match kms_base_rtp_endpoint_update_sdp_media K E self media use_ipv6 E.cname with
    | (self, media, none) => ⟨false, self, bundle_mids, media :: rest⟩
    | (self, media, some media_str) =>
      if self.priv.bundle then
        let tmp := bundle_mids.map (fun b => b ++ " " ++ media_str)
        let r := set_transport_medias_loop K E self tmp rest
        { r with medias := media :: r.medias }
      else if media_str != AUDIO_STREAM_NAME && media_str != VIDEO_STREAM_NAME then
        let r := set_transport_medias_loop K E self bundle_mids rest
        { r with medias := media :: r.medias }
      else
        match kms_base_rtp_endpoint_create_connection E self media_str with
        | (self, none) => ⟨false, self, bundle_mids, media :: rest⟩
        | (self, some _) =>
          let r := set_transport_medias_loop K E self bundle_mids rest
          { r with medias := media :: r.medias }

/-- The end of `kms_base_rtp_endpoint_set_transport_to_sdp`, after the loop:
when the loop ran through (no `goto end`) and bundling is on, the `group`
attribute is appended (a `NULL` value, which does not occur, would give an
attribute without value). -/
def set_transport_finish (r : SetTransportLoop) (msg : GstSDPMessage) :
    Bool × KmsBaseRtpEndpoint × GstSDPMessage :=
  let msg := { msg with medias := r.medias }
  if r.ret then
    if r.self.priv.bundle then
      (r.ret, r.self, gst_sdp_message_add_attribute msg "group" (r.bundle_mids.getD ""))
    else (r.ret, r.self, msg)
  else (r.ret, r.self, msg)

/-- `kms_base_rtp_endpoint_set_transport_to_sdp`: the return value, the
endpoint afterwards and the message afterwards. -/
def kms_base_rtp_endpoint_set_transport_to_sdp (K : SdpUtils) (E : Env)
    (self : KmsBaseRtpEndpoint) (msg : GstSDPMessage) :
    Bool × KmsBaseRtpEndpoint × GstSDPMessage :=
  let self := { self with priv := set_transport_derive_flags K E self.priv }
  if self.priv.bundle then
    match kms_base_rtp_endpoint_create_bundle_connection E self BUNDLE_STREAM_NAME with
    | (self, none) => (false, self, msg)
    | (self, some _) =>
      set_transport_finish (set_transport_medias_loop K E self (some "BUNDLE") msg.medias) msg
  else
    set_transport_finish (set_transport_medias_loop K E self none msg.medias) msg

/-! ## Sample inputs -/

/-- The feedback type strings of Kurento and a lookup that names the payload
types 100 and 101 VP8 and every other one PCMU. -/
def sampleUtils : SdpUtils :=
  { RTCP_FB_FIR := "ccm fir"
    RTCP_FB_NACK := "nack"
    RTCP_FB_PLI := "nack pli"
    RTCP_FB_REMB := "goog-remb"
    gst_sdp_media_format_get_encoding_name := fun _ pt =>
      if pt == "100" || pt == "101" then "VP8" else "PCMU" }

/-- An endpoint as `kms_base_rtp_endpoint_init` leaves it. -/
def initEndpoint : KmsBaseRtpEndpoint :=
  { priv :=
      { proto := none, bundle := false, rtcp_mux := false, rtcp_fir := false,
        rtcp_nack := false, rtcp_pli := false, rtcp_remb := false,
        local_audio_ssrc := 0, remote_audio_ssrc := 0, audio_ssrc := 0,
        local_video_ssrc := 0, remote_video_ssrc := 0, video_ssrc := 0,
        target_bitrate := 0, min_video_send_bw := 100, max_video_send_bw := 500,
        rl := none, rm := none }
    conn_calls := [] }

/-- An environment without remote offer whose rtpbin has both sessions and
whose registry hands out a connection for every request. -/
def sampleEnv : Env :=
  { remote_offer_sdp := none
    use_ipv6 := false
    cname := "user@host"
    internal_session := fun id => some (1000 + id)
    registry := fun calls _ => some ⟨calls.length⟩ }

/-- A media section of the given type with one format and no attributes. -/
def sampleMedia (kind pt : String) : GstSDPMedia :=
  { media := kind, port := 9, proto := some "RTP/AVP", fmts := [pt],
    connections := [], attributes := [] }

/-- An SDP with an audio and a video section. -/
def sampleSdp : GstSDPMessage :=
  { attributes := [], medias := [sampleMedia "audio" "0", sampleMedia "video" "100"] }

/-- The value of a `group` attribute that lists the given mids: `BUNDLE`
followed by a space and the mid, for each mid in order. -/
def bundle_group_value (mids : List String) : String :=
  mids.foldl (fun acc mid => acc ++ " " ++ mid) "BUNDLE"

/-- An offer whose first `group` attribute is a bare `BUNDLE` and whose second
one lists two mids. -/
def offerBareThenBundle : GstSDPMessage :=
  { attributes := [⟨"group", "BUNDLE"⟩, ⟨"group", "BUNDLE audio video"⟩], medias := [] }

/-- An offer whose only `group` attribute has `BUNDLE` inside its value, not
at its start. -/
def offerInnerBundle : GstSDPMessage :=
  { attributes := [⟨"group", "X-BUNDLE audio video"⟩], medias := [] }

/-- An offer whose only `group` attribute is `BUNDLE` and a trailing blank. -/
def offerTrailingBlank : GstSDPMessage :=
  { attributes := [⟨"group", "BUNDLE "⟩], medias := [] }

/-- An offer with a grouping that is not a bundle and a bare `BUNDLE`. -/
def offerNoBundle : GstSDPMessage :=
  { attributes := [⟨"group", "LS audio video"⟩, ⟨"tool", "x"⟩, ⟨"group", "BUNDLE"⟩],
    medias := [] }

/-- The first format of the section whose encoding name is VP8 up to ASCII
case. -/
def first_vp8_format (K : SdpUtils) (media : GstSDPMedia) : Option String :=
  media.fmts.find? (fun pt =>
    g_ascii_strcasecmp_eq VP8_ENCONDING_NAME (K.gst_sdp_media_format_get_encoding_name media pt))

/-- The first video section that has a VP8 format, with its first VP8
format. -/
def first_vp8_video (K : SdpUtils) (medias : List GstSDPMedia) :
    Option (GstSDPMedia × String) :=
  medias.findSome? (fun m =>
    if m.media = VIDEO_STREAM_NAME then (first_vp8_format K m).map (fun pt => (m, pt))
    else none)

/-- The feedback type strings are pairwise distinct. -/
def SdpUtils.distinct (K : SdpUtils) : Prop :=
  K.RTCP_FB_FIR ≠ K.RTCP_FB_NACK ∧ K.RTCP_FB_FIR ≠ K.RTCP_FB_PLI ∧
  K.RTCP_FB_FIR ≠ K.RTCP_FB_REMB ∧ K.RTCP_FB_NACK ≠ K.RTCP_FB_PLI ∧
  K.RTCP_FB_NACK ≠ K.RTCP_FB_REMB ∧ K.RTCP_FB_PLI ≠ K.RTCP_FB_REMB

/-- An offer with one video section whose two formats are both VP8 and whose
only feedback attribute names the second format. -/
def offerTwoVp8 : GstSDPMessage :=
  { attributes := []
    medias := [{ media := "video", port := 9, proto := some "RTP/SAVPF",
                 fmts := ["100", "101"], connections := [],
                 attributes := [⟨"rtcp-fb", "101 nack"⟩] }] }

/-- An offer with two video sections, each with one VP8 format, whose only
feedback attribute is in the second section. -/
def offerTwoVideo : GstSDPMessage :=
  { attributes := []
    medias := [{ media := "video", port := 9, proto := some "RTP/SAVPF",
                 fmts := ["100"], connections := [], attributes := [] },
               { media := "video", port := 9, proto := some "RTP/SAVPF",
                 fmts := ["101"], connections := [],
                 attributes := [⟨"rtcp-fb", "101 nack"⟩] }] }

/-- An offer with an audio section and a video section whose VP8 format 100
has the feedback attributes for NACK and REMB. -/
def offerVp8Fb : GstSDPMessage :=
  { attributes := []
    medias := [{ media := "audio", port := 9, proto := some "RTP/SAVPF",
                 fmts := ["0"], connections := [],
                 attributes := [⟨"rtcp-fb", "0 nack"⟩] },
               { media := "video", port := 9, proto := some "RTP/SAVPF",
                 fmts := ["96", "100"], connections := [],
                 attributes := [⟨"rtcp-fb", "100 nack"⟩, ⟨"rtcp-mux", ""⟩,
                   ⟨"rtcp-fb", "100 goog-remb"⟩, ⟨"rtcp-fb", "96 ccm fir"⟩] }] }

/-- The six negotiation flags. -/
structure NegotiationFlags where
  bundle : Bool
  rtcp_mux : Bool
  rtcp_fir : Bool
  rtcp_nack : Bool
  rtcp_pli : Bool
  rtcp_remb : Bool
  deriving DecidableEq, Repr

/-- The negotiation flags stored in the endpoint. -/
def KmsBaseRtpEndpointPrivate.flags (p : KmsBaseRtpEndpointPrivate) : NegotiationFlags :=
  ⟨p.bundle, p.rtcp_mux, p.rtcp_fir, p.rtcp_nack, p.rtcp_pli, p.rtcp_remb⟩

/-- The negotiation flags that the three derivation functions give for an
offer. -/
def offer_flags (K : SdpUtils) (offer : GstSDPMessage) : NegotiationFlags :=
  ⟨sdp_message_is_bundle offer, sdp_message_is_rtcp_mux offer,
   (sdp_message_get_vp8_rtcp_fb_attrs K offer).fir,
   (sdp_message_get_vp8_rtcp_fb_attrs K offer).nack,
   (sdp_message_get_vp8_rtcp_fb_attrs K offer).pli,
   (sdp_message_get_vp8_rtcp_fb_attrs K offer).remb⟩

/-- The second section has the attributes of the first followed by `rtcp-fb`
attributes only. -/
def AppendsFb (m m1 : GstSDPMedia) : Prop :=
  ∃ extra, m1.attributes = m.attributes ++ extra ∧ ∀ a ∈ extra, a.key = RTCP_FB

/-- The `rtcp-mux` attributes of the section `m1` are those of `m`, followed
by one more exactly when the bundle flag or the rtcp-mux flag is set. -/
def MuxAdded (bundle rtcp_mux : Bool) (m m1 : GstSDPMedia) : Prop :=
  attribute_vals m1.attributes RTCP_MUX
    = attribute_vals m.attributes RTCP_MUX ++ (if bundle || rtcp_mux then [""] else [])

/-- A successful `kms_base_rtp_endpoint_update_sdp_media` step from `self` and
`media` to `self1` and `media1`. -/
def StepOk (self : KmsBaseRtpEndpoint) (media : GstSDPMedia)
    (self1 : KmsBaseRtpEndpoint) (media1 : GstSDPMedia) : Prop :=
  (media.media = AUDIO_STREAM_NAME ∨ media.media = VIDEO_STREAM_NAME) ∧
  self1.priv.flags = self.priv.flags ∧ self1.conn_calls = self.conn_calls ∧
  MuxAdded self.priv.bundle self.priv.rtcp_mux media media1

/-- The registry calls that the endpoint `after` has made since it was
`before`. -/
def calls_since (before after : KmsBaseRtpEndpoint) : List ConnCall :=
  after.conn_calls.drop before.conn_calls.length

/-- The endpoint when the loop of `kms_base_rtp_endpoint_set_transport_to_sdp`
starts: the flags are derived and, when bundling, the call for the bundle
connection that returned `c` is recorded. -/
def set_transport_loop_start (K : SdpUtils) (E : Env) (self : KmsBaseRtpEndpoint)
    (c : Option KmsIRtpConnection) : KmsBaseRtpEndpoint :=
  { priv := set_transport_derive_flags K E self.priv
    conn_calls :=
      if (set_transport_derive_flags K E self.priv).bundle then
        self.conn_calls ++ [⟨.create_bundle_connection BUNDLE_STREAM_NAME, c⟩]
      else self.conn_calls }

/-- The sample SDP followed by an application section. -/
def sdpWithApplication : GstSDPMessage :=
  { attributes := []
    medias := [sampleMedia "audio" "0", sampleMedia "application" "5000",
      sampleMedia "video" "100"] }

/-- The sample environment with a registry that has no bundle connection. -/
def envNoBundleConn : Env :=
  { sampleEnv with
    remote_offer_sdp := some ⟨[⟨"group", "BUNDLE audio video"⟩], []⟩
    registry := fun _ r =>
      match r with
      | .create_bundle_connection _ => none
      | .create_connection _ => some ⟨7⟩ }

/-- The sample environment with a registry that has no video connection. -/
def envNoVideoConn : Env :=
  { sampleEnv with
    registry := fun calls r =>
      if r = .create_connection "video" then none else some ⟨calls.length⟩ }

/-- The sample environment with a remote offer that bundles audio and video
(and, having no media section, counts as rtcp-mux). -/
def envBundleOffer : Env :=
  { sampleEnv with remote_offer_sdp := some ⟨[⟨"group", "BUNDLE audio video"⟩], []⟩ }

/-- An endpoint configured with bundle and without rtcp-mux. -/
def endpointBundle : KmsBaseRtpEndpoint :=
  { initEndpoint with priv := { initEndpoint.priv with bundle := true } }

/-! ## Active-media tracking (`on-new-ssrc`) -/

/-- `kms_base_rtp_endpoint_rtpbin_on_new_ssrc`: the private data after the
`on-new-ssrc` signal of rtpbin for the session and the SSRC. -/
def kms_base_rtp_endpoint_rtpbin_on_new_ssrc (session ssrc : Nat)
    (self : KmsBaseRtpEndpoint) : KmsBaseRtpEndpoint :=
  if session = AUDIO_RTP_SESSION then
    if self.priv.audio_ssrc != 0 then self
    else { self with priv := { self.priv with audio_ssrc := ssrc } }
  else if session = VIDEO_RTP_SESSION then
    if self.priv.video_ssrc != 0 then self
    else { self with priv := { self.priv with video_ssrc := ssrc } }
  else self

/-! ## SSRC demultiplexing (`new-ssrc-pad`) -/

/-- Modelled from the spec: the four receive sink pads of rtpbin that the
macros `AUDIO_RTPBIN_RECV_RTP_SINK`, `AUDIO_RTPBIN_RECV_RTCP_SINK`,
`VIDEO_RTPBIN_RECV_RTP_SINK` and `VIDEO_RTPBIN_RECV_RTCP_SINK` of the missing
header name: the RTP and RTCP pads of the audio path and those of the video
path. -/
inductive RtpbinRecvSink where
  | AUDIO_RTPBIN_RECV_RTP_SINK
  | AUDIO_RTPBIN_RECV_RTCP_SINK
  | VIDEO_RTPBIN_RECV_RTP_SINK
  | VIDEO_RTPBIN_RECV_RTCP_SINK
  deriving DecidableEq, Repr

/-- The pad belongs to the audio path. -/
def RtpbinRecvSink.is_audio : RtpbinRecvSink → Bool
  | .AUDIO_RTPBIN_RECV_RTP_SINK => true
  | .AUDIO_RTPBIN_RECV_RTCP_SINK => true
  | _ => false

/-- The pad belongs to the video path. -/
def RtpbinRecvSink.is_video : RtpbinRecvSink → Bool
  | .VIDEO_RTPBIN_RECV_RTP_SINK => true
  | .VIDEO_RTPBIN_RECV_RTCP_SINK => true
  | _ => false

/-- One `gst_element_link_pads (ssrcdemux, src_pad, rtpbin, sink_pad)`. -/
structure PadLink where
  src_pad : String
  sink_pad : RtpbinRecvSink
  deriving DecidableEq, Repr

/-- `ssrcs_are_mapped`; the first argument is the answer of the signal
`get-local-rr-ssrc-pair` of the RTCP demultiplexer for a remote SSRC. -/
def ssrcs_are_mapped (get_local_rr_ssrc_pair : Nat → Nat) (local_ssrc remote_ssrc : Nat) :
    Bool :=
  let local_ssrc_pair := get_local_rr_ssrc_pair remote_ssrc
  (local_ssrc != 0) && (local_ssrc_pair == local_ssrc)

/-- `rtp_ssrc_demux_new_ssrc_pad`: the pad links made for the new SSRC, in
order; `rtp_pad_name` is the name of the new pad of the demultiplexer. -/
def rtp_ssrc_demux_new_ssrc_pad (get_local_rr_ssrc_pair : Nat → Nat) (ssrc : Nat)
    (rtp_pad_name : String) (self : KmsBaseRtpEndpoint) : List PadLink :=
  let rtcp_pad_name := "rtcp_" ++ rtp_pad_name
  if self.priv.remote_audio_ssrc == ssrc
      || ssrcs_are_mapped get_local_rr_ssrc_pair self.priv.local_audio_ssrc ssrc then
    [⟨rtp_pad_name, .AUDIO_RTPBIN_RECV_RTP_SINK⟩, ⟨rtcp_pad_name, .AUDIO_RTPBIN_RECV_RTCP_SINK⟩]
  else if self.priv.remote_video_ssrc == ssrc
      || ssrcs_are_mapped get_local_rr_ssrc_pair self.priv.local_video_ssrc ssrc then
    [⟨rtp_pad_name, .VIDEO_RTPBIN_RECV_RTP_SINK⟩, ⟨rtcp_pad_name, .VIDEO_RTPBIN_RECV_RTCP_SINK⟩]
  else []

/-- Some link of the list goes to the audio path. -/
def links_to_audio (links : List PadLink) : Prop := ∃ l ∈ links, l.sink_pad.is_audio = true

/-- Some link of the list goes to the video path. -/
def links_to_video (links : List PadLink) : Prop := ∃ l ∈ links, l.sink_pad.is_video = true

/-- An endpoint after negotiation of a bundle: local SSRCs 11 (audio) and 12
(video), remote SSRCs 5 (audio) and 7 (video). -/
def endpointBundled : KmsBaseRtpEndpoint :=
  { initEndpoint with
    priv := { initEndpoint.priv with
      bundle := true, local_audio_ssrc := 11, local_video_ssrc := 12,
      remote_audio_ssrc := 5, remote_video_ssrc := 7 } }

/-- An endpoint whose two remote SSRCs are the same, 7. -/
def endpointSameRemote : KmsBaseRtpEndpoint :=
  { initEndpoint with
    priv := { initEndpoint.priv with
      bundle := true, local_audio_ssrc := 11, local_video_ssrc := 12,
      remote_audio_ssrc := 7, remote_video_ssrc := 7 } }

/-- A receiver-report lookup that knows no pair. -/
def rrNone : Nat → Nat := fun _ => 0

/-- A receiver-report lookup in which the remote SSRC 7 reports on the local
SSRC 11 and the remote SSRC 9 on the local SSRC 12. -/
def rrCross : Nat → Nat := fun s => if s = 7 then 11 else if s = 9 then 12 else 0


/-! ## `kms_base_rtp_endpoint_start_transport_send` -/

/-- What `kms_base_rtp_endpoint_start_transport_send` reads from outside the
endpoint: the function `sdp_utils_media_get_ssrc` of the missing `sdp_utils`
(the SSRC that a media section declares, 0 when it declares none), the
internal RTP session of rtpbin for a session id (`none` when rtpbin returns no
session) and the property `max-video-recv-bandwidth` of the base class. -/
structure SendEnv where
  sdp_utils_media_get_ssrc : GstSDPMedia → Nat
  internal_session : Nat → Option Nat
  max_video_recv_bandwidth : Int

/-- Modelled from the spec: `kms_remb_local_create` of the missing `kmsremb`,
the receive-side estimator bound to the remote video SSRC and the configured
max-receive ceiling. -/
def kms_remb_local_create (remote_ssrc : Nat) (max_bw : Int) : KmsRembLocal :=
  ⟨remote_ssrc, max_bw⟩

/-- Modelled from the spec: `kms_remb_remote_create` of the missing `kmsremb`,
the send-side estimator bound to the local video SSRC and the send bounds. -/
def kms_remb_remote_create (local_ssrc min_bw max_bw : Nat) : KmsRembRemote :=
  ⟨local_ssrc, min_bw, max_bw⟩

/-- `kms_base_rtp_endpoint_create_remb_managers`. -/
def kms_base_rtp_endpoint_create_remb_managers (S : SendEnv) (self : KmsBaseRtpEndpoint) :
    KmsBaseRtpEndpoint :=
  match S.internal_session VIDEO_RTP_SESSION with
  | none => self
  | some _ =>
    let max_recv_bw := S.max_video_recv_bandwidth
    let self : KmsBaseRtpEndpoint :=
      { self with priv := { self.priv with
          rl := some (kms_remb_local_create self.priv.remote_video_ssrc max_recv_bw) } }
    { self with priv := { self.priv with
        rm := some (kms_remb_remote_create self.priv.local_video_ssrc
          self.priv.min_video_send_bw self.priv.max_video_send_bw) } }

/-- The body of the loop of `kms_base_rtp_endpoint_start_transport_send` for
one media section of the chosen SDP.  The wiring of pads to the connections
(`kms_base_rtp_endpoint_add_connection` and the like) changes nothing in the
private data and is left out. -/
def start_transport_send_media (S : SendEnv) (self : KmsBaseRtpEndpoint)
    (media : GstSDPMedia) : KmsBaseRtpEndpoint :=
  let media_str := media.media
  if media_str == AUDIO_STREAM_NAME then
    { self with priv := { self.priv with
        remote_audio_ssrc := S.sdp_utils_media_get_ssrc media } }
  else if media_str == VIDEO_STREAM_NAME then
    let self : KmsBaseRtpEndpoint :=
      { self with priv := { self.priv with
          remote_video_ssrc := S.sdp_utils_media_get_ssrc media } }
    if self.priv.rtcp_remb then kms_base_rtp_endpoint_create_remb_managers S self
    else self
  else self

/-- `kms_base_rtp_endpoint_start_transport_send`: the endpoint afterwards.
The SDP worked on is the answer when `local_offer` is set and the offer
otherwise.  The warning on a different number of media sections and the
attaching of the bundle connection change nothing in the private data and are
left out. -/
def kms_base_rtp_endpoint_start_transport_send (S : SendEnv) (self : KmsBaseRtpEndpoint)
    (offer answer : GstSDPMessage) (local_offer : Bool) : KmsBaseRtpEndpoint :=
  let sdp := if local_offer then answer else offer
  sdp.medias.foldl (start_transport_send_media S) self

/-- The last media section of the given type, if there is one. -/
def last_media (kind : String) (medias : List GstSDPMedia) : Option GstSDPMedia :=
  medias.reverse.find? (fun m => m.media == kind)

/-- A lookup of the declared SSRC: the decimal number at the start of the
first `ssrc` attribute of the section, 0 when there is no such attribute. -/
def sampleGetSsrc (media : GstSDPMedia) : Nat :=
  match attribute_vals media.attributes "ssrc" with
  | [] => 0
  | v :: _ =>
    ((v.data.takeWhile Char.isDigit).foldl (fun n c => 10 * n + (c.toNat - 48)) 0) % 2 ^ 32

/-- A send environment whose rtpbin has both sessions. -/
def sampleSendEnv : SendEnv :=
  { sdp_utils_media_get_ssrc := sampleGetSsrc
    internal_session := fun id => some (1000 + id)
    max_video_recv_bandwidth := 500 }

/-- A media section of the given type that declares the given SSRC line. -/
def ssrcMedia (kind ssrc : String) : GstSDPMedia :=
  { media := kind, port := 9, proto := some "RTP/AVP", fmts := ["100"],
    connections := [], attributes := [⟨"ssrc", ssrc⟩] }

/-- An answer with an audio section (SSRC 21) and a video section (SSRC 22). -/
def answerAudioVideo : GstSDPMessage :=
  { attributes := []
    medias := [ssrcMedia "audio" "21 cname:peer", ssrcMedia "video" "22 cname:peer"] }

/-- An offer with two audio sections (SSRC 31 and 32) and no video. -/
def offerTwoAudio : GstSDPMessage :=
  { attributes := []
    medias := [ssrcMedia "audio" "31 cname:peer", ssrcMedia "audio" "32 cname:peer"] }

/-- An offer with an audio section (SSRC 21) and a video section that
declares no SSRC. -/
def offerVideoNoSsrc : GstSDPMessage :=
  { attributes := []
    medias := [ssrcMedia "audio" "21 cname:peer", sampleMedia "video" "100"] }

/-- An offer whose only section is a video section that declares the SSRC
0. -/
def offerVideoSsrcZero : GstSDPMessage :=
  { attributes := [], medias := [ssrcMedia "video" "0 cname:peer"] }

/-- An endpoint with REMB negotiated and no remote SSRC yet. -/
def endpointRemb : KmsBaseRtpEndpoint :=
  { initEndpoint with
    priv := { initEndpoint.priv with rtcp_remb := true, local_video_ssrc := 12 } }


/-- An audio section that carries two connection lines. -/
def mediaTwoConnections : GstSDPMedia :=
  { media := "audio", port := 5004, proto := some "RTP/AVP", fmts := ["0"],
    connections := [⟨"IN", "IP4", "10.0.0.1", 0, 0⟩, ⟨"IN", "IP4", "10.0.0.2", 0, 0⟩],
    attributes := [] }

/-- An SDP whose only section is the audio section with two connection
lines. -/
def sdpTwoConnections : GstSDPMessage :=
  { attributes := [], medias := [mediaTwoConnections] }

/-- The encoding name of a payload type depends only on the media type, the
formats and the `rtpmap` attributes of the section. -/
def SdpUtils.encoding_from_rtpmap (K : SdpUtils) : Prop :=
  ∀ (m m1 : GstSDPMedia) (pt : String), m1.media = m.media → m1.fmts = m.fmts →
    attribute_vals m1.attributes "rtpmap" = attribute_vals m.attributes "rtpmap" →
    K.gst_sdp_media_format_get_encoding_name m1 pt
      = K.gst_sdp_media_format_get_encoding_name m pt

/-- The section `m1` has the media type, the formats and the `rtpmap`
attributes of `m`. -/
def SameEncodingData (m m1 : GstSDPMedia) : Prop :=
  m1.media = m.media ∧ m1.fmts = m.fmts ∧
    attribute_vals m1.attributes "rtpmap" = attribute_vals m.attributes "rtpmap"

/-- The feedback attribute values for one payload type: one value, the payload
type, a blank and the feedback type, for each flag that is set, in the order
FIR, NACK, PLI, REMB. -/
def fb_values (K : SdpUtils) (fl : NegotiationFlags) (pt : String) : List String :=
  (if fl.rtcp_fir then [pt ++ " " ++ K.RTCP_FB_FIR] else [])
    ++ (if fl.rtcp_nack then [pt ++ " " ++ K.RTCP_FB_NACK] else [])
    ++ (if fl.rtcp_pli then [pt ++ " " ++ K.RTCP_FB_PLI] else [])
    ++ (if fl.rtcp_remb then [pt ++ " " ++ K.RTCP_FB_REMB] else [])

/-- The feedback attribute values for a media section: those of each of its
formats whose encoding name is VP8, in the order of the formats, when the
section is a video section; none otherwise. -/
def vp8_fb_values (K : SdpUtils) (fl : NegotiationFlags) (media : GstSDPMedia) :
    List String :=
  if media.media = VIDEO_STREAM_NAME then
    media.fmts.flatMap (fun pt =>
      if g_ascii_strcasecmp_eq VP8_ENCONDING_NAME
          (K.gst_sdp_media_format_get_encoding_name media pt) then fb_values K fl pt
      else [])
  else []

/-- The `rtcp-fb` attributes of the section `m1` are those of `m` followed by
the feedback attribute values for `m`. -/
def FbAdded (K : SdpUtils) (fl : NegotiationFlags) (m m1 : GstSDPMedia) : Prop :=
  attribute_vals m1.attributes RTCP_FB
    = attribute_vals m.attributes RTCP_FB ++ vp8_fb_values K fl m

/-- A video section with the formats 96 (not VP8), 100 and 101 (VP8). -/
def mediaVideoThreeFormats : GstSDPMedia :=
  { media := "video", port := 9, proto := some "RTP/SAVPF", fmts := ["96", "100", "101"],
    connections := [], attributes := [⟨"rtcp-fb", "96 nack"⟩] }

/-- An endpoint with NACK and REMB negotiated. -/
def endpointNackRemb : KmsBaseRtpEndpoint :=
  { initEndpoint with
    priv := { initEndpoint.priv with rtcp_nack := true, rtcp_remb := true } }


/-- An SDP without media section. -/
def sdpNoMedia : GstSDPMessage := { attributes := [], medias := [] }

/-- An SDP with one audio section only. -/
def sdpAudioOnly : GstSDPMessage :=
  { attributes := [], medias := [sampleMedia "audio" "0"] }

/-- An SDP whose audio and video sections carry an `rtcp-mux` attribute
already. -/
def sdpWithMux : GstSDPMessage :=
  { attributes := []
    medias := [{ sampleMedia "audio" "0" with attributes := [⟨"rtcp-mux", ""⟩] },
      { sampleMedia "video" "100" with attributes := [⟨"rtcp-mux", ""⟩] }] }

/-- An endpoint configured with bundle, NACK and REMB, without rtcp-mux. -/
def endpointBundleNackRemb : KmsBaseRtpEndpoint :=
  { initEndpoint with
    priv := { initEndpoint.priv with bundle := true, rtcp_nack := true, rtcp_remb := true } }


/-! ## Media-stop notifications (`stop_signal`, `dispose`) -/

/-- Modelled from the spec: the two values of the enumeration `KmsMediaType`
of the missing headers that this file emits, the media kinds audio and
video. -/
inductive KmsMediaType where
  | KMS_MEDIA_TYPE_AUDIO
  | KMS_MEDIA_TYPE_VIDEO
  deriving DecidableEq, Repr

open KmsMediaType

/-- One `g_signal_emit (self, obj_signals[MEDIA_STOP], 0, media, local)`. -/
structure MediaStop where
  media : KmsMediaType
  is_local : Bool
  deriving DecidableEq, Repr

/-- The first part of `kms_base_rtp_endpoint_stop_signal`, under the lock: the
endpoint afterwards and the value of `local`. -/
def stop_signal_clear (self : KmsBaseRtpEndpoint) (ssrc : Nat) : KmsBaseRtpEndpoint × Bool :=
  if ssrc == self.priv.audio_ssrc || ssrc == self.priv.video_ssrc then
    if self.priv.audio_ssrc == ssrc then
      ({ self with priv := { self.priv with audio_ssrc := 0 } }, false)
    else if self.priv.video_ssrc == ssrc then
      ({ self with priv := { self.priv with video_ssrc := 0 } }, false)
    else (self, false)
  else (self, true)

/-- `kms_base_rtp_endpoint_stop_signal`, the handler of `on-bye-ssrc`,
`on-bye-timeout` and `on-sender-timeout`: the endpoint afterwards and the
media-stop signals emitted. -/
def kms_base_rtp_endpoint_stop_signal (self : KmsBaseRtpEndpoint) (session ssrc : Nat) :
    KmsBaseRtpEndpoint × List MediaStop :=
  let r := stop_signal_clear self ssrc
  if session = AUDIO_RTP_SESSION then (r.1, [⟨ KMS_MEDIA_TYPE_AUDIO, r.2⟩])
  else if session = VIDEO_RTP_SESSION then (r.1, [⟨ KMS_MEDIA_TYPE_VIDEO, r.2⟩])
  else (r.1, [])

/-- The audio part of `kms_base_rtp_endpoint_dispose`. -/
def dispose_audio (self : KmsBaseRtpEndpoint) : KmsBaseRtpEndpoint × List MediaStop :=
  if self.priv.audio_ssrc != 0 then
    let r := kms_base_rtp_endpoint_stop_signal self AUDIO_RTP_SESSION self.priv.audio_ssrc
    (r.1, r.2 ++ [⟨ KMS_MEDIA_TYPE_AUDIO, true⟩])
  else (self, [])

/-- The video part of `kms_base_rtp_endpoint_dispose`. -/
def dispose_video (self : KmsBaseRtpEndpoint) : KmsBaseRtpEndpoint × List MediaStop :=
  if self.priv.video_ssrc != 0 then
    let r := kms_base_rtp_endpoint_stop_signal self VIDEO_RTP_SESSION self.priv.video_ssrc
    (r.1, r.2 ++ [⟨ KMS_MEDIA_TYPE_VIDEO, true⟩])
  else (self, [])

/-- `kms_base_rtp_endpoint_dispose`: the endpoint afterwards and the
media-stop signals emitted, in order (the release of the payloaders and the
`dispose` of the parent class are left out). -/
def kms_base_rtp_endpoint_dispose (self : KmsBaseRtpEndpoint) :
    KmsBaseRtpEndpoint × List MediaStop :=
  let a := dispose_audio self
  let v := dispose_video a.1
  (v.1, a.2 ++ v.2)

/-- The media-stop signals of the list for the given media kind. -/
def stops_of (media : KmsMediaType) (signals : List MediaStop) : List MediaStop :=
  signals.filter (fun s => s.media == media)

/-- An endpoint whose active audio SSRC is 41 and whose active video SSRC is
43, as two `on-new-ssrc` events leave it. -/
def endpointActive : KmsBaseRtpEndpoint :=
  kms_base_rtp_endpoint_rtpbin_on_new_ssrc VIDEO_RTP_SESSION 43
    (kms_base_rtp_endpoint_rtpbin_on_new_ssrc AUDIO_RTP_SESSION 41 initEndpoint)

/-- An endpoint whose active audio SSRC and active video SSRC are both 7, as
two `on-new-ssrc` events leave it. -/
def endpointSameActive : KmsBaseRtpEndpoint :=
  kms_base_rtp_endpoint_rtpbin_on_new_ssrc VIDEO_RTP_SESSION 7
    (kms_base_rtp_endpoint_rtpbin_on_new_ssrc AUDIO_RTP_SESSION 7 initEndpoint)

/-! ## Properties (`set_property`, `get_property`) -/

/-- The property ids of the endpoint class; `other` stands for any id outside
the enumeration (the `default` case). -/
inductive PropId where
  | PROP_PROTO
  | PROP_BUNDLE
  | PROP_RTCP_MUX
  | PROP_RTCP_FIR
  | PROP_RTCP_NACK
  | PROP_RTCP_PLI
  | PROP_RTCP_REMB
  | PROP_TARGET_BITRATE
  | PROP_MIN_VIDEO_SEND_BW
  | PROP_MAX_VIDEO_SEND_BW
  | other (id : Nat)
  deriving DecidableEq, Repr

/-- A `GValue`: a string (possibly `NULL`), a boolean, a `gint` or a `guint`. -/
inductive GValue where
  | string (s : Option String)
  | boolean (b : Bool)
  | int (i : Int)
  | uint (u : Nat)
  deriving DecidableEq, Repr

/-- `g_value_get_string`; `NULL` for a value of another type. -/
def g_value_get_string : GValue → Option String
  | .string s => s
  | _ => none

/-- `g_value_get_boolean`; `FALSE` for a value of another type. -/
def g_value_get_boolean : GValue → Bool
  | .boolean b => b
  | _ => false

/-- `g_value_get_int`; 0 for a value of another type. -/
def g_value_get_int : GValue → Int
  | .int i => i
  | _ => 0

/-- `g_value_get_uint`; 0 for a value of another type. -/
def g_value_get_uint : GValue → Nat
  | .uint u => u
  | _ => 0

/-- `kms_base_rtp_endpoint_set_property`: the endpoint afterwards. -/
def kms_base_rtp_endpoint_set_property (self : KmsBaseRtpEndpoint) (property_id : PropId)
    (value : GValue) : KmsBaseRtpEndpoint :=
  match property_id with
  | .PROP_PROTO =>
    let str := g_value_get_string value
    { self with priv := { self.priv with proto := str } }
  | .PROP_BUNDLE => { self with priv := { self.priv with bundle := g_value_get_boolean value } }
  | .PROP_RTCP_MUX =>
    { self with priv := { self.priv with rtcp_mux := g_value_get_boolean value } }
  | .PROP_RTCP_FIR =>
    { self with priv := { self.priv with rtcp_fir := g_value_get_boolean value } }
  | .PROP_RTCP_NACK =>
    { self with priv := { self.priv with rtcp_nack := g_value_get_boolean value } }
  | .PROP_RTCP_PLI =>
    { self with priv := { self.priv with rtcp_pli := g_value_get_boolean value } }
  | .PROP_RTCP_REMB =>
    { self with priv := { self.priv with rtcp_remb := g_value_get_boolean value } }
  | .PROP_TARGET_BITRATE =>
    { self with priv := { self.priv with target_bitrate := g_value_get_int value } }
  | .PROP_MIN_VIDEO_SEND_BW =>
    let v := g_value_get_uint value
    let v := if v > self.priv.max_video_send_bw then self.priv.max_video_send_bw else v
    { self with priv := { self.priv with min_video_send_bw := v } }
  | .PROP_MAX_VIDEO_SEND_BW =>
    let v := g_value_get_uint value
    let v := if v < self.priv.min_video_send_bw then self.priv.min_video_send_bw else v
    { self with priv := { self.priv with max_video_send_bw := v } }
  | .other _ => self

/-- `kms_bse_rtp_endpoint_get_property`: the value stored into the `GValue`,
`none` when the id is invalid and the `GValue` is left as it was. -/
def kms_bse_rtp_endpoint_get_property (self : KmsBaseRtpEndpoint) (property_id : PropId) :
    Option GValue :=
  match property_id with
  | .PROP_PROTO => some (.string self.priv.proto)
  | .PROP_BUNDLE => some (.boolean self.priv.bundle)
  | .PROP_RTCP_MUX => some (.boolean self.priv.rtcp_mux)
  | .PROP_RTCP_FIR => some (.boolean self.priv.rtcp_fir)
  | .PROP_RTCP_NACK => some (.boolean self.priv.rtcp_nack)
  | .PROP_RTCP_PLI => some (.boolean self.priv.rtcp_pli)
  | .PROP_RTCP_REMB => some (.boolean self.priv.rtcp_remb)
  | .PROP_TARGET_BITRATE => some (.int self.priv.target_bitrate)
  | .PROP_MIN_VIDEO_SEND_BW => some (.uint self.priv.min_video_send_bw)
  | .PROP_MAX_VIDEO_SEND_BW => some (.uint self.priv.max_video_send_bw)
  | .other _ => none

/-- The endpoint states that can be reached from the one that
`kms_base_rtp_endpoint_init` leaves, by property writes and by the other
operations embedded here, in any order and with any arguments. -/
inductive Reachable : KmsBaseRtpEndpoint → Prop where
  | init : Reachable initEndpoint
  | set_property (self : KmsBaseRtpEndpoint) (property_id : PropId) (value : GValue) :
      Reachable self → Reachable (kms_base_rtp_endpoint_set_property self property_id value)
  | set_transport_to_sdp (K : SdpUtils) (E : Env) (self : KmsBaseRtpEndpoint)
      (msg : GstSDPMessage) :
      Reachable self → Reachable (kms_base_rtp_endpoint_set_transport_to_sdp K E self msg).2.1
  | start_transport_send (S : SendEnv) (self : KmsBaseRtpEndpoint)
      (offer answer : GstSDPMessage) (local_offer : Bool) :
      Reachable self →
      Reachable (kms_base_rtp_endpoint_start_transport_send S self offer answer local_offer)
  | on_new_ssrc (session ssrc : Nat) (self : KmsBaseRtpEndpoint) :
      Reachable self → Reachable (kms_base_rtp_endpoint_rtpbin_on_new_ssrc session ssrc self)
  | stop_signal (self : KmsBaseRtpEndpoint) (session ssrc : Nat) :
      Reachable self → Reachable (kms_base_rtp_endpoint_stop_signal self session ssrc).1
  | dispose (self : KmsBaseRtpEndpoint) :
      Reachable self → Reachable (kms_base_rtp_endpoint_dispose self).1


/-- The pair of the send bandwidth bounds, min and max. -/
def send_bw (self : KmsBaseRtpEndpoint) : Nat × Nat :=
  (self.priv.min_video_send_bw, self.priv.max_video_send_bw)


/-! ## Lemmas on the string helpers -/

theorem foldl_append_data (mids : List String) (init : String) :
    (mids.foldl (fun acc mid => acc ++ " " ++ mid) init).data
      = init.data ++ mids.flatMap (fun mid => ' ' :: mid.data) := by
  induction mids generalizing init with
  | nil => simp
  | cons m ms ih =>
    simp only [List.foldl_cons, List.flatMap_cons]
    rw [ih]
    simp [String.data_append]

theorem bundle_group_value_data (mids : List String) :
    (bundle_group_value mids).data
      = "BUNDLE".data ++ mids.flatMap (fun mid => ' ' :: mid.data) :=
  foldl_append_data mids "BUNDLE"

theorem afterFirstOccurrence_none_iff (pat s : List Char) :
    afterFirstOccurrence pat s = none ↔ ¬ pat <:+: s := by
  induction s with
  | nil =>
    by_cases hp : pat = []
    · simp [afterFirstOccurrence, hp]
    · simp [afterFirstOccurrence, hp]
  | cons c cs ih =>
    unfold afterFirstOccurrence
    by_cases hpre : pat.isPrefixOf (c :: cs) = true
    · simp only [hpre, if_true]
      have : pat <+: c :: cs := List.isPrefixOf_iff_prefix.mp hpre
      simp [this.isInfix]
    · simp only [hpre]
      have hnp : ¬ pat <+: c :: cs := fun h => hpre (List.isPrefixOf_iff_prefix.mpr h)
      rw [if_neg (by simp), ih, List.infix_cons_iff]
      simp [hnp]

theorem afterFirstOccurrence_append_left (pat rest : List Char) (hp : pat ≠ []) :
    afterFirstOccurrence pat (pat ++ rest) = some rest := by
  cases h : pat ++ rest with
  | nil => simp at h; exact absurd h.1 hp
  | cons c cs =>
    unfold afterFirstOccurrence
    have : pat.isPrefixOf (c :: cs) = true := by
      rw [← h]; exact List.isPrefixOf_iff_prefix.mpr (List.prefix_append _ _)
    simp only [this, if_true]
    rw [← h]; simp

theorem splitOnChar_ne_nil (d : Char) (s : List Char) : splitOnChar d s ≠ [] := by
  cases s with
  | nil => simp [splitOnChar]
  | cons c cs =>
    unfold splitOnChar
    split
    · simp
    · split <;> simp

theorem g_strv_length_g_strsplit_pos (s : List Char) (d : Char) :
    decide (g_strv_length (g_strsplit s d) > 0) = !s.isEmpty := by
  cases s with
  | nil => simp [g_strsplit, g_strv_length]
  | cons c cs =>
    have := splitOnChar_ne_nil d (c :: cs)
    simp [g_strsplit, g_strv_length, List.length_pos, this]

theorem bundle_regex_mids_none (v : String) (h : ¬ "BUNDLE".data <:+: v.data) :
    bundle_regex_mids v = none := by
  simp [bundle_regex_mids, (afterFirstOccurrence_none_iff _ _).mpr h]

theorem sdp_message_is_bundle_loop_skip (pre rest : List String)
    (hpre : ∀ v ∈ pre, ¬ "BUNDLE".data <:+: v.data) :
    sdp_message_is_bundle_loop (pre ++ rest) = sdp_message_is_bundle_loop rest := by
  induction pre with
  | nil => rfl
  | cons v vs ih =>
    simp only [List.cons_append, sdp_message_is_bundle_loop]
    rw [bundle_regex_mids_none v (hpre v (List.mem_cons_self _ _))]
    exact ih (fun w hw => hpre w (List.mem_cons_of_mem _ hw))

theorem sdp_message_is_bundle_loop_false (vals : List String)
    (h : ∀ v ∈ vals, ¬ "BUNDLE".data <:+: v.data ∨ v = "BUNDLE") :
    sdp_message_is_bundle_loop vals = false := by
  induction vals with
  | nil => rfl
  | cons v vs ih =>
    rcases h v (List.mem_cons_self _ _) with hv | hv
    · simp only [sdp_message_is_bundle_loop]
      rw [bundle_regex_mids_none v hv]
      exact ih (fun w hw => h w (List.mem_cons_of_mem _ hw))
    · subst hv
      rfl

/-! ## The claims -/

/-- C1 (as amended): when the first session-level `group` attribute whose
value contains `BUNDLE` has the value `BUNDLE` followed by one or more
space-separated mids, `sdp_message_is_bundle` returns true. -/
theorem c1_is_bundle_of_first_bundle_group (msg : GstSDPMessage)
    (pre post : List String) (val : String) (mids : List String)
    (hvals : attribute_vals msg.attributes "group" = pre ++ val :: post)
    (hpre : ∀ v ∈ pre, ¬ "BUNDLE".data <:+: v.data)
    (hmids : mids ≠ [])
    (hval : val = bundle_group_value mids) :
    sdp_message_is_bundle msg = true := by
  unfold sdp_message_is_bundle
  rw [hvals, sdp_message_is_bundle_loop_skip pre _ hpre]
  obtain ⟨m, ms, rfl⟩ := List.exists_cons_of_ne_nil hmids
  have hdata : val.data = "BUNDLE".data ++ (' ' :: (m.data ++
      ms.flatMap (fun mid => ' ' :: mid.data))) := by
    rw [hval, bundle_group_value_data]; simp
  simp only [sdp_message_is_bundle_loop, bundle_regex_mids, hdata]
  rw [afterFirstOccurrence_append_left _ _ (by decide)]
  simp only [Option.map_some']
  rw [g_strv_length_g_strsplit_pos]
  have : isNewlineChar ' ' = false := by decide
  simp [List.takeWhile_cons, this]

/-- Witness of C1 (as amended): an offer with a grouping that is not a bundle
followed by a bundle of audio and video. -/
theorem c1_is_bundle_of_first_bundle_group_witness :
    sdp_message_is_bundle
      ⟨[⟨"group", "LS audio video"⟩, ⟨"group", "BUNDLE audio video"⟩], []⟩ = true :=
  c1_is_bundle_of_first_bundle_group _ ["LS audio video"] [] "BUNDLE audio video"
    ["audio", "video"] (by decide)
    (by
      intro v hv
      rw [← afterFirstOccurrence_none_iff]
      simp only [List.mem_singleton] at hv
      subst hv
      decide)
    (by decide) (by decide)

/-- Counterexample to C1 as stated: the offer has a `group` attribute that
lists two mids after `BUNDLE`, and `sdp_message_is_bundle` returns false,
because an earlier `group` attribute matched first. -/
theorem c1_counterexample :
    (∃ a ∈ offerBareThenBundle.attributes, a.key = "group" ∧
        ∃ mids : List String, mids ≠ [] ∧ a.value = bundle_group_value mids) ∧
      sdp_message_is_bundle offerBareThenBundle = false := by
  refine ⟨⟨⟨"group", "BUNDLE audio video"⟩, by decide, rfl, ["audio", "video"], by decide,
    by decide⟩, by decide⟩

/-- C2 (as amended): when every session-level `group` attribute value either
does not contain `BUNDLE` at all or is exactly `BUNDLE` (and when there is no
`group` attribute), `sdp_message_is_bundle` returns false. -/
theorem c2_not_bundle (msg : GstSDPMessage)
    (h : ∀ v ∈ attribute_vals msg.attributes "group",
      ¬ "BUNDLE".data <:+: v.data ∨ v = "BUNDLE") :
    sdp_message_is_bundle msg = false := by
  exact sdp_message_is_bundle_loop_false _ h

/-- Witness of C2 (as amended). -/
theorem c2_not_bundle_witness : sdp_message_is_bundle offerNoBundle = false :=
  c2_not_bundle offerNoBundle (by
    intro v hv
    have hv2 : v = "LS audio video" ∨ v = "BUNDLE" := by
      have : attribute_vals offerNoBundle.attributes "group"
          = ["LS audio video", "BUNDLE"] := by decide
      rw [this] at hv
      simpa using hv
    rcases hv2 with rfl | rfl
    · left
      rw [← afterFirstOccurrence_none_iff]
      decide
    · right; rfl)

/-- Counterexample to C2 as stated: no `group` value of the first offer starts
with `BUNDLE`, and `sdp_message_is_bundle` returns true; the `group` value of
the second offer is `BUNDLE` followed by a blank and no mid (every piece
between blanks is empty), and `sdp_message_is_bundle` returns true. -/
theorem c2_counterexample :
    ((∀ v ∈ attribute_vals offerInnerBundle.attributes "group",
        ¬ "BUNDLE".data <+: v.data) ∧
      sdp_message_is_bundle offerInnerBundle = true) ∧
    ((∀ v ∈ attribute_vals offerTrailingBlank.attributes "group",
        ∃ rest, v.data = "BUNDLE".data ++ rest ∧ ∀ piece ∈ splitOnChar ' ' rest, piece = []) ∧
      sdp_message_is_bundle offerTrailingBlank = true) := by
  refine ⟨⟨?_, by decide⟩, ⟨?_, by decide⟩⟩
  · intro v hv
    have : attribute_vals offerInnerBundle.attributes "group" = ["X-BUNDLE audio video"] := by
      decide
    rw [this] at hv
    simp only [List.mem_singleton] at hv
    subst hv
    rw [← List.isPrefixOf_iff_prefix]
    decide
  · intro v hv
    have : attribute_vals offerTrailingBlank.attributes "group" = ["BUNDLE "] := by
      decide
    rw [this] at hv
    simp only [List.mem_singleton] at hv
    subst hv
    exact ⟨[' '], by decide, by decide⟩

theorem get_attribute_val_eq_none_iff (media : GstSDPMedia) (key : String) :
    gst_sdp_media_get_attribute_val media key = none
      ↔ ∀ a ∈ media.attributes, a.key ≠ key := by
  unfold gst_sdp_media_get_attribute_val gst_sdp_media_get_attribute_val_n attribute_vals
  cases h : media.attributes.filter (fun a => a.key == key) with
  | nil =>
    simp only [List.map_nil, List.getElem?_nil, true_iff]
    intro a ha hk
    have : a ∈ media.attributes.filter (fun a => a.key == key) :=
      List.mem_filter.mpr ⟨ha, by simp [hk]⟩
    rw [h] at this
    exact absurd this (List.not_mem_nil _)
  | cons b bs =>
    have hb : b ∈ media.attributes.filter (fun a => a.key == key) := by
      rw [h]; exact List.mem_cons_self _ _
    have hb2 := List.mem_filter.mp hb
    simp only [List.map_cons, List.getElem?_cons_zero, reduceCtorEq, false_iff]
    intro hall
    exact hall b hb2.1 (by simpa using hb2.2)

theorem sdp_message_is_rtcp_mux_loop_iff (medias : List GstSDPMedia) :
    sdp_message_is_rtcp_mux_loop medias = true
      ↔ ∀ m ∈ medias, ∃ a ∈ m.attributes, a.key = RTCP_MUX := by
  induction medias with
  | nil => simp [sdp_message_is_rtcp_mux_loop]
  | cons m ms ih =>
    unfold sdp_message_is_rtcp_mux_loop
    cases h : gst_sdp_media_get_attribute_val m RTCP_MUX with
    | none =>
      have := (get_attribute_val_eq_none_iff m RTCP_MUX).mp h
      simp only [Bool.false_eq_true, List.mem_cons, forall_eq_or_imp, false_iff, not_and]
      intro hm
      obtain ⟨a, ha, hk⟩ := hm
      exact absurd hk (this a ha)
    | some v =>
      have hne : ¬ ∀ a ∈ m.attributes, a.key ≠ RTCP_MUX := by
        rw [← get_attribute_val_eq_none_iff, h]; simp
      have hex : ∃ a ∈ m.attributes, a.key = RTCP_MUX := by
        by_contra hcon
        exact hne (fun a ha hk => hcon ⟨a, ha, hk⟩)
      simp only [List.mem_cons, forall_eq_or_imp, hex, true_and]
      exact ih

/-- C3: `sdp_message_is_rtcp_mux` returns true if and only if every media
section of the message carries an `rtcp-mux` attribute (so one section without
it makes the result false). -/
theorem c3_is_rtcp_mux_iff (msg : GstSDPMessage) :
    sdp_message_is_rtcp_mux msg = true
      ↔ ∀ m ∈ msg.medias, ∃ a ∈ m.attributes, a.key = RTCP_MUX :=
  sdp_message_is_rtcp_mux_loop_iff msg.medias

theorem vp8_rtcp_fb_attrs_loop_eq (K : SdpUtils) (hK : K.distinct) (pt : String)
    (attrs : List String) (fl : RtcpFbFlags) :
    vp8_rtcp_fb_attrs_loop K pt attrs fl =
      { fir := fl.fir || decide ((pt ++ " " ++ K.RTCP_FB_FIR) ∈ attrs)
        nack := fl.nack || decide ((pt ++ " " ++ K.RTCP_FB_NACK) ∈ attrs)
        pli := fl.pli || decide ((pt ++ " " ++ K.RTCP_FB_PLI) ∈ attrs)
        remb := fl.remb || decide ((pt ++ " " ++ K.RTCP_FB_REMB) ∈ attrs) } := by
  obtain ⟨h12, h13, h14, h23, h24, h34⟩ := hK
  have inj : ∀ a b : String, a ≠ b → pt ++ " " ++ a ≠ pt ++ " " ++ b := by
    intro a b hab h
    apply hab
    have := congrArg String.data h
    simp only [String.data_append, List.append_cancel_left_eq] at this
    exact String.ext this
  induction attrs generalizing fl with
  | nil => simp [vp8_rtcp_fb_attrs_loop]
  | cons attr rest ih =>
    unfold vp8_rtcp_fb_attrs_loop
    simp only [rtcp_fb_attr_check_type, beq_iff_eq]
    by_cases e1 : attr = pt ++ " " ++ K.RTCP_FB_FIR
    · rw [if_pos e1, ih]
      have n2 := inj _ _ h12; have n3 := inj _ _ h13; have n4 := inj _ _ h14
      subst e1
      simp [List.mem_cons, Ne.symm n2, Ne.symm n3, Ne.symm n4]
    · rw [if_neg e1]
      by_cases e2 : attr = pt ++ " " ++ K.RTCP_FB_NACK
      · rw [if_pos e2, ih]
        have n3 := inj _ _ h23; have n4 := inj _ _ h24
        subst e2
        simp [List.mem_cons, Ne.symm e1, Ne.symm n3, Ne.symm n4]
      · rw [if_neg e2]
        by_cases e3 : attr = pt ++ " " ++ K.RTCP_FB_PLI
        · rw [if_pos e3, ih]
          have n4 := inj _ _ h34
          subst e3
          simp [List.mem_cons, Ne.symm e1, Ne.symm e2, Ne.symm n4]
        · rw [if_neg e3]
          by_cases e4 : attr = pt ++ " " ++ K.RTCP_FB_REMB
          · rw [if_pos e4, ih]
            subst e4
            simp [List.mem_cons, Ne.symm e1, Ne.symm e2, Ne.symm e3]
          · rw [if_neg e4, ih]
            simp [List.mem_cons, Ne.symm e1, Ne.symm e2, Ne.symm e3, Ne.symm e4]

theorem vp8_rtcp_fb_formats_loop_eq (K : SdpUtils) (media : GstSDPMedia)
    (fmts : List String) (fl : RtcpFbFlags) :
    vp8_rtcp_fb_formats_loop K media fmts fl =
      match fmts.find? (fun pt => g_ascii_strcasecmp_eq VP8_ENCONDING_NAME
          (K.gst_sdp_media_format_get_encoding_name media pt)) with
      | none => (fl, false)
      | some pt =>
        (vp8_rtcp_fb_attrs_loop K pt (attribute_vals media.attributes RTCP_FB) fl, true) := by
  induction fmts with
  | nil => simp [vp8_rtcp_fb_formats_loop]
  | cons pt rest ih =>
    unfold vp8_rtcp_fb_formats_loop
    by_cases h : g_ascii_strcasecmp_eq VP8_ENCONDING_NAME
        (K.gst_sdp_media_format_get_encoding_name media pt) = true
    · simp [h, List.find?_cons]
    · simp only [Bool.not_eq_true] at h
      simp [h, List.find?_cons, ih]

theorem vp8_rtcp_fb_medias_loop_eq (K : SdpUtils) (medias : List GstSDPMedia)
    (fl : RtcpFbFlags) :
    vp8_rtcp_fb_medias_loop K medias fl =
      match first_vp8_video K medias with
      | none => fl
      | some (m, pt) =>
        vp8_rtcp_fb_attrs_loop K pt (attribute_vals m.attributes RTCP_FB) fl := by
  induction medias with
  | nil => simp [vp8_rtcp_fb_medias_loop, first_vp8_video]
  | cons m ms ih =>
    unfold vp8_rtcp_fb_medias_loop
    by_cases hv : m.media = VIDEO_STREAM_NAME
    · have hb : (m.media != VIDEO_STREAM_NAME) = false := by simp [hv]
      simp only [hb, Bool.false_eq_true, if_false]
      rw [vp8_rtcp_fb_formats_loop_eq]
      cases hf : m.fmts.find? (fun pt => g_ascii_strcasecmp_eq VP8_ENCONDING_NAME
          (K.gst_sdp_media_format_get_encoding_name m pt)) with
      | none =>
        simp only [ih]
        simp [first_vp8_video, List.findSome?_cons, hv, first_vp8_format, hf]
      | some pt =>
        simp [first_vp8_video, List.findSome?_cons, hv, first_vp8_format, hf]
    · have hb : (m.media != VIDEO_STREAM_NAME) = true := by simp [hv]
      simp only [hb, if_true, ih]
      simp [first_vp8_video, List.findSome?_cons, hv]

/-- C4 (as amended): for pairwise distinct feedback type strings, the flags
that `sdp_message_get_vp8_rtcp_fb_attrs` derives are all false when no video
section has a VP8 format; otherwise the flag of each type T is true if and
only if the first video section that has a VP8 format carries an `rtcp-fb`
attribute whose value is exactly its first VP8 format, a space and T. -/
theorem c4_vp8_rtcp_fb_first_vp8_format (K : SdpUtils) (hK : K.distinct)
    (msg : GstSDPMessage) :
    sdp_message_get_vp8_rtcp_fb_attrs K msg =
      match first_vp8_video K msg.medias with
      | none => ⟨false, false, false, false⟩
      | some (m, pt) =>
        { fir := decide ((pt ++ " " ++ K.RTCP_FB_FIR) ∈ attribute_vals m.attributes RTCP_FB)
          nack := decide ((pt ++ " " ++ K.RTCP_FB_NACK) ∈ attribute_vals m.attributes RTCP_FB)
          pli := decide ((pt ++ " " ++ K.RTCP_FB_PLI) ∈ attribute_vals m.attributes RTCP_FB)
          remb := decide ((pt ++ " " ++ K.RTCP_FB_REMB) ∈ attribute_vals m.attributes RTCP_FB) } := by
  unfold sdp_message_get_vp8_rtcp_fb_attrs
  rw [vp8_rtcp_fb_medias_loop_eq]
  cases first_vp8_video K msg.medias with
  | none => rfl
  | some mp =>
    obtain ⟨m, pt⟩ := mp
    simp only []
    rw [vp8_rtcp_fb_attrs_loop_eq K hK]
    simp

theorem sampleUtils_distinct : sampleUtils.distinct := by
  unfold SdpUtils.distinct sampleUtils
  decide

/-- Witness of C4 (as amended): the audio section and the non-VP8 format 96
set no flag; NACK and REMB of the VP8 format 100 are found. -/
theorem c4_vp8_rtcp_fb_first_vp8_format_witness :
    sdp_message_get_vp8_rtcp_fb_attrs sampleUtils offerVp8Fb = ⟨false, true, false, true⟩ :=
  (c4_vp8_rtcp_fb_first_vp8_format sampleUtils sampleUtils_distinct offerVp8Fb).trans
    (by decide)

/-- Counterexample to C4 as stated: the video section of the first offer has
the VP8 format 101 and the attribute `rtcp-fb:101 nack`, and the NACK flag
derived is false, because only the first VP8 format (100) is looked at; the
second video section of the second offer has them too, and the NACK flag is
false, because only the first video section with a VP8 format is looked
at. -/
theorem c4_counterexample :
    ((∃ m ∈ offerTwoVp8.medias, m.media = VIDEO_STREAM_NAME ∧ ∃ pt ∈ m.fmts,
        g_ascii_strcasecmp_eq VP8_ENCONDING_NAME
          (sampleUtils.gst_sdp_media_format_get_encoding_name m pt) = true ∧
        (pt ++ " " ++ sampleUtils.RTCP_FB_NACK) ∈ attribute_vals m.attributes RTCP_FB) ∧
      (sdp_message_get_vp8_rtcp_fb_attrs sampleUtils offerTwoVp8).nack = false) ∧
    ((∃ m ∈ offerTwoVideo.medias, m.media = VIDEO_STREAM_NAME ∧ ∃ pt ∈ m.fmts,
        g_ascii_strcasecmp_eq VP8_ENCONDING_NAME
          (sampleUtils.gst_sdp_media_format_get_encoding_name m pt) = true ∧
        (pt ++ " " ++ sampleUtils.RTCP_FB_NACK) ∈ attribute_vals m.attributes RTCP_FB) ∧
      (sdp_message_get_vp8_rtcp_fb_attrs sampleUtils offerTwoVideo).nack = false) := by
  refine ⟨⟨⟨_, List.mem_cons_self _ _, by decide, "101", by decide, by decide, by decide⟩,
    by decide⟩, ⟨⟨_, List.mem_cons_of_mem _ (List.mem_cons_self _ _), by decide, "101",
    by decide, by decide, by decide⟩, by decide⟩⟩

/-! ## Lemmas on `kms_base_rtp_endpoint_update_sdp_media` -/

theorem attribute_vals_append (l1 l2 : List GstSDPAttribute) (key : String) :
    attribute_vals (l1 ++ l2) key = attribute_vals l1 key ++ attribute_vals l2 key := by
  simp [attribute_vals]

theorem attribute_vals_other_key (l : List GstSDPAttribute) (k key : String)
    (hk : k ≠ key) (h : ∀ a ∈ l, a.key = k) : attribute_vals l key = [] := by
  unfold attribute_vals
  rw [List.map_eq_nil_iff, List.filter_eq_nil_iff]
  intro a ha
  simp [h a ha, hk]

theorem AppendsFb.refl (m : GstSDPMedia) : AppendsFb m m :=
  ⟨[], by simp, by simp⟩

theorem AppendsFb.trans {m1 m2 m3 : GstSDPMedia} (h12 : AppendsFb m1 m2)
    (h23 : AppendsFb m2 m3) : AppendsFb m1 m3 := by
  obtain ⟨e1, h1, k1⟩ := h12
  obtain ⟨e2, h2, k2⟩ := h23
  refine ⟨e1 ++ e2, by rw [h2, h1, List.append_assoc], ?_⟩
  intro a ha
  rcases List.mem_append.mp ha with h | h
  · exact k1 a h
  · exact k2 a h

theorem AppendsFb.add_if (m : GstSDPMedia) (c : Bool) (v : String) :
    AppendsFb m (if c then gst_sdp_media_add_attribute m RTCP_FB v else m) := by
  cases c
  · exact AppendsFb.refl m
  · exact ⟨[⟨RTCP_FB, v⟩], rfl, by simp⟩

/-- One step of the feedback loop only appends `rtcp-fb` attributes. -/
theorem media_set_rtcp_fb_attrs_step_attrs (K : SdpUtils)
    (priv : KmsBaseRtpEndpointPrivate) (media : GstSDPMedia) (pt : String) :
    AppendsFb media (media_set_rtcp_fb_attrs_step K priv media pt) := by
  unfold media_set_rtcp_fb_attrs_step
  simp only []
  split
  · exact (((AppendsFb.add_if _ _ _).trans (AppendsFb.add_if _ _ _)).trans
      (AppendsFb.add_if _ _ _)).trans (AppendsFb.add_if _ _ _)
  · exact AppendsFb.refl media

theorem media_set_rtcp_fb_attrs_foldl_attrs (K : SdpUtils)
    (priv : KmsBaseRtpEndpointPrivate) (fmts : List String) (media : GstSDPMedia) :
    AppendsFb media (fmts.foldl (media_set_rtcp_fb_attrs_step K priv) media) := by
  induction fmts generalizing media with
  | nil => exact AppendsFb.refl media
  | cons pt rest ih =>
    exact (media_set_rtcp_fb_attrs_step_attrs K priv media pt).trans (ih _)

/-- `kms_base_rtp_endpoint_media_set_rtcp_fb_attrs` only appends `rtcp-fb`
attributes. -/
theorem media_set_rtcp_fb_attrs_attrs (K : SdpUtils)
    (priv : KmsBaseRtpEndpointPrivate) (media : GstSDPMedia) :
    AppendsFb media (kms_base_rtp_endpoint_media_set_rtcp_fb_attrs K priv media) := by
  unfold kms_base_rtp_endpoint_media_set_rtcp_fb_attrs
  split
  · exact AppendsFb.refl media
  · exact media_set_rtcp_fb_attrs_foldl_attrs K priv media.fmts media

theorem remove_connections_attributes (n : List Nat) (media : GstSDPMedia) :
    (n.foldl gst_sdp_media_remove_connection media).attributes = media.attributes := by
  induction n generalizing media with
  | nil => rfl
  | cons c cs ih => simp only [List.foldl_cons]; rw [ih]; rfl

theorem update_sdp_media_local_ssrc_flags (self : KmsBaseRtpEndpoint) (sid ssrc : Nat) :
    (update_sdp_media_local_ssrc self sid ssrc).priv.flags = self.priv.flags := by
  unfold update_sdp_media_local_ssrc
  split
  · rfl
  · split <;> rfl

theorem update_sdp_media_local_ssrc_calls (self : KmsBaseRtpEndpoint) (sid ssrc : Nat) :
    (update_sdp_media_local_ssrc self sid ssrc).conn_calls = self.conn_calls := by
  unfold update_sdp_media_local_ssrc
  split
  · rfl
  · split <;> rfl

theorem update_sdp_media_lines_mux (priv : KmsBaseRtpEndpointPrivate)
    (media : GstSDPMedia) (use_ipv6 : Bool) (cname : String) (ssrc : Nat) :
    attribute_vals (update_sdp_media_lines priv media use_ipv6 cname ssrc).attributes RTCP_MUX
      = attribute_vals media.attributes RTCP_MUX
          ++ (if priv.bundle || priv.rtcp_mux then [""] else []) := by
  unfold update_sdp_media_lines
  cases hb : (priv.bundle || priv.rtcp_mux) <;>
    simp [hb, gst_sdp_media_add_attribute, gst_sdp_media_add_connection,
      remove_connections_attributes, attribute_vals, RTCP_MUX]

theorem update_sdp_media_unsupported (K : SdpUtils) (E : Env) (self : KmsBaseRtpEndpoint)
    (media : GstSDPMedia) (use_ipv6 : Bool) (cname : String)
    (ha : media.media ≠ AUDIO_STREAM_NAME) (hv : media.media ≠ VIDEO_STREAM_NAME) :
    kms_base_rtp_endpoint_update_sdp_media K E self media use_ipv6 cname
      = (self, media, none) := by
  unfold kms_base_rtp_endpoint_update_sdp_media
  simp [ha, hv]

theorem update_sdp_media_none (K : SdpUtils) (E : Env) (self : KmsBaseRtpEndpoint)
    (media : GstSDPMedia) (use_ipv6 : Bool) (cname : String)
    (h : (kms_base_rtp_endpoint_update_sdp_media K E self media use_ipv6 cname).2.2 = none) :
    kms_base_rtp_endpoint_update_sdp_media K E self media use_ipv6 cname
      = (self, media, none) := by
  unfold kms_base_rtp_endpoint_update_sdp_media at h ⊢
  simp only [] at h ⊢
  split
  · rfl
  · rename_i sid hs
    rw [hs] at h
    simp only [] at h
    split
    · rfl
    · rename_i ssrc hss
      rw [hss] at h
      simp at h

/-- What a successful `kms_base_rtp_endpoint_update_sdp_media` leaves. -/
theorem update_sdp_media_some (K : SdpUtils) (E : Env) (self : KmsBaseRtpEndpoint)
    (media : GstSDPMedia) (use_ipv6 : Bool) (cname : String) (s : String)
    (h : (kms_base_rtp_endpoint_update_sdp_media K E self media use_ipv6 cname).2.2 = some s) :
    s = media.media ∧ (media.media = AUDIO_STREAM_NAME ∨ media.media = VIDEO_STREAM_NAME) ∧
    (kms_base_rtp_endpoint_update_sdp_media K E self media use_ipv6 cname).1.priv.flags
      = self.priv.flags ∧
    (kms_base_rtp_endpoint_update_sdp_media K E self media use_ipv6 cname).1.conn_calls
      = self.conn_calls ∧
    attribute_vals
        (kms_base_rtp_endpoint_update_sdp_media K E self media use_ipv6 cname).2.1.attributes
        RTCP_MUX
      = attribute_vals media.attributes RTCP_MUX
          ++ (if self.priv.bundle || self.priv.rtcp_mux then [""] else []) := by
  unfold kms_base_rtp_endpoint_update_sdp_media at h ⊢
  simp only [] at h ⊢
  split
  · rename_i hs
    rw [hs] at h
    simp at h
  · rename_i sid hs
    rw [hs] at h
    simp only [] at h
    have hsup : media.media = AUDIO_STREAM_NAME ∨ media.media = VIDEO_STREAM_NAME := by
      by_cases ha : media.media = AUDIO_STREAM_NAME
      · exact Or.inl ha
      · by_cases hv : media.media = VIDEO_STREAM_NAME
        · exact Or.inr hv
        · simp [ha, hv] at hs
    split
    · rename_i hss
      rw [hss] at h
      simp at h
    · rename_i ssrc hss
      rw [hss] at h
      simp only [Option.some.injEq] at h
      refine ⟨h.symm, hsup, update_sdp_media_local_ssrc_flags _ _ _,
        update_sdp_media_local_ssrc_calls _ _ _, ?_⟩
      obtain ⟨extra, hex, hkeys⟩ := media_set_rtcp_fb_attrs_attrs K
        (update_sdp_media_local_ssrc self sid ssrc).priv
        (update_sdp_media_lines self.priv media use_ipv6 cname ssrc)
      rw [hex, attribute_vals_append,
        attribute_vals_other_key extra RTCP_FB RTCP_MUX (by decide) hkeys,
        update_sdp_media_lines_mux, List.append_nil]

/-! ## Lemmas on the loop of `kms_base_rtp_endpoint_set_transport_to_sdp` -/

theorem flags_bundle {p q : KmsBaseRtpEndpointPrivate} (h : p.flags = q.flags) :
    p.bundle = q.bundle := congrArg NegotiationFlags.bundle h

/-- The three ways in which one iteration of the loop can go. -/
theorem set_transport_medias_loop_cons (K : SdpUtils) (E : Env) (self : KmsBaseRtpEndpoint)
    (bm : Option String) (media : GstSDPMedia) (rest : List GstSDPMedia) :
    (set_transport_medias_loop K E self bm (media :: rest) = ⟨false, self, bm, media :: rest⟩)
    ∨ ∃ self1 media1, StepOk self media self1 media1 ∧
      ((self.priv.bundle = true ∧
          set_transport_medias_loop K E self bm (media :: rest) =
            { set_transport_medias_loop K E self1
                (bm.map (fun b => b ++ " " ++ media.media)) rest with
              medias := media1 :: (set_transport_medias_loop K E self1
                (bm.map (fun b => b ++ " " ++ media.media)) rest).medias })
      ∨ (self.priv.bundle = false ∧
          E.registry self.conn_calls (.create_connection media.media) = none ∧
          set_transport_medias_loop K E self bm (media :: rest) =
            ⟨false, { self1 with conn_calls :=
                self.conn_calls ++ [⟨.create_connection media.media, none⟩] },
              bm, media1 :: rest⟩)
      ∨ (self.priv.bundle = false ∧
          ∃ c, E.registry self.conn_calls (.create_connection media.media) = some c ∧
          set_transport_medias_loop K E self bm (media :: rest) =
            { set_transport_medias_loop K E
                { self1 with conn_calls :=
                    self.conn_calls ++ [⟨.create_connection media.media, some c⟩] }
                bm rest with
              medias := media1 :: (set_transport_medias_loop K E
                { self1 with conn_calls :=
                    self.conn_calls ++ [⟨.create_connection media.media, some c⟩] }
                bm rest).medias })) := by
  rcases hu : kms_base_rtp_endpoint_update_sdp_media K E self media E.use_ipv6 E.cname with
    ⟨self1, media1, ms⟩
  cases ms with
  | none =>
    left
    have := update_sdp_media_none K E self media E.use_ipv6 E.cname (by rw [hu])
    rw [hu] at this
    simp only [Prod.mk.injEq] at this
    obtain ⟨h1, h2, -⟩ := this
    subst h1; subst h2
    simp [set_transport_medias_loop, hu]
  | some s =>
    right
    obtain ⟨hs, hsup, hfl, hcalls, hmux⟩ :=
      update_sdp_media_some K E self media E.use_ipv6 E.cname s (by rw [hu])
    rw [hu] at hfl hcalls hmux
    simp only [] at hfl hcalls hmux
    subst hs
    refine ⟨self1, media1, ⟨hsup, hfl, hcalls, hmux⟩, ?_⟩
    have hb : self1.priv.bundle = self.priv.bundle := flags_bundle hfl
    cases hbun : self.priv.bundle with
    | true =>
      left
      refine ⟨rfl, ?_⟩
      rw [hbun] at hb
      simp [set_transport_medias_loop, hu, hb]
    | false =>
      right
      rw [hbun] at hb
      have hne : (media.media != AUDIO_STREAM_NAME && media.media != VIDEO_STREAM_NAME)
          = false := by
        rcases hsup with h | h <;> simp [h]
      cases hreg : E.registry self.conn_calls (.create_connection media.media) with
      | none =>
        left
        refine ⟨rfl, rfl, ?_⟩
        simp [set_transport_medias_loop, hu, hb, hne,
          kms_base_rtp_endpoint_create_connection, hcalls, hreg]
      | some c =>
        right
        refine ⟨rfl, c, rfl, ?_⟩
        simp [set_transport_medias_loop, hu, hb, hne,
          kms_base_rtp_endpoint_create_connection, hcalls, hreg]

theorem set_transport_medias_loop_flags (K : SdpUtils) (E : Env)
    (medias : List GstSDPMedia) (self : KmsBaseRtpEndpoint) (bm : Option String) :
    (set_transport_medias_loop K E self bm medias).self.priv.flags = self.priv.flags := by
  induction medias generalizing self bm with
  | nil => rfl
  | cons media rest ih =>
    rcases set_transport_medias_loop_cons K E self bm media rest with
      h | ⟨self1, media1, hok, h | h | h⟩
    · rw [h]
    · rw [h.2]; exact (ih self1 _).trans hok.2.1
    · rw [h.2.2]; exact hok.2.1
    · obtain ⟨_, c, _, h3⟩ := h
      rw [h3]
      exact (ih _ _).trans hok.2.1

theorem set_transport_medias_loop_unsupported (K : SdpUtils) (E : Env)
    (medias : List GstSDPMedia) (self : KmsBaseRtpEndpoint) (bm : Option String)
    (hex : ∃ m ∈ medias, m.media ≠ AUDIO_STREAM_NAME ∧ m.media ≠ VIDEO_STREAM_NAME) :
    (set_transport_medias_loop K E self bm medias).ret = false := by
  induction medias generalizing self bm with
  | nil => obtain ⟨m, hm, _⟩ := hex; exact absurd hm (List.not_mem_nil _)
  | cons media rest ih =>
    have hrest : (media.media = AUDIO_STREAM_NAME ∨ media.media = VIDEO_STREAM_NAME) →
        ∃ m ∈ rest, m.media ≠ AUDIO_STREAM_NAME ∧ m.media ≠ VIDEO_STREAM_NAME := by
      intro hsup
      obtain ⟨m, hm, ha, hv⟩ := hex
      rcases List.mem_cons.mp hm with rfl | hm
      · rcases hsup with h | h
        · exact absurd h ha
        · exact absurd h hv
      · exact ⟨m, hm, ha, hv⟩
    rcases set_transport_medias_loop_cons K E self bm media rest with
      h | ⟨self1, media1, hok, h | h | h⟩
    · rw [h]
    · rw [h.2]; exact ih self1 _ (hrest hok.1)
    · rw [h.2.2]
    · obtain ⟨_, c, _, h3⟩ := h
      rw [h3]
      exact ih _ _ (hrest hok.1)

/-- The registry calls made by the loop. -/
theorem set_transport_medias_loop_calls (K : SdpUtils) (E : Env)
    (medias : List GstSDPMedia) (self : KmsBaseRtpEndpoint) (bm : Option String) :
    ∃ new, (set_transport_medias_loop K E self bm medias).self.conn_calls
        = self.conn_calls ++ new ∧
      (∀ c ∈ new, c.result = none →
        (set_transport_medias_loop K E self bm medias).ret = false) ∧
      ((set_transport_medias_loop K E self bm medias).ret = true →
        new.map (fun c => c.request) =
          if self.priv.bundle then []
          else medias.map (fun m => ConnRequest.create_connection m.media)) ∧
      (self.priv.bundle = true → new = []) := by
  induction medias generalizing self bm with
  | nil =>
    refine ⟨[], by simp [set_transport_medias_loop], by simp, ?_, fun _ => rfl⟩
    intro _
    cases self.priv.bundle <;> rfl
  | cons media rest ih =>
    rcases set_transport_medias_loop_cons K E self bm media rest with
      h | ⟨self1, media1, hok, h | h | h⟩
    · rw [h]
      exact ⟨[], by simp, by simp, by simp, fun _ => rfl⟩
    · obtain ⟨hb, h2⟩ := h
      rw [h2]
      have hb1 : self1.priv.bundle = true := (flags_bundle hok.2.1).trans hb
      obtain ⟨new, hc, hfail, hreq, hnil⟩ := ih self1 (bm.map (fun b => b ++ " " ++ media.media))
      refine ⟨new, by rw [← hok.2.2.1]; exact hc, hfail, ?_, fun _ => hnil hb1⟩
      intro hret
      have := hreq hret
      rw [hb1] at this
      rw [hb]
      exact this
    · obtain ⟨hb, hreg, h2⟩ := h
      rw [h2]
      exact ⟨[⟨.create_connection media.media, none⟩], rfl, by simp, by simp,
        fun h => by rw [hb] at h; exact absurd h (by simp)⟩
    · obtain ⟨hb, c, hreg, h2⟩ := h
      rw [h2]
      have hb1 : self1.priv.bundle = false := (flags_bundle hok.2.1).trans hb
      obtain ⟨new, hc, hfail, hreq, hnil⟩ := ih
        { self1 with conn_calls :=
            self.conn_calls ++ [⟨.create_connection media.media, some c⟩] } bm
      refine ⟨⟨.create_connection media.media, some c⟩ :: new, ?_, ?_, ?_, ?_⟩
      · simp only [] at hc ⊢
        rw [hc]; simp
      · intro d hd hres
        rcases List.mem_cons.mp hd with rfl | hd
        · simp at hres
        · exact hfail d hd hres
      · intro hret
        have := hreq hret
        simp only [hb1] at this
        simp only [hb, List.map_cons, this]
        rfl
      · intro h; rw [hb] at h; exact absurd h (by simp)

theorem forall2_same_or_mux (b x : Bool) (l : List GstSDPMedia) :
    List.Forall₂ (fun m m1 => m1 = m ∨ MuxAdded b x m m1) l l := by
  induction l with
  | nil => exact List.Forall₂.nil
  | cons a l ih => exact List.Forall₂.cons (Or.inl rfl) ih

theorem set_transport_medias_loop_mux (K : SdpUtils) (E : Env)
    (medias : List GstSDPMedia) (self : KmsBaseRtpEndpoint) (bm : Option String) :
    List.Forall₂ (fun m m1 => m1 = m ∨ MuxAdded self.priv.bundle self.priv.rtcp_mux m m1)
        medias (set_transport_medias_loop K E self bm medias).medias ∧
      ((set_transport_medias_loop K E self bm medias).ret = true →
        List.Forall₂ (MuxAdded self.priv.bundle self.priv.rtcp_mux)
          medias (set_transport_medias_loop K E self bm medias).medias) := by
  induction medias generalizing self bm with
  | nil => exact ⟨List.Forall₂.nil, fun _ => List.Forall₂.nil⟩
  | cons media rest ih =>
    have hcongr : ∀ self1 : KmsBaseRtpEndpoint, self1.priv.flags = self.priv.flags →
        (self1.priv.bundle = self.priv.bundle ∧ self1.priv.rtcp_mux = self.priv.rtcp_mux) :=
      fun self1 h => ⟨congrArg NegotiationFlags.bundle h, congrArg NegotiationFlags.rtcp_mux h⟩
    rcases set_transport_medias_loop_cons K E self bm media rest with
      h | ⟨self1, media1, hok, h | h | h⟩
    · rw [h]
      exact ⟨forall2_same_or_mux _ _ _, by simp⟩
    · rw [h.2]
      obtain ⟨i1, i2⟩ := ih self1 (bm.map (fun b => b ++ " " ++ media.media))
      obtain ⟨e1, e2⟩ := hcongr self1 hok.2.1
      rw [e1, e2] at i1 i2
      exact ⟨List.Forall₂.cons (Or.inr hok.2.2.2) i1,
        fun hret => List.Forall₂.cons hok.2.2.2 (i2 hret)⟩
    · rw [h.2.2]
      exact ⟨List.Forall₂.cons (Or.inr hok.2.2.2) (forall2_same_or_mux _ _ rest), by simp⟩
    · obtain ⟨_, c, _, h3⟩ := h
      rw [h3]
      obtain ⟨i1, i2⟩ := ih
        { self1 with conn_calls :=
            self.conn_calls ++ [⟨.create_connection media.media, some c⟩] } bm
      obtain ⟨e1, e2⟩ := hcongr self1 hok.2.1
      simp only [e1, e2] at i1 i2
      exact ⟨List.Forall₂.cons (Or.inr hok.2.2.2) i1,
        fun hret => List.Forall₂.cons hok.2.2.2 (i2 hret)⟩

theorem set_transport_medias_loop_mids (K : SdpUtils) (E : Env)
    (medias : List GstSDPMedia) (self : KmsBaseRtpEndpoint) (bm : Option String)
    (hret : (set_transport_medias_loop K E self bm medias).ret = true)
    (hb : self.priv.bundle = true) :
    (set_transport_medias_loop K E self bm medias).bundle_mids
      = bm.map (fun b => (medias.map (fun m => m.media)).foldl
          (fun acc mid => acc ++ " " ++ mid) b) := by
  induction medias generalizing self bm with
  | nil => cases bm <;> rfl
  | cons media rest ih =>
    rcases set_transport_medias_loop_cons K E self bm media rest with
      h | ⟨self1, media1, hok, h | h | h⟩
    · rw [h] at hret; simp at hret
    · rw [h.2] at hret ⊢
      have hb1 : self1.priv.bundle = true := (flags_bundle hok.2.1).trans hb
      simp only [] at hret ⊢
      rw [ih self1 _ hret hb1]
      cases bm <;> rfl
    · rw [hb] at h; exact absurd h.1 (by simp)
    · rw [hb] at h; exact absurd h.1 (by simp)

/-! ## `kms_base_rtp_endpoint_set_transport_to_sdp` as a whole -/

theorem set_transport_derive_flags_flags (K : SdpUtils) (E : Env)
    (priv : KmsBaseRtpEndpointPrivate) :
    (set_transport_derive_flags K E priv).flags =
      match E.remote_offer_sdp with
      | none => priv.flags
      | some offer => offer_flags K offer := by
  unfold set_transport_derive_flags
  cases E.remote_offer_sdp <;> rfl

/-- The three ways in which `kms_base_rtp_endpoint_set_transport_to_sdp` can
go: no bundle connection, bundling, not bundling. -/
theorem set_transport_to_sdp_cases (K : SdpUtils) (E : Env) (self : KmsBaseRtpEndpoint)
    (msg : GstSDPMessage) :
    ((set_transport_derive_flags K E self.priv).bundle = true ∧
      E.registry self.conn_calls (.create_bundle_connection BUNDLE_STREAM_NAME) = none ∧
      kms_base_rtp_endpoint_set_transport_to_sdp K E self msg
        = (false, set_transport_loop_start K E self none, msg))
    ∨ ((set_transport_derive_flags K E self.priv).bundle = true ∧
      ∃ c, E.registry self.conn_calls (.create_bundle_connection BUNDLE_STREAM_NAME) = some c ∧
      kms_base_rtp_endpoint_set_transport_to_sdp K E self msg
        = set_transport_finish (set_transport_medias_loop K E
            (set_transport_loop_start K E self (some c)) (some "BUNDLE") msg.medias) msg)
    ∨ ((set_transport_derive_flags K E self.priv).bundle = false ∧
      kms_base_rtp_endpoint_set_transport_to_sdp K E self msg
        = set_transport_finish (set_transport_medias_loop K E
            (set_transport_loop_start K E self none) none msg.medias) msg) := by
  cases hb : (set_transport_derive_flags K E self.priv).bundle with
  | false =>
    right; right
    refine ⟨rfl, ?_⟩
    simp [kms_base_rtp_endpoint_set_transport_to_sdp, set_transport_loop_start, hb]
  | true =>
    cases hreg : E.registry self.conn_calls (.create_bundle_connection BUNDLE_STREAM_NAME) with
    | none =>
      left
      refine ⟨rfl, rfl, ?_⟩
      simp [kms_base_rtp_endpoint_set_transport_to_sdp, set_transport_loop_start, hb,
        kms_base_rtp_endpoint_create_bundle_connection, hreg]
    | some c =>
      right; left
      refine ⟨rfl, c, rfl, ?_⟩
      simp [kms_base_rtp_endpoint_set_transport_to_sdp, set_transport_loop_start, hb,
        kms_base_rtp_endpoint_create_bundle_connection, hreg]

theorem set_transport_finish_fst (r : SetTransportLoop) (msg : GstSDPMessage) :
    (set_transport_finish r msg).1 = r.ret := by
  unfold set_transport_finish
  simp only []
  split
  · split <;> rfl
  · rfl

theorem set_transport_finish_self (r : SetTransportLoop) (msg : GstSDPMessage) :
    (set_transport_finish r msg).2.1 = r.self := by
  unfold set_transport_finish
  simp only []
  split
  · split <;> rfl
  · rfl

theorem set_transport_finish_medias (r : SetTransportLoop) (msg : GstSDPMessage) :
    (set_transport_finish r msg).2.2.medias = r.medias := by
  unfold set_transport_finish
  simp only []
  split
  · split <;> rfl
  · rfl

theorem set_transport_finish_attributes (r : SetTransportLoop) (msg : GstSDPMessage) :
    (set_transport_finish r msg).2.2.attributes =
      if r.ret && r.self.priv.bundle then
        msg.attributes ++ [⟨"group", r.bundle_mids.getD ""⟩]
      else msg.attributes := by
  unfold set_transport_finish
  cases hr : r.ret <;> cases hb : r.self.priv.bundle <;>
    simp [hr, hb, gst_sdp_message_add_attribute]

/-- C5: after `kms_base_rtp_endpoint_set_transport_to_sdp` the six negotiation
flags are the configured ones when there is no remote offer, and the ones
derived from the remote offer when there is one. -/
theorem c5_flags_after_set_transport (K : SdpUtils) (E : Env) (self : KmsBaseRtpEndpoint)
    (msg : GstSDPMessage) :
    (kms_base_rtp_endpoint_set_transport_to_sdp K E self msg).2.1.priv.flags =
      match E.remote_offer_sdp with
      | none => self.priv.flags
      | some offer => offer_flags K offer := by
  rw [← set_transport_derive_flags_flags K E self.priv]
  rcases set_transport_to_sdp_cases K E self msg with h | h | h
  · rw [h.2.2]; rfl
  · obtain ⟨_, c, _, h3⟩ := h
    rw [h3, set_transport_finish_self, set_transport_medias_loop_flags]; rfl
  · rw [h.2, set_transport_finish_self, set_transport_medias_loop_flags]; rfl

/-- C6: when the SDP has a media section whose media type is neither audio nor
video, `kms_base_rtp_endpoint_set_transport_to_sdp` returns failure. -/
theorem c6_unsupported_media_fails (K : SdpUtils) (E : Env) (self : KmsBaseRtpEndpoint)
    (msg : GstSDPMessage)
    (h : ∃ m ∈ msg.medias, m.media ≠ AUDIO_STREAM_NAME ∧ m.media ≠ VIDEO_STREAM_NAME) :
    (kms_base_rtp_endpoint_set_transport_to_sdp K E self msg).1 = false := by
  rcases set_transport_to_sdp_cases K E self msg with h1 | h1 | h1
  · rw [h1.2.2]
  · obtain ⟨_, c, _, h3⟩ := h1
    rw [h3, set_transport_finish_fst]
    exact set_transport_medias_loop_unsupported K E _ _ _ h
  · rw [h1.2, set_transport_finish_fst]
    exact set_transport_medias_loop_unsupported K E _ _ _ h

/-- Witness of C6: an application section between audio and video. -/
theorem c6_unsupported_media_fails_witness :
    (kms_base_rtp_endpoint_set_transport_to_sdp sampleUtils sampleEnv initEndpoint
      sdpWithApplication).1 = false :=
  c6_unsupported_media_fails sampleUtils sampleEnv initEndpoint sdpWithApplication
    ⟨sampleMedia "application" "5000", by decide, by decide, by decide⟩

theorem set_transport_medias_loop_no_conn (K : SdpUtils) (E : Env)
    (medias : List GstSDPMedia) (self : KmsBaseRtpEndpoint) (bm : Option String)
    (hb : self.priv.bundle = false) (m : GstSDPMedia) (hm : m ∈ medias)
    (hnone : ∀ calls, E.registry calls (.create_connection m.media) = none) :
    (set_transport_medias_loop K E self bm medias).ret = false := by
  induction medias generalizing self bm with
  | nil => exact absurd hm (List.not_mem_nil _)
  | cons media rest ih =>
    rcases set_transport_medias_loop_cons K E self bm media rest with
      h | ⟨self1, media1, hok, h | h | h⟩
    · rw [h]
    · rw [hb] at h; exact absurd h.1 (by simp)
    · rw [h.2.2]
    · obtain ⟨_, c, hreg, h3⟩ := h
      rw [h3]
      rcases List.mem_cons.mp hm with rfl | hm
      · rw [hnone] at hreg; exact absurd hreg (by simp)
      · exact ih _ _ ((flags_bundle hok.2.1).trans hb) hm

theorem set_transport_loop_start_bundle (K : SdpUtils) (E : Env) (self : KmsBaseRtpEndpoint)
    (c : Option KmsIRtpConnection) :
    (set_transport_loop_start K E self c).priv.bundle
      = (set_transport_derive_flags K E self.priv).bundle := rfl

theorem calls_since_append (before after : KmsBaseRtpEndpoint) (new : List ConnCall)
    (h : after.conn_calls = before.conn_calls ++ new) : calls_since before after = new := by
  simp [calls_since, h]

/-- The registry calls of one `kms_base_rtp_endpoint_set_transport_to_sdp`. -/
theorem set_transport_to_sdp_calls (K : SdpUtils) (E : Env) (self : KmsBaseRtpEndpoint)
    (msg : GstSDPMessage) :
    (∀ c ∈ calls_since self (kms_base_rtp_endpoint_set_transport_to_sdp K E self msg).2.1,
        c.result = none → (kms_base_rtp_endpoint_set_transport_to_sdp K E self msg).1 = false) ∧
    ((kms_base_rtp_endpoint_set_transport_to_sdp K E self msg).1 = true →
      (calls_since self (kms_base_rtp_endpoint_set_transport_to_sdp K E self msg).2.1).map
          (fun c => c.request) =
        if (set_transport_derive_flags K E self.priv).bundle then
          [ConnRequest.create_bundle_connection BUNDLE_STREAM_NAME]
        else msg.medias.map (fun m => ConnRequest.create_connection m.media)) := by
  rcases set_transport_to_sdp_cases K E self msg with h | h | h
  · rw [h.2.2]
    simp
  · obtain ⟨hb, c, _, h3⟩ := h
    rw [h3, set_transport_finish_fst, set_transport_finish_self]
    obtain ⟨new, hc, hfail, hreq, hnil⟩ := set_transport_medias_loop_calls K E msg.medias
      (set_transport_loop_start K E self (some c)) (some "BUNDLE")
    have hnew : new = [] := hnil (by rw [set_transport_loop_start_bundle]; exact hb)
    subst hnew
    have hcs : calls_since self (set_transport_medias_loop K E
        (set_transport_loop_start K E self (some c)) (some "BUNDLE") msg.medias).self
        = [⟨.create_bundle_connection BUNDLE_STREAM_NAME, some c⟩] := by
      apply calls_since_append
      rw [hc]
      simp [set_transport_loop_start, hb]
    rw [hcs, hb]
    simp
  · obtain ⟨hb, h3⟩ := h
    rw [h3, set_transport_finish_fst, set_transport_finish_self]
    obtain ⟨new, hc, hfail, hreq, hnil⟩ := set_transport_medias_loop_calls K E msg.medias
      (set_transport_loop_start K E self none) none
    have hcs : calls_since self (set_transport_medias_loop K E
        (set_transport_loop_start K E self none) none msg.medias).self = new := by
      apply calls_since_append
      rw [hc]
      simp [set_transport_loop_start, hb]
    rw [hcs, hb]
    refine ⟨hfail, ?_⟩
    intro hret
    have := hreq hret
    rw [set_transport_loop_start_bundle, hb] at this
    simpa using this

/-- C7: `kms_base_rtp_endpoint_set_transport_to_sdp` returns failure whenever
a call of the connection registry made by it returned no connection; when
bundling is active and the registry has no bundle connection, it returns
failure and the SDP message is as before; when bundling is not active and the
registry has no connection for the media type of some section, it returns
failure. -/
theorem c7_no_connection_fails (K : SdpUtils) (E : Env) (self : KmsBaseRtpEndpoint)
    (msg : GstSDPMessage) :
    (∀ c ∈ calls_since self (kms_base_rtp_endpoint_set_transport_to_sdp K E self msg).2.1,
        c.result = none → (kms_base_rtp_endpoint_set_transport_to_sdp K E self msg).1 = false) ∧
    ((set_transport_derive_flags K E self.priv).bundle = true →
      E.registry self.conn_calls (.create_bundle_connection BUNDLE_STREAM_NAME) = none →
      (kms_base_rtp_endpoint_set_transport_to_sdp K E self msg).1 = false ∧
      (kms_base_rtp_endpoint_set_transport_to_sdp K E self msg).2.2 = msg) ∧
    ((set_transport_derive_flags K E self.priv).bundle = false →
      ∀ m ∈ msg.medias, (∀ calls, E.registry calls (.create_connection m.media) = none) →
      (kms_base_rtp_endpoint_set_transport_to_sdp K E self msg).1 = false) := by
  refine ⟨(set_transport_to_sdp_calls K E self msg).1, ?_, ?_⟩
  · intro hb hreg
    rcases set_transport_to_sdp_cases K E self msg with h | h | h
    · rw [h.2.2]; exact ⟨rfl, rfl⟩
    · obtain ⟨_, c, hc, _⟩ := h
      rw [hreg] at hc; exact absurd hc (by simp)
    · rw [hb] at h; exact absurd h.1 (by simp)
  · intro hb m hm hnone
    rcases set_transport_to_sdp_cases K E self msg with h | h | h
    · rw [h.2.2]
    · rw [hb] at h; exact absurd h.1 (by simp)
    · rw [h.2, set_transport_finish_fst]
      exact set_transport_medias_loop_no_conn K E _ _ _
        (by rw [set_transport_loop_start_bundle]; exact hb) m hm hnone

/-- Witness of C7: a registry without bundle connection under a bundling
offer, where the one call made returned nothing, and a registry without video
connection when bundling is off. -/
theorem c7_no_connection_fails_witness :
    ((kms_base_rtp_endpoint_set_transport_to_sdp sampleUtils envNoBundleConn initEndpoint
        sampleSdp).1 = false ∧
      (kms_base_rtp_endpoint_set_transport_to_sdp sampleUtils envNoBundleConn initEndpoint
        sampleSdp).2.2 = sampleSdp) ∧
    (kms_base_rtp_endpoint_set_transport_to_sdp sampleUtils envNoBundleConn initEndpoint
        sampleSdp).1 = false ∧
    (kms_base_rtp_endpoint_set_transport_to_sdp sampleUtils envNoVideoConn initEndpoint
        sampleSdp).1 = false :=
  ⟨(c7_no_connection_fails sampleUtils envNoBundleConn initEndpoint sampleSdp).2.1
      (by decide) (by decide),
    (c7_no_connection_fails sampleUtils envNoBundleConn initEndpoint sampleSdp).1
      ⟨.create_bundle_connection "bundle", none⟩ (by decide) rfl,
    (c7_no_connection_fails sampleUtils envNoVideoConn initEndpoint sampleSdp).2.2
      (by decide) (sampleMedia "video" "100") (by decide)
      (fun _ => by simp [envNoVideoConn, sampleMedia])⟩

/-- C8: after a successful `kms_base_rtp_endpoint_set_transport_to_sdp`, the
requests made to the connection registry are, when bundling is not active, one
`create_connection` for each media section, in order and under the media type
of the section, and no bundle request; when bundling is active, one
`create_bundle_connection` and nothing else. -/
theorem c8_connections_requested (K : SdpUtils) (E : Env) (self : KmsBaseRtpEndpoint)
    (msg : GstSDPMessage)
    (hret : (kms_base_rtp_endpoint_set_transport_to_sdp K E self msg).1 = true) :
    (calls_since self (kms_base_rtp_endpoint_set_transport_to_sdp K E self msg).2.1).map
        (fun c => c.request) =
      if (set_transport_derive_flags K E self.priv).bundle then
        [ConnRequest.create_bundle_connection BUNDLE_STREAM_NAME]
      else msg.medias.map (fun m => ConnRequest.create_connection m.media) :=
  (set_transport_to_sdp_calls K E self msg).2 hret

/-- Witness of C8: an audio and video SDP without bundling gives exactly the
two requests for "audio" and "video"; with a bundling offer it gives exactly
the request for "bundle". -/
theorem c8_connections_requested_witness :
    (calls_since initEndpoint (kms_base_rtp_endpoint_set_transport_to_sdp sampleUtils
        sampleEnv initEndpoint sampleSdp).2.1).map (fun c => c.request)
      = [.create_connection "audio", .create_connection "video"] ∧
    (calls_since initEndpoint (kms_base_rtp_endpoint_set_transport_to_sdp sampleUtils
        envBundleOffer initEndpoint sampleSdp).2.1).map (fun c => c.request)
      = [.create_bundle_connection "bundle"] :=
  ⟨c8_connections_requested sampleUtils sampleEnv initEndpoint sampleSdp (by decide),
    c8_connections_requested sampleUtils envBundleOffer initEndpoint sampleSdp (by decide)⟩

/-- C9: `kms_base_rtp_endpoint_update_sdp_media` adds one `rtcp-mux` attribute
to the section it processes exactly when the bundle flag or the rtcp-mux flag
is set; so after `kms_base_rtp_endpoint_set_transport_to_sdp` every section is
either untouched or has got the attribute exactly under that condition, and
after a successful call all sections have; with bundle set the attribute is
added whatever the rtcp-mux flag. -/
theorem c9_rtcp_mux_added (K : SdpUtils) (E : Env) (self : KmsBaseRtpEndpoint)
    (msg : GstSDPMessage) :
    (∀ (media : GstSDPMedia) (s : String),
      (kms_base_rtp_endpoint_update_sdp_media K E self media E.use_ipv6 E.cname).2.2 = some s →
      MuxAdded self.priv.bundle self.priv.rtcp_mux media
        (kms_base_rtp_endpoint_update_sdp_media K E self media E.use_ipv6 E.cname).2.1) ∧
    List.Forall₂
      (fun m m1 => m1 = m ∨
        MuxAdded (set_transport_derive_flags K E self.priv).bundle
          (set_transport_derive_flags K E self.priv).rtcp_mux m m1)
      msg.medias (kms_base_rtp_endpoint_set_transport_to_sdp K E self msg).2.2.medias ∧
    ((kms_base_rtp_endpoint_set_transport_to_sdp K E self msg).1 = true →
      List.Forall₂
        (MuxAdded (set_transport_derive_flags K E self.priv).bundle
          (set_transport_derive_flags K E self.priv).rtcp_mux)
        msg.medias (kms_base_rtp_endpoint_set_transport_to_sdp K E self msg).2.2.medias) ∧
    ((kms_base_rtp_endpoint_set_transport_to_sdp K E self msg).1 = true →
      (set_transport_derive_flags K E self.priv).bundle = true →
      List.Forall₂
        (fun m m1 => attribute_vals m1.attributes RTCP_MUX
          = attribute_vals m.attributes RTCP_MUX ++ [""])
        msg.medias (kms_base_rtp_endpoint_set_transport_to_sdp K E self msg).2.2.medias) := by
  have key : List.Forall₂
      (fun m m1 => m1 = m ∨
        MuxAdded (set_transport_derive_flags K E self.priv).bundle
          (set_transport_derive_flags K E self.priv).rtcp_mux m m1)
      msg.medias (kms_base_rtp_endpoint_set_transport_to_sdp K E self msg).2.2.medias ∧
    ((kms_base_rtp_endpoint_set_transport_to_sdp K E self msg).1 = true →
      List.Forall₂
        (MuxAdded (set_transport_derive_flags K E self.priv).bundle
          (set_transport_derive_flags K E self.priv).rtcp_mux)
        msg.medias (kms_base_rtp_endpoint_set_transport_to_sdp K E self msg).2.2.medias) := by
    rcases set_transport_to_sdp_cases K E self msg with h | h | h
    · rw [h.2.2]
      exact ⟨forall2_same_or_mux _ _ _, by simp⟩
    · obtain ⟨_, c, _, h3⟩ := h
      rw [h3, set_transport_finish_fst, set_transport_finish_medias]
      exact set_transport_medias_loop_mux K E msg.medias
        (set_transport_loop_start K E self (some c)) (some "BUNDLE")
    · rw [h.2, set_transport_finish_fst, set_transport_finish_medias]
      exact set_transport_medias_loop_mux K E msg.medias
        (set_transport_loop_start K E self none) none
  refine ⟨?_, key.1, key.2, ?_⟩
  · intro media s hs
    exact (update_sdp_media_some K E self media E.use_ipv6 E.cname s hs).2.2.2.2
  · intro hret hb
    have := key.2 hret
    rw [hb] at this
    simpa [MuxAdded] using this

/-- Witness of C9: bundle configured without rtcp-mux; both sections get the
`rtcp-mux` attribute. -/
theorem c9_rtcp_mux_added_witness :
    List.Forall₂
      (fun m m1 => attribute_vals m1.attributes RTCP_MUX
        = attribute_vals m.attributes RTCP_MUX ++ [""])
      sampleSdp.medias
      (kms_base_rtp_endpoint_set_transport_to_sdp sampleUtils sampleEnv endpointBundle
        sampleSdp).2.2.medias ∧
    MuxAdded false false (sampleMedia "audio" "0")
      (kms_base_rtp_endpoint_update_sdp_media sampleUtils sampleEnv initEndpoint
        (sampleMedia "audio" "0") false "user@host").2.1 :=
  ⟨(c9_rtcp_mux_added sampleUtils sampleEnv endpointBundle sampleSdp).2.2.2
      (by decide) (by decide),
    (c9_rtcp_mux_added sampleUtils sampleEnv initEndpoint sampleSdp).1
      (sampleMedia "audio" "0") "audio" (by decide)⟩

/-- C10: `kms_base_rtp_endpoint_set_transport_to_sdp` appends exactly one
session-level attribute, `group` with the value `BUNDLE` followed by a space
and the media string of every section in order, when it succeeds with
bundling active; otherwise it leaves the session-level attributes as they
were. -/
theorem c10_group_attribute (K : SdpUtils) (E : Env) (self : KmsBaseRtpEndpoint)
    (msg : GstSDPMessage) :
    (kms_base_rtp_endpoint_set_transport_to_sdp K E self msg).2.2.attributes =
      if (kms_base_rtp_endpoint_set_transport_to_sdp K E self msg).1
          && (set_transport_derive_flags K E self.priv).bundle then
        msg.attributes ++ [⟨"group", bundle_group_value (msg.medias.map (fun m => m.media))⟩]
      else msg.attributes := by
  rcases set_transport_to_sdp_cases K E self msg with h | h | h
  · rw [h.2.2]; simp
  · obtain ⟨hb, c, _, h3⟩ := h
    rw [h3, set_transport_finish_fst, set_transport_finish_attributes,
      flags_bundle (set_transport_medias_loop_flags K E msg.medias _ _),
      set_transport_loop_start_bundle, hb]
    cases hret : (set_transport_medias_loop K E
        (set_transport_loop_start K E self (some c)) (some "BUNDLE") msg.medias).ret with
    | false => simp
    | true =>
      rw [set_transport_medias_loop_mids K E msg.medias _ _ hret
        (by rw [set_transport_loop_start_bundle]; exact hb)]
      simp [bundle_group_value]
  · obtain ⟨hb, h3⟩ := h
    rw [h3, set_transport_finish_fst, set_transport_finish_attributes,
      flags_bundle (set_transport_medias_loop_flags K E msg.medias _ _),
      set_transport_loop_start_bundle, hb]
    simp

/-! ## SSRC demultiplexing and active-media tracking -/

theorem rtp_ssrc_demux_new_ssrc_pad_audio_iff (rr : Nat → Nat) (s : Nat) (pad : String)
    (self : KmsBaseRtpEndpoint) :
    links_to_audio (rtp_ssrc_demux_new_ssrc_pad rr s pad self)
      ↔ (self.priv.remote_audio_ssrc = s ∨
          (rr s = self.priv.local_audio_ssrc ∧ self.priv.local_audio_ssrc ≠ 0)) := by
  unfold rtp_ssrc_demux_new_ssrc_pad links_to_audio ssrcs_are_mapped
  simp only []
  by_cases ha : self.priv.remote_audio_ssrc = s
  · simp [ha, RtpbinRecvSink.is_audio]
  · by_cases hm : rr s = self.priv.local_audio_ssrc ∧ self.priv.local_audio_ssrc ≠ 0
    · simp [hm.1, hm.2, RtpbinRecvSink.is_audio]
    · have hcond : (self.priv.remote_audio_ssrc == s
          || (self.priv.local_audio_ssrc != 0
            && rr s == self.priv.local_audio_ssrc)) = false := by
        simp only [Bool.or_eq_false_iff, beq_eq_false_iff_ne, ne_eq, Bool.and_eq_false_imp,
          bne_iff_ne]
        exact ⟨ha, fun h0 h1 => hm ⟨h1, h0⟩⟩
      simp only [hcond, Bool.false_eq_true, if_false, ha, hm, or_self, iff_false, not_exists,
        not_and]
      intro l hl
      split at hl
      · simp only [List.mem_cons, List.mem_singleton, List.not_mem_nil, or_false] at hl
        rcases hl with rfl | rfl <;> simp [RtpbinRecvSink.is_audio]
      · simp at hl

/-- C16: `rtp_ssrc_demux_new_ssrc_pad` links a newly observed SSRC to the
audio path if and only if it equals the remote audio SSRC, or the
receiver-report lookup for it gives the local audio SSRC and that local audio
SSRC is non-zero. -/
theorem c16_demux_audio_rule (rr : Nat → Nat) (s : Nat) (pad : String)
    (self : KmsBaseRtpEndpoint) :
    links_to_audio (rtp_ssrc_demux_new_ssrc_pad rr s pad self)
      ↔ (self.priv.remote_audio_ssrc = s ∨
          (rr s = self.priv.local_audio_ssrc ∧ self.priv.local_audio_ssrc ≠ 0)) :=
  rtp_ssrc_demux_new_ssrc_pad_audio_iff rr s pad self


theorem rtp_ssrc_demux_new_ssrc_pad_audio (rr : Nat → Nat) (s : Nat) (pad : String)
    (self : KmsBaseRtpEndpoint)
    (h : self.priv.remote_audio_ssrc = s ∨
      (rr s = self.priv.local_audio_ssrc ∧ self.priv.local_audio_ssrc ≠ 0)) :
    rtp_ssrc_demux_new_ssrc_pad rr s pad self =
      [⟨pad, .AUDIO_RTPBIN_RECV_RTP_SINK⟩, ⟨"rtcp_" ++ pad, .AUDIO_RTPBIN_RECV_RTCP_SINK⟩] := by
  unfold rtp_ssrc_demux_new_ssrc_pad ssrcs_are_mapped
  rcases h with h | h
  · simp [h]
  · simp [h.1, h.2]

theorem rtp_ssrc_demux_new_ssrc_pad_not_audio (rr : Nat → Nat) (s : Nat) (pad : String)
    (self : KmsBaseRtpEndpoint)
    (ha : self.priv.remote_audio_ssrc ≠ s)
    (hm : ¬ (rr s = self.priv.local_audio_ssrc ∧ self.priv.local_audio_ssrc ≠ 0)) :
    rtp_ssrc_demux_new_ssrc_pad rr s pad self =
      if self.priv.remote_video_ssrc = s ∨
          (rr s = self.priv.local_video_ssrc ∧ self.priv.local_video_ssrc ≠ 0) then
        [⟨pad, .VIDEO_RTPBIN_RECV_RTP_SINK⟩, ⟨"rtcp_" ++ pad, .VIDEO_RTPBIN_RECV_RTCP_SINK⟩]
      else [] := by
  unfold rtp_ssrc_demux_new_ssrc_pad ssrcs_are_mapped
  have hcond : (self.priv.remote_audio_ssrc == s
      || (self.priv.local_audio_ssrc != 0
        && rr s == self.priv.local_audio_ssrc)) = false := by
    simp only [Bool.or_eq_false_iff, beq_eq_false_iff_ne, ne_eq, Bool.and_eq_false_imp,
      bne_iff_ne]
    exact ⟨ha, fun h0 h1 => hm ⟨h1, h0⟩⟩
  simp only [hcond, Bool.false_eq_true, if_false]
  by_cases hv : self.priv.remote_video_ssrc = s
  · simp [hv]
  · by_cases hw : rr s = self.priv.local_video_ssrc ∧ self.priv.local_video_ssrc ≠ 0
    · simp [hw.1, hw.2]
    · have hcond2 : (self.priv.remote_video_ssrc == s
          || (self.priv.local_video_ssrc != 0
            && rr s == self.priv.local_video_ssrc)) = false := by
        simp only [Bool.or_eq_false_iff, beq_eq_false_iff_ne, ne_eq, Bool.and_eq_false_imp,
          bne_iff_ne]
        exact ⟨hv, fun h0 h1 => hw ⟨h1, h0⟩⟩
      simp [hcond2, hv, hw]

/-- C17 (as amended): an incoming SSRC that equals the remote video SSRC and
does not match the audio rule (it differs from the remote audio SSRC and the
receiver-report lookup does not give a non-zero local audio SSRC for it) is
linked by `rtp_ssrc_demux_new_ssrc_pad` to the two pads of the video path and
to no pad of the audio path. -/
theorem c17_remote_video_ssrc_to_video (rr : Nat → Nat) (s : Nat) (pad : String)
    (self : KmsBaseRtpEndpoint)
    (hv : self.priv.remote_video_ssrc = s)
    (ha : self.priv.remote_audio_ssrc ≠ s)
    (hm : ¬ (rr s = self.priv.local_audio_ssrc ∧ self.priv.local_audio_ssrc ≠ 0)) :
    rtp_ssrc_demux_new_ssrc_pad rr s pad self =
        [⟨pad, .VIDEO_RTPBIN_RECV_RTP_SINK⟩, ⟨"rtcp_" ++ pad, .VIDEO_RTPBIN_RECV_RTCP_SINK⟩] ∧
      links_to_video (rtp_ssrc_demux_new_ssrc_pad rr s pad self) ∧
      ¬ links_to_audio (rtp_ssrc_demux_new_ssrc_pad rr s pad self) := by
  have hnot : ¬ links_to_audio (rtp_ssrc_demux_new_ssrc_pad rr s pad self) := by
    rw [rtp_ssrc_demux_new_ssrc_pad_audio_iff]
    exact fun h => h.elim ha hm
  rw [rtp_ssrc_demux_new_ssrc_pad_not_audio rr s pad self ha hm] at hnot ⊢
  rw [if_pos (Or.inl hv)] at hnot ⊢
  exact ⟨rfl, ⟨_, List.mem_cons_self _ _, rfl⟩, hnot⟩

/-- Witness of C17 (as amended): the remote video SSRC 7 of the bundled
endpoint, with no receiver report known. -/
theorem c17_remote_video_ssrc_to_video_witness :
    rtp_ssrc_demux_new_ssrc_pad rrNone 7 "src_7" endpointBundled =
        [⟨"src_7", .VIDEO_RTPBIN_RECV_RTP_SINK⟩,
          ⟨"rtcp_" ++ "src_7", .VIDEO_RTPBIN_RECV_RTCP_SINK⟩] ∧
      links_to_video (rtp_ssrc_demux_new_ssrc_pad rrNone 7 "src_7" endpointBundled) ∧
      ¬ links_to_audio (rtp_ssrc_demux_new_ssrc_pad rrNone 7 "src_7" endpointBundled) :=
  c17_remote_video_ssrc_to_video rrNone 7 "src_7" endpointBundled (by decide) (by decide)
    (by decide)

/-- Counterexample to C17 as stated: in the bundled endpoint the incoming SSRC
7 is the remote video SSRC, and it is linked to the audio path and not to the
video path, because the receiver-report lookup gives the local audio SSRC for
it; the same happens in an endpoint whose remote audio SSRC is 7 as well. -/
theorem c17_counterexample :
    (endpointBundled.priv.bundle = true ∧ endpointBundled.priv.remote_video_ssrc = 7 ∧
      links_to_audio (rtp_ssrc_demux_new_ssrc_pad rrCross 7 "src_7" endpointBundled) ∧
      ¬ links_to_video (rtp_ssrc_demux_new_ssrc_pad rrCross 7 "src_7" endpointBundled)) ∧
    (endpointSameRemote.priv.bundle = true ∧ endpointSameRemote.priv.remote_video_ssrc = 7 ∧
      links_to_audio (rtp_ssrc_demux_new_ssrc_pad rrNone 7 "src_7" endpointSameRemote) ∧
      ¬ links_to_video (rtp_ssrc_demux_new_ssrc_pad rrNone 7 "src_7" endpointSameRemote)) := by
  have e1 : rtp_ssrc_demux_new_ssrc_pad rrCross 7 "src_7" endpointBundled =
      [⟨"src_7", .AUDIO_RTPBIN_RECV_RTP_SINK⟩,
        ⟨"rtcp_" ++ "src_7", .AUDIO_RTPBIN_RECV_RTCP_SINK⟩] :=
    rtp_ssrc_demux_new_ssrc_pad_audio rrCross 7 "src_7" endpointBundled
      (Or.inr (by decide))
  have e2 : rtp_ssrc_demux_new_ssrc_pad rrNone 7 "src_7" endpointSameRemote =
      [⟨"src_7", .AUDIO_RTPBIN_RECV_RTP_SINK⟩,
        ⟨"rtcp_" ++ "src_7", .AUDIO_RTPBIN_RECV_RTCP_SINK⟩] :=
    rtp_ssrc_demux_new_ssrc_pad_audio rrNone 7 "src_7" endpointSameRemote
      (Or.inl (by decide))
  refine ⟨⟨rfl, rfl, ?_, ?_⟩, ⟨rfl, rfl, ?_, ?_⟩⟩
  · rw [e1]; exact ⟨_, List.mem_cons_self _ _, rfl⟩
  · rw [e1]; simp [links_to_video, RtpbinRecvSink.is_video]
  · rw [e2]; exact ⟨_, List.mem_cons_self _ _, rfl⟩
  · rw [e2]; simp [links_to_video, RtpbinRecvSink.is_video]

/-- C18: a newly observed SSRC that matches neither the audio rule nor the
video rule is linked by `rtp_ssrc_demux_new_ssrc_pad` to no pad at all, and no
SSRC is ever linked to both the audio path and the video path. -/
theorem c18_demux_no_match_no_link (rr : Nat → Nat) (s : Nat) (pad : String)
    (self : KmsBaseRtpEndpoint) :
    ((¬ (self.priv.remote_audio_ssrc = s ∨
          (rr s = self.priv.local_audio_ssrc ∧ self.priv.local_audio_ssrc ≠ 0)) ∧
      ¬ (self.priv.remote_video_ssrc = s ∨
          (rr s = self.priv.local_video_ssrc ∧ self.priv.local_video_ssrc ≠ 0))) →
      rtp_ssrc_demux_new_ssrc_pad rr s pad self = []) ∧
    ¬ (links_to_audio (rtp_ssrc_demux_new_ssrc_pad rr s pad self) ∧
        links_to_video (rtp_ssrc_demux_new_ssrc_pad rr s pad self)) := by
  refine ⟨?_, ?_⟩
  · rintro ⟨hna, hnv⟩
    rw [rtp_ssrc_demux_new_ssrc_pad_not_audio rr s pad self (fun h => hna (Or.inl h))
      (fun h => hna (Or.inr h)), if_neg hnv]
  · rintro ⟨hA, hV⟩
    have hrule := (rtp_ssrc_demux_new_ssrc_pad_audio_iff rr s pad self).mp hA
    rw [rtp_ssrc_demux_new_ssrc_pad_audio rr s pad self hrule] at hV
    simp [links_to_video, RtpbinRecvSink.is_video] at hV

/-- Witness of C18: the SSRC 99 is unknown to the bundled endpoint and gets
no link. -/
theorem c18_demux_no_match_no_link_witness :
    rtp_ssrc_demux_new_ssrc_pad rrCross 99 "src_99" endpointBundled = [] :=
  (c18_demux_no_match_no_link rrCross 99 "src_99" endpointBundled).1 (by decide)

/-- C20: on a new-SSRC event for the audio (video) session, an unset active
audio (video) SSRC becomes the SSRC of the event and a set one stays as it is;
the active SSRC of the other media does not change; an event for any other
session id changes nothing in the endpoint. -/
theorem c20_first_seen_wins (session ssrc : Nat) (self : KmsBaseRtpEndpoint) :
    (session = AUDIO_RTP_SESSION → self.priv.audio_ssrc = 0 →
      (kms_base_rtp_endpoint_rtpbin_on_new_ssrc session ssrc self).priv.audio_ssrc = ssrc) ∧
    (session = AUDIO_RTP_SESSION → self.priv.audio_ssrc ≠ 0 →
      kms_base_rtp_endpoint_rtpbin_on_new_ssrc session ssrc self = self) ∧
    (session = AUDIO_RTP_SESSION →
      (kms_base_rtp_endpoint_rtpbin_on_new_ssrc session ssrc self).priv.video_ssrc
        = self.priv.video_ssrc) ∧
    (session = VIDEO_RTP_SESSION → self.priv.video_ssrc = 0 →
      (kms_base_rtp_endpoint_rtpbin_on_new_ssrc session ssrc self).priv.video_ssrc = ssrc) ∧
    (session = VIDEO_RTP_SESSION → self.priv.video_ssrc ≠ 0 →
      kms_base_rtp_endpoint_rtpbin_on_new_ssrc session ssrc self = self) ∧
    (session = VIDEO_RTP_SESSION →
      (kms_base_rtp_endpoint_rtpbin_on_new_ssrc session ssrc self).priv.audio_ssrc
        = self.priv.audio_ssrc) ∧
    (session ≠ AUDIO_RTP_SESSION → session ≠ VIDEO_RTP_SESSION →
      kms_base_rtp_endpoint_rtpbin_on_new_ssrc session ssrc self = self) := by
  have hne : VIDEO_RTP_SESSION ≠ AUDIO_RTP_SESSION := by decide
  refine ⟨?_, ?_, ?_, ?_, ?_, ?_, ?_⟩
  · intro hs h0
    simp [kms_base_rtp_endpoint_rtpbin_on_new_ssrc, hs, h0]
  · intro hs h0
    simp [kms_base_rtp_endpoint_rtpbin_on_new_ssrc, hs, h0]
  · intro hs
    unfold kms_base_rtp_endpoint_rtpbin_on_new_ssrc
    rw [if_pos hs]
    split <;> rfl
  · intro hs h0
    simp [kms_base_rtp_endpoint_rtpbin_on_new_ssrc, hs, h0, hne]
  · intro hs h0
    simp [kms_base_rtp_endpoint_rtpbin_on_new_ssrc, hs, h0, hne]
  · intro hs
    unfold kms_base_rtp_endpoint_rtpbin_on_new_ssrc
    rw [hs, if_neg hne, if_pos rfl]
    split <;> rfl
  · intro h1 h2
    simp [kms_base_rtp_endpoint_rtpbin_on_new_ssrc, h1, h2]

/-- Witness of C20: on a fresh endpoint the audio SSRC 41 becomes active, a
later audio SSRC 42 does not replace it, a video SSRC 43 leaves it alone, and
an event for the session 5 changes nothing. -/
theorem c20_first_seen_wins_witness :
    (kms_base_rtp_endpoint_rtpbin_on_new_ssrc 0 41 initEndpoint).priv.audio_ssrc = 41 ∧
    kms_base_rtp_endpoint_rtpbin_on_new_ssrc 0 42
        (kms_base_rtp_endpoint_rtpbin_on_new_ssrc 0 41 initEndpoint)
      = kms_base_rtp_endpoint_rtpbin_on_new_ssrc 0 41 initEndpoint ∧
    (kms_base_rtp_endpoint_rtpbin_on_new_ssrc 1 43
        (kms_base_rtp_endpoint_rtpbin_on_new_ssrc 0 41 initEndpoint)).priv.audio_ssrc = 41 ∧
    kms_base_rtp_endpoint_rtpbin_on_new_ssrc 5 44 initEndpoint = initEndpoint :=
  ⟨(c20_first_seen_wins 0 41 initEndpoint).1 rfl rfl,
    (c20_first_seen_wins 0 42 (kms_base_rtp_endpoint_rtpbin_on_new_ssrc 0 41 initEndpoint)).2.1
      rfl (by decide),
    (c20_first_seen_wins 1 43
      (kms_base_rtp_endpoint_rtpbin_on_new_ssrc 0 41 initEndpoint)).2.2.2.2.2.1 rfl,
    (c20_first_seen_wins 5 44 initEndpoint).2.2.2.2.2.2 (by decide) (by decide)⟩


/-! ## Lemmas on `kms_base_rtp_endpoint_start_transport_send` -/

theorem last_media_cons (kind : String) (m : GstSDPMedia) (ms : List GstSDPMedia) :
    last_media kind (m :: ms) =
      match last_media kind ms with
      | some x => some x
      | none => if m.media == kind then some m else none := by
  unfold last_media
  rw [List.reverse_cons, List.find?_append]
  cases h : List.find? (fun m => m.media == kind) ms.reverse with
  | some x => simp
  | none => by_cases hm : m.media == kind <;> simp [hm]

theorem last_media_append_singleton (kind : String) (ms : List GstSDPMedia)
    (m : GstSDPMedia) :
    last_media kind (ms ++ [m]) =
      if m.media == kind then some m else last_media kind ms := by
  unfold last_media
  rw [List.reverse_append, List.reverse_singleton, List.singleton_append, List.find?_cons]
  by_cases hm : m.media == kind <;> simp [hm]

theorem last_media_some_mem (kind : String) (ms : List GstSDPMedia) (m : GstSDPMedia)
    (h : last_media kind ms = some m) : m ∈ ms ∧ m.media = kind := by
  unfold last_media at h
  have h1 := List.mem_of_find?_eq_some h
  have h2 := List.find?_some h
  exact ⟨List.mem_reverse.mp h1, by simpa using h2⟩

theorem create_remb_managers_frame (S : SendEnv) (self : KmsBaseRtpEndpoint) :
    (kms_base_rtp_endpoint_create_remb_managers S self).priv.remote_audio_ssrc
        = self.priv.remote_audio_ssrc ∧
    (kms_base_rtp_endpoint_create_remb_managers S self).priv.remote_video_ssrc
        = self.priv.remote_video_ssrc ∧
    (kms_base_rtp_endpoint_create_remb_managers S self).priv.rtcp_remb
        = self.priv.rtcp_remb := by
  unfold kms_base_rtp_endpoint_create_remb_managers
  cases S.internal_session VIDEO_RTP_SESSION <;> exact ⟨rfl, rfl, rfl⟩

theorem audio_ne_video : AUDIO_STREAM_NAME ≠ VIDEO_STREAM_NAME := by decide

/-- What one media section does to the two remote SSRCs and the REMB flag. -/
theorem start_transport_send_media_ssrc (S : SendEnv) (self : KmsBaseRtpEndpoint)
    (media : GstSDPMedia) :
    (start_transport_send_media S self media).priv.remote_audio_ssrc
        = (if media.media == AUDIO_STREAM_NAME then S.sdp_utils_media_get_ssrc media
          else self.priv.remote_audio_ssrc) ∧
    (start_transport_send_media S self media).priv.remote_video_ssrc
        = (if media.media == VIDEO_STREAM_NAME then S.sdp_utils_media_get_ssrc media
          else self.priv.remote_video_ssrc) ∧
    (start_transport_send_media S self media).priv.rtcp_remb = self.priv.rtcp_remb := by
  unfold start_transport_send_media
  by_cases ha : media.media = AUDIO_STREAM_NAME
  · have hv : media.media ≠ VIDEO_STREAM_NAME := by rw [ha]; exact audio_ne_video
    simp [ha, audio_ne_video]
  · by_cases hv : media.media = VIDEO_STREAM_NAME
    · simp only [hv, beq_self_eq_true, if_true]
      have hva : (VIDEO_STREAM_NAME == AUDIO_STREAM_NAME) = false := by decide
      simp only [hva, Bool.false_eq_true, if_false]
      split
      · obtain ⟨h1, h2, h3⟩ := create_remb_managers_frame S
          { self with priv := { self.priv with
              remote_video_ssrc := S.sdp_utils_media_get_ssrc media } }
        exact ⟨h1, h2, h3⟩
      · exact ⟨rfl, rfl, rfl⟩
    · simp [ha, hv]

theorem start_transport_send_foldl_ssrc (S : SendEnv) (medias : List GstSDPMedia)
    (self : KmsBaseRtpEndpoint) :
    (medias.foldl (start_transport_send_media S) self).priv.remote_audio_ssrc
        = (match last_media AUDIO_STREAM_NAME medias with
          | some m => S.sdp_utils_media_get_ssrc m
          | none => self.priv.remote_audio_ssrc) ∧
    (medias.foldl (start_transport_send_media S) self).priv.remote_video_ssrc
        = (match last_media VIDEO_STREAM_NAME medias with
          | some m => S.sdp_utils_media_get_ssrc m
          | none => self.priv.remote_video_ssrc) ∧
    (medias.foldl (start_transport_send_media S) self).priv.rtcp_remb
        = self.priv.rtcp_remb := by
  induction medias generalizing self with
  | nil => exact ⟨rfl, rfl, rfl⟩
  | cons m ms ih =>
    obtain ⟨i1, i2, i3⟩ := ih (start_transport_send_media S self m)
    obtain ⟨s1, s2, s3⟩ := start_transport_send_media_ssrc S self m
    simp only [List.foldl_cons]
    refine ⟨?_, ?_, i3.trans s3⟩
    · rw [i1, last_media_cons]
      cases last_media AUDIO_STREAM_NAME ms with
      | some x => rfl
      | none =>
        simp only [s1]
        by_cases hm : m.media == AUDIO_STREAM_NAME <;> simp [hm]
    · rw [i2, last_media_cons]
      cases last_media VIDEO_STREAM_NAME ms with
      | some x => rfl
      | none =>
        simp only [s2]
        by_cases hm : m.media == VIDEO_STREAM_NAME <;> simp [hm]

/-- C14: `kms_base_rtp_endpoint_start_transport_send` works on the answer when
`local_offer` is true and on the offer otherwise; afterwards the remote audio
(video) SSRC is the SSRC declared by the last audio (video) section of that
SDP, whatever it was before, and it is the previous one when that SDP has no
audio (video) section. -/
theorem c14_remote_ssrc_from_chosen_sdp (S : SendEnv) (self : KmsBaseRtpEndpoint)
    (offer answer : GstSDPMessage) (local_offer : Bool) :
    (kms_base_rtp_endpoint_start_transport_send S self offer answer
        local_offer).priv.remote_audio_ssrc
      = (match last_media AUDIO_STREAM_NAME (if local_offer then answer else offer).medias with
        | some m => S.sdp_utils_media_get_ssrc m
        | none => self.priv.remote_audio_ssrc) ∧
    (kms_base_rtp_endpoint_start_transport_send S self offer answer
        local_offer).priv.remote_video_ssrc
      = (match last_media VIDEO_STREAM_NAME (if local_offer then answer else offer).medias with
        | some m => S.sdp_utils_media_get_ssrc m
        | none => self.priv.remote_video_ssrc) := by
  unfold kms_base_rtp_endpoint_start_transport_send
  obtain ⟨h1, h2, -⟩ := start_transport_send_foldl_ssrc S
    (if local_offer then answer else offer).medias self
  exact ⟨h1, h2⟩

/-- C15 (as amended): when the remote audio (video) SSRC is already set,
`kms_base_rtp_endpoint_start_transport_send` does not reject a further
setting: the stored value becomes the SSRC declared by the last audio (video)
section of the chosen SDP, and it stays the one stored before only when the
chosen SDP has no audio (video) section. -/
theorem c15_remote_ssrc_overwritten (S : SendEnv) (self : KmsBaseRtpEndpoint)
    (offer answer : GstSDPMessage) (local_offer : Bool) :
    (self.priv.remote_audio_ssrc ≠ 0 →
      (∀ m, last_media AUDIO_STREAM_NAME (if local_offer then answer else offer).medias
          = some m →
        (kms_base_rtp_endpoint_start_transport_send S self offer answer
          local_offer).priv.remote_audio_ssrc = S.sdp_utils_media_get_ssrc m) ∧
      (last_media AUDIO_STREAM_NAME (if local_offer then answer else offer).medias = none →
        (kms_base_rtp_endpoint_start_transport_send S self offer answer
          local_offer).priv.remote_audio_ssrc = self.priv.remote_audio_ssrc)) ∧
    (self.priv.remote_video_ssrc ≠ 0 →
      (∀ m, last_media VIDEO_STREAM_NAME (if local_offer then answer else offer).medias
          = some m →
        (kms_base_rtp_endpoint_start_transport_send S self offer answer
          local_offer).priv.remote_video_ssrc = S.sdp_utils_media_get_ssrc m) ∧
      (last_media VIDEO_STREAM_NAME (if local_offer then answer else offer).medias = none →
        (kms_base_rtp_endpoint_start_transport_send S self offer answer
          local_offer).priv.remote_video_ssrc = self.priv.remote_video_ssrc)) := by
  unfold kms_base_rtp_endpoint_start_transport_send
  obtain ⟨h1, h2, -⟩ := start_transport_send_foldl_ssrc S
    (if local_offer then answer else offer).medias self
  refine ⟨fun _ => ⟨?_, ?_⟩, fun _ => ⟨?_, ?_⟩⟩
  · intro m hm; rw [h1, hm]
  · intro hm; rw [h1, hm]
  · intro m hm; rw [h2, hm]
  · intro hm; rw [h2, hm]

/-- Witness of C15 (as amended): the remote SSRCs 5 and 7 of the bundled
endpoint are replaced by those of the answer, 21 and 22; with an offer that
has no video section the remote video SSRC 7 stays. -/
theorem c15_remote_ssrc_overwritten_witness :
    (kms_base_rtp_endpoint_start_transport_send sampleSendEnv endpointBundled sampleSdp
        answerAudioVideo true).priv.remote_audio_ssrc = 21 ∧
    (kms_base_rtp_endpoint_start_transport_send sampleSendEnv endpointBundled sampleSdp
        answerAudioVideo true).priv.remote_video_ssrc = 22 ∧
    (kms_base_rtp_endpoint_start_transport_send sampleSendEnv endpointBundled offerTwoAudio
        answerAudioVideo false).priv.remote_video_ssrc = 7 :=
  ⟨((c15_remote_ssrc_overwritten sampleSendEnv endpointBundled sampleSdp answerAudioVideo
      true).1 (by decide)).1 (ssrcMedia "audio" "21 cname:peer") (by decide),
    ((c15_remote_ssrc_overwritten sampleSendEnv endpointBundled sampleSdp answerAudioVideo
      true).2 (by decide)).1 (ssrcMedia "video" "22 cname:peer") (by decide),
    ((c15_remote_ssrc_overwritten sampleSendEnv endpointBundled offerTwoAudio answerAudioVideo
      false).2 (by decide)).2 (by decide)⟩

/-- Counterexample to C15 as stated: the remote audio SSRC of the endpoint is
already set to 5; after `kms_base_rtp_endpoint_start_transport_send` on an
answer whose audio section declares the SSRC 21, the stored value is 21. -/
theorem c15_counterexample :
    endpointBundled.priv.remote_audio_ssrc = 5 ∧
    (kms_base_rtp_endpoint_start_transport_send sampleSendEnv endpointBundled sampleSdp
        answerAudioVideo true).priv.remote_audio_ssrc = 21 := by
  decide


/-- The estimators after the media sections `medias`, starting without
estimators: both or none; when there, REMB is on, rtpbin has the video
session, a video section was seen and the receive side is bound to the
stored remote video SSRC. -/
theorem start_transport_send_foldl_remb (S : SendEnv) (self : KmsBaseRtpEndpoint)
    (hrl : self.priv.rl = none) (hrm : self.priv.rm = none) (medias : List GstSDPMedia) :
    (medias.foldl (start_transport_send_media S) self).priv.rl.isSome
        = (medias.foldl (start_transport_send_media S) self).priv.rm.isSome ∧
    ((medias.foldl (start_transport_send_media S) self).priv.rl.isSome = true →
      (medias.foldl (start_transport_send_media S) self).priv.rtcp_remb = true ∧
      S.internal_session VIDEO_RTP_SESSION ≠ none ∧
      (∃ m ∈ medias, m.media = VIDEO_STREAM_NAME) ∧
      (medias.foldl (start_transport_send_media S) self).priv.rl
        = some ⟨(medias.foldl (start_transport_send_media S) self).priv.remote_video_ssrc,
            S.max_video_recv_bandwidth⟩) := by
  induction medias using List.reverseRecOn with
  | nil => simp [hrl, hrm]
  | append_singleton l m ih =>
    obtain ⟨ih1, ih2⟩ := ih
    rw [List.foldl_append, List.foldl_cons, List.foldl_nil]
    generalize l.foldl (start_transport_send_media S) self = s at ih1 ih2 ⊢
    unfold start_transport_send_media
    by_cases ha : m.media = AUDIO_STREAM_NAME
    · simp only [ha, beq_self_eq_true, if_true]
      refine ⟨ih1, fun h => ?_⟩
      obtain ⟨r1, r2, ⟨x, hx, hxv⟩, r4⟩ := ih2 h
      exact ⟨r1, r2, ⟨x, List.mem_append_left _ hx, hxv⟩, r4⟩
    · by_cases hv : m.media = VIDEO_STREAM_NAME
      · have hva : (VIDEO_STREAM_NAME == AUDIO_STREAM_NAME) = false := by decide
        simp only [hv, hva, Bool.false_eq_true, if_false, beq_self_eq_true, if_true]
        cases hremb : s.priv.rtcp_remb with
        | false =>
          simp only [Bool.false_eq_true, if_false]
          refine ⟨ih1, fun h => ?_⟩
          have := (ih2 h).1
          rw [hremb] at this
          exact absurd this (by simp)
        | true =>
          simp only [if_true]
          unfold kms_base_rtp_endpoint_create_remb_managers
          cases hsess : S.internal_session VIDEO_RTP_SESSION with
          | none =>
            simp only []
            refine ⟨ih1, fun h => ?_⟩
            have := (ih2 h).2.1
            exact absurd hsess this
          | some sid =>
            simp only [Option.isSome_some, true_and, kms_remb_local_create]
            intro _
            exact ⟨by simp, ⟨m, by simp, hv⟩, trivial⟩
      · have hab : (m.media == AUDIO_STREAM_NAME) = false := by simp [ha]
        have hvb : (m.media == VIDEO_STREAM_NAME) = false := by simp [hv]
        simp only [hab, hvb, Bool.false_eq_true, if_false]
        refine ⟨ih1, fun h => ?_⟩
        obtain ⟨r1, r2, ⟨x, hx, hxv⟩, r4⟩ := ih2 h
        exact ⟨r1, r2, ⟨x, List.mem_append_left _ hx, hxv⟩, r4⟩

/-- C19 (as amended): starting without estimators, after
`kms_base_rtp_endpoint_start_transport_send` either both estimators exist or
neither does; when they exist, the REMB flag is true, the chosen SDP has a
video section and the receive-side estimator is bound to the stored remote
video SSRC (the SSRC that the last video section declares, which may be
0). -/
theorem c19_remb_managers_created_together (S : SendEnv) (self : KmsBaseRtpEndpoint)
    (offer answer : GstSDPMessage) (local_offer : Bool)
    (hrl : self.priv.rl = none) (hrm : self.priv.rm = none) :
    (kms_base_rtp_endpoint_start_transport_send S self offer answer local_offer).priv.rl.isSome
      = (kms_base_rtp_endpoint_start_transport_send S self offer answer
          local_offer).priv.rm.isSome ∧
    (((kms_base_rtp_endpoint_start_transport_send S self offer answer
          local_offer).priv.rl.isSome = true ∨
        (kms_base_rtp_endpoint_start_transport_send S self offer answer
          local_offer).priv.rm.isSome = true) →
      (kms_base_rtp_endpoint_start_transport_send S self offer answer
          local_offer).priv.rtcp_remb = true ∧
      (∃ m ∈ (if local_offer then answer else offer).medias, m.media = VIDEO_STREAM_NAME) ∧
      (kms_base_rtp_endpoint_start_transport_send S self offer answer local_offer).priv.rl
        = some ⟨(kms_base_rtp_endpoint_start_transport_send S self offer answer
            local_offer).priv.remote_video_ssrc, S.max_video_recv_bandwidth⟩) := by
  unfold kms_base_rtp_endpoint_start_transport_send
  obtain ⟨h1, h2⟩ := start_transport_send_foldl_remb S self hrl hrm
    (if local_offer then answer else offer).medias
  refine ⟨h1, fun h => ?_⟩
  have hsome : (List.foldl (start_transport_send_media S) self
      (if local_offer then answer else offer).medias).priv.rl.isSome = true := by
    rcases h with h | h
    · exact h
    · rw [h1]; exact h
  obtain ⟨r1, -, r3, r4⟩ := h2 hsome
  exact ⟨r1, r3, r4⟩

/-- Witness of C19 (as amended): with REMB negotiated and an answer whose
video section declares the SSRC 22, both estimators exist and the receive side
is bound to 22. -/
theorem c19_remb_managers_created_together_witness :
    (kms_base_rtp_endpoint_start_transport_send sampleSendEnv endpointRemb sampleSdp
        answerAudioVideo true).priv.rtcp_remb = true ∧
    (∃ m ∈ answerAudioVideo.medias, m.media = VIDEO_STREAM_NAME) ∧
    (kms_base_rtp_endpoint_start_transport_send sampleSendEnv endpointRemb sampleSdp
        answerAudioVideo true).priv.rl
      = some ⟨(kms_base_rtp_endpoint_start_transport_send sampleSendEnv endpointRemb sampleSdp
          answerAudioVideo true).priv.remote_video_ssrc, 500⟩ :=
  (c19_remb_managers_created_together sampleSendEnv endpointRemb sampleSdp answerAudioVideo
    true rfl rfl).2 (Or.inl (by decide))

/-- Counterexample to C19 as stated: with REMB negotiated and an offer whose
video section declares no SSRC, the receive-side estimator and the send-side
estimator have been created and the remote video SSRC is 0; the same with an
offer whose video section declares the SSRC 0. -/
theorem c19_counterexample :
    (endpointRemb.priv.rl = none ∧ endpointRemb.priv.rm = none ∧
      (kms_base_rtp_endpoint_start_transport_send sampleSendEnv endpointRemb offerVideoNoSsrc
          sampleSdp false).priv.rl.isSome = true ∧
      (kms_base_rtp_endpoint_start_transport_send sampleSendEnv endpointRemb offerVideoNoSsrc
          sampleSdp false).priv.rm.isSome = true ∧
      (kms_base_rtp_endpoint_start_transport_send sampleSendEnv endpointRemb offerVideoNoSsrc
          sampleSdp false).priv.remote_video_ssrc = 0) ∧
    ((kms_base_rtp_endpoint_start_transport_send sampleSendEnv endpointRemb offerVideoSsrcZero
          sampleSdp false).priv.rl.isSome = true ∧
      (kms_base_rtp_endpoint_start_transport_send sampleSendEnv endpointRemb offerVideoSsrcZero
          sampleSdp false).priv.rm.isSome = true ∧
      (kms_base_rtp_endpoint_start_transport_send sampleSendEnv endpointRemb offerVideoSsrcZero
          sampleSdp false).priv.remote_video_ssrc = 0) := by
  decide

/-! ## Connection lines and feedback attributes of a processed section -/

/-- C12 (the code at the failing input): for an audio section that carries
two connection lines, `kms_base_rtp_endpoint_update_sdp_media` succeeds and
sets the port to 1, but leaves two connections, the second old one and the
placeholder; so does `kms_base_rtp_endpoint_set_transport_to_sdp`. -/
theorem c12_two_connections_one_kept :
    (kms_base_rtp_endpoint_update_sdp_media sampleUtils sampleEnv initEndpoint
        mediaTwoConnections false "user@host").2.2 = some "audio" ∧
    (kms_base_rtp_endpoint_update_sdp_media sampleUtils sampleEnv initEndpoint
        mediaTwoConnections false "user@host").2.1.port = 1 ∧
    (kms_base_rtp_endpoint_update_sdp_media sampleUtils sampleEnv initEndpoint
        mediaTwoConnections false "user@host").2.1.connections
      = [⟨"IN", "IP4", "10.0.0.2", 0, 0⟩, ⟨"IN", "IP4", "0.0.0.0", 0, 0⟩] ∧
    (kms_base_rtp_endpoint_set_transport_to_sdp sampleUtils sampleEnv initEndpoint
        sdpTwoConnections).1 = true ∧
    (kms_base_rtp_endpoint_set_transport_to_sdp sampleUtils sampleEnv initEndpoint
        sdpTwoConnections).2.2.medias.map (fun m => m.connections)
      = [[⟨"IN", "IP4", "10.0.0.2", 0, 0⟩, ⟨"IN", "IP4", "0.0.0.0", 0, 0⟩]] := by
  decide

theorem remove_connections_frame (n : List Nat) (media : GstSDPMedia) :
    (n.foldl gst_sdp_media_remove_connection media).media = media.media ∧
    (n.foldl gst_sdp_media_remove_connection media).fmts = media.fmts ∧
    (n.foldl gst_sdp_media_remove_connection media).port = media.port := by
  induction n generalizing media with
  | nil => exact ⟨rfl, rfl, rfl⟩
  | cons c cs ih => simp only [List.foldl_cons]; exact ih _

/-- A section with at most one connection line is left with the placeholder
connection alone, and with the port 1. -/
theorem update_sdp_media_lines_connections (priv : KmsBaseRtpEndpointPrivate)
    (media : GstSDPMedia) (use_ipv6 : Bool) (cname : String) (ssrc : Nat)
    (h : media.connections.length ≤ 1) :
    (update_sdp_media_lines priv media use_ipv6 cname ssrc).connections
        = [⟨"IN", if use_ipv6 then "IP6" else "IP4", "0.0.0.0", 0, 0⟩] ∧
    (update_sdp_media_lines priv media use_ipv6 cname ssrc).port = 1 := by
  unfold update_sdp_media_lines
  rcases hc : media.connections with _ | ⟨c, _ | ⟨d, rest⟩⟩
  · cases hb : (priv.bundle || priv.rtcp_mux) <;>
      simp [hc, hb, gst_sdp_media_add_attribute, gst_sdp_media_add_connection]
  · cases hb : (priv.bundle || priv.rtcp_mux) <;>
      simp [hc, hb, gst_sdp_media_add_attribute, gst_sdp_media_add_connection,
        gst_sdp_media_remove_connection, List.range_succ]
  · rw [hc] at h; simp at h


theorem attribute_vals_map_key (k : String) (l : List String) :
    attribute_vals (l.map (fun v => (⟨k, v⟩ : GstSDPAttribute))) k = l := by
  induction l with
  | nil => rfl
  | cons v vs ih =>
    simp only [attribute_vals, List.map_cons, List.filter_cons, beq_self_eq_true, if_true,
      List.cons.injEq, true_and] at ih ⊢
    exact ih

theorem attribute_vals_map_other_key (k key : String) (hk : k ≠ key) (l : List String) :
    attribute_vals (l.map (fun v => (⟨k, v⟩ : GstSDPAttribute))) key = [] :=
  attribute_vals_other_key _ k key hk (by
    intro a ha
    obtain ⟨v, _, rfl⟩ := List.mem_map.mp ha
    rfl)

theorem sameEncodingData_refl (m : GstSDPMedia) : SameEncodingData m m := ⟨rfl, rfl, rfl⟩

theorem sameEncodingData_trans {m1 m2 m3 : GstSDPMedia} (h12 : SameEncodingData m1 m2)
    (h23 : SameEncodingData m2 m3) : SameEncodingData m1 m3 :=
  ⟨h23.1.trans h12.1, h23.2.1.trans h12.2.1, h23.2.2.trans h12.2.2⟩

/-- One step of the feedback loop appends the feedback values of the format
when its encoding is VP8. -/
theorem media_set_rtcp_fb_attrs_step_eq (K : SdpUtils) (priv : KmsBaseRtpEndpointPrivate)
    (media : GstSDPMedia) (pt : String) :
    media_set_rtcp_fb_attrs_step K priv media pt =
      { media with attributes := media.attributes ++
          (if g_ascii_strcasecmp_eq VP8_ENCONDING_NAME
              (K.gst_sdp_media_format_get_encoding_name media pt) then
            (fb_values K priv.flags pt).map (fun v => (⟨RTCP_FB, v⟩ : GstSDPAttribute))
          else []) } := by
  unfold media_set_rtcp_fb_attrs_step
  simp only []
  split
  · cases h1 : priv.rtcp_fir <;> cases h2 : priv.rtcp_nack <;> cases h3 : priv.rtcp_pli <;>
      cases h4 : priv.rtcp_remb <;>
      simp [fb_values, KmsBaseRtpEndpointPrivate.flags, gst_sdp_media_add_attribute,
        h1, h2, h3, h4]
  · simp

theorem media_set_rtcp_fb_attrs_foldl_eq (K : SdpUtils) (hK : K.encoding_from_rtpmap)
    (priv : KmsBaseRtpEndpointPrivate) (base : GstSDPMedia) (fmts : List String)
    (cur : GstSDPMedia) (hsame : SameEncodingData base cur) :
    fmts.foldl (media_set_rtcp_fb_attrs_step K priv) cur =
      { cur with attributes := cur.attributes ++
          (fmts.flatMap (fun pt =>
            if g_ascii_strcasecmp_eq VP8_ENCONDING_NAME
                (K.gst_sdp_media_format_get_encoding_name base pt) then
              fb_values K priv.flags pt
            else [])).map (fun v => (⟨RTCP_FB, v⟩ : GstSDPAttribute)) } := by
  induction fmts generalizing cur with
  | nil => simp
  | cons pt rest ih =>
    simp only [List.foldl_cons, List.flatMap_cons, List.map_append]
    rw [media_set_rtcp_fb_attrs_step_eq, hK base cur pt hsame.1 hsame.2.1 hsame.2.2]
    rw [ih]
    · simp only [List.append_assoc]
      split <;> simp
    · refine ⟨hsame.1, hsame.2.1, ?_⟩
      simp only [attribute_vals_append]
      rw [hsame.2.2]
      split
      · rw [attribute_vals_map_other_key RTCP_FB "rtpmap" (by decide), List.append_nil]
      · simp [attribute_vals]

/-- `kms_base_rtp_endpoint_media_set_rtcp_fb_attrs` appends the feedback
values of the section, as `rtcp-fb` attributes, and nothing else. -/
theorem media_set_rtcp_fb_attrs_eq (K : SdpUtils) (hK : K.encoding_from_rtpmap)
    (priv : KmsBaseRtpEndpointPrivate) (media : GstSDPMedia) :
    kms_base_rtp_endpoint_media_set_rtcp_fb_attrs K priv media =
      { media with attributes := media.attributes ++
          (vp8_fb_values K priv.flags media).map (fun v => (⟨RTCP_FB, v⟩ : GstSDPAttribute)) } := by
  unfold kms_base_rtp_endpoint_media_set_rtcp_fb_attrs vp8_fb_values
  by_cases hv : media.media = VIDEO_STREAM_NAME
  · have hb : (media.media != VIDEO_STREAM_NAME) = false := by simp [hv]
    rw [if_neg (by rw [hb]; simp), if_pos hv]
    exact media_set_rtcp_fb_attrs_foldl_eq K hK priv media media.fmts media
      (sameEncodingData_refl media)
  · have hb : (media.media != VIDEO_STREAM_NAME) = true := by simp [hv]
    simp [hb, hv]

theorem update_sdp_media_lines_same (priv : KmsBaseRtpEndpointPrivate)
    (media : GstSDPMedia) (use_ipv6 : Bool) (cname : String) (ssrc : Nat) :
    SameEncodingData media (update_sdp_media_lines priv media use_ipv6 cname ssrc) ∧
    attribute_vals (update_sdp_media_lines priv media use_ipv6 cname ssrc).attributes RTCP_FB
      = attribute_vals media.attributes RTCP_FB := by
  unfold update_sdp_media_lines SameEncodingData
  obtain ⟨f1, f2, -⟩ := remove_connections_frame
    (List.range ({ media with proto := priv.proto, port := 1 } :
      GstSDPMedia).connections.length)
    { media with proto := priv.proto, port := 1 }
  cases hb : (priv.bundle || priv.rtcp_mux) <;>
    simp [hb, gst_sdp_media_add_attribute, gst_sdp_media_add_connection,
      remove_connections_attributes, attribute_vals, RTCP_MUX, RTCP_FB, f1, f2]

/-- A successful `kms_base_rtp_endpoint_update_sdp_media` appends the feedback
values of the section and keeps what the encoding names depend on. -/
theorem update_sdp_media_some_fb (K : SdpUtils) (hK : K.encoding_from_rtpmap) (E : Env)
    (self : KmsBaseRtpEndpoint) (media : GstSDPMedia) (use_ipv6 : Bool) (cname : String)
    (s : String)
    (h : (kms_base_rtp_endpoint_update_sdp_media K E self media use_ipv6 cname).2.2 = some s) :
    FbAdded K self.priv.flags media
        (kms_base_rtp_endpoint_update_sdp_media K E self media use_ipv6 cname).2.1 ∧
      SameEncodingData media
        (kms_base_rtp_endpoint_update_sdp_media K E self media use_ipv6 cname).2.1 := by
  unfold kms_base_rtp_endpoint_update_sdp_media at h ⊢
  simp only [] at h ⊢
  split
  · rename_i hs
    rw [hs] at h
    simp at h
  · rename_i sid hs
    rw [hs] at h
    simp only [] at h
    split
    · rename_i hss
      rw [hss] at h
      simp at h
    · rename_i ssrc hss
      simp only []
      obtain ⟨hsame, hfb⟩ := update_sdp_media_lines_same self.priv media use_ipv6 cname ssrc
      rw [media_set_rtcp_fb_attrs_eq K hK, update_sdp_media_local_ssrc_flags]
      have hv : vp8_fb_values K self.priv.flags
          (update_sdp_media_lines self.priv media use_ipv6 cname ssrc)
          = vp8_fb_values K self.priv.flags media := by
        unfold vp8_fb_values
        rw [hsame.1, hsame.2.1]
        have : ∀ pt, K.gst_sdp_media_format_get_encoding_name
            (update_sdp_media_lines self.priv media use_ipv6 cname ssrc) pt
            = K.gst_sdp_media_format_get_encoding_name media pt :=
          fun pt => hK media _ pt hsame.1 hsame.2.1 hsame.2.2
        simp only [this]
      refine ⟨?_, hsame.1, hsame.2.1, ?_⟩
      · unfold FbAdded
        simp only [attribute_vals_append, hfb, attribute_vals_map_key, hv]
      · simp only [attribute_vals_append]
        rw [attribute_vals_map_other_key RTCP_FB "rtpmap" (by decide), List.append_nil]
        exact hsame.2.2


theorem forall2_same_or (R : GstSDPMedia → GstSDPMedia → Prop) (l : List GstSDPMedia) :
    List.Forall₂ (fun m m1 => m1 = m ∨ R m m1) l l := by
  induction l with
  | nil => exact List.Forall₂.nil
  | cons a l ih => exact List.Forall₂.cons (Or.inl rfl) ih

/-- A relation that every successful
`kms_base_rtp_endpoint_update_sdp_media` under the flags `fl` establishes
between a section before and after holds, section by section, between the
media sections before and after the loop: for every section that was
processed, and for all of them when the loop ran through. -/
theorem set_transport_medias_loop_sections (K : SdpUtils) (E : Env)
    (R : GstSDPMedia → GstSDPMedia → Prop) (fl : NegotiationFlags)
    (hR : ∀ (self : KmsBaseRtpEndpoint) (media : GstSDPMedia) (s : String),
      self.priv.flags = fl →
      (kms_base_rtp_endpoint_update_sdp_media K E self media E.use_ipv6 E.cname).2.2 = some s →
      R media (kms_base_rtp_endpoint_update_sdp_media K E self media E.use_ipv6 E.cname).2.1)
    (medias : List GstSDPMedia) (self : KmsBaseRtpEndpoint) (bm : Option String)
    (hself : self.priv.flags = fl) :
    List.Forall₂ (fun m m1 => m1 = m ∨ R m m1) medias
        (set_transport_medias_loop K E self bm medias).medias ∧
      ((set_transport_medias_loop K E self bm medias).ret = true →
        List.Forall₂ R medias (set_transport_medias_loop K E self bm medias).medias) := by
  induction medias generalizing self bm with
  | nil => exact ⟨List.Forall₂.nil, fun _ => List.Forall₂.nil⟩
  | cons media rest ih =>
    rcases hu : kms_base_rtp_endpoint_update_sdp_media K E self media E.use_ipv6 E.cname with
      ⟨self1, media1, ms⟩
    cases ms with
    | none =>
      have := update_sdp_media_none K E self media E.use_ipv6 E.cname (by rw [hu])
      rw [hu] at this
      simp only [Prod.mk.injEq] at this
      obtain ⟨h1, h2, -⟩ := this
      subst h1; subst h2
      simp only [set_transport_medias_loop, hu]
      exact ⟨forall2_same_or R _, by simp⟩
    | some s =>
      have hRm : R media media1 := by
        have := hR self media s hself (by rw [hu])
        rwa [hu] at this
      have hfl1 : self1.priv.flags = fl := by
        have := (update_sdp_media_some K E self media E.use_ipv6 E.cname s (by rw [hu])).2.2.1
        rw [hu] at this
        exact this.trans hself
      simp only [set_transport_medias_loop, hu]
      split
      · obtain ⟨i1, i2⟩ := ih self1 (bm.map (fun b => b ++ " " ++ s)) hfl1
        exact ⟨List.Forall₂.cons (Or.inr hRm) i1, fun hret => List.Forall₂.cons hRm (i2 hret)⟩
      · split
        · obtain ⟨i1, i2⟩ := ih self1 bm hfl1
          exact ⟨List.Forall₂.cons (Or.inr hRm) i1,
            fun hret => List.Forall₂.cons hRm (i2 hret)⟩
        · split
          · exact ⟨List.Forall₂.cons (Or.inr hRm) (forall2_same_or R _), by simp⟩
          · rename_i self2 c heq
            have hfl2 : self2.priv.flags = fl := by
              simp only [kms_base_rtp_endpoint_create_connection, Prod.mk.injEq] at heq
              rw [← heq.1]
              exact hfl1
            obtain ⟨i1, i2⟩ := ih self2 bm hfl2
            exact ⟨List.Forall₂.cons (Or.inr hRm) i1,
              fun hret => List.Forall₂.cons hRm (i2 hret)⟩

/-- The same for `kms_base_rtp_endpoint_set_transport_to_sdp` as a whole,
under the flags it derives. -/
theorem set_transport_to_sdp_sections (K : SdpUtils) (E : Env)
    (R : GstSDPMedia → GstSDPMedia → Prop) (self : KmsBaseRtpEndpoint) (msg : GstSDPMessage)
    (hR : ∀ (self1 : KmsBaseRtpEndpoint) (media : GstSDPMedia) (s : String),
      self1.priv.flags = (set_transport_derive_flags K E self.priv).flags →
      (kms_base_rtp_endpoint_update_sdp_media K E self1 media E.use_ipv6 E.cname).2.2 = some s →
      R media
        (kms_base_rtp_endpoint_update_sdp_media K E self1 media E.use_ipv6 E.cname).2.1) :
    List.Forall₂ (fun m m1 => m1 = m ∨ R m m1) msg.medias
        (kms_base_rtp_endpoint_set_transport_to_sdp K E self msg).2.2.medias ∧
      ((kms_base_rtp_endpoint_set_transport_to_sdp K E self msg).1 = true →
        List.Forall₂ R msg.medias
          (kms_base_rtp_endpoint_set_transport_to_sdp K E self msg).2.2.medias) := by
  rcases set_transport_to_sdp_cases K E self msg with h | h | h
  · rw [h.2.2]
    exact ⟨forall2_same_or R _, by simp⟩
  · obtain ⟨_, c, _, h3⟩ := h
    rw [h3, set_transport_finish_fst, set_transport_finish_medias]
    exact set_transport_medias_loop_sections K E R _ hR msg.medias _ _ rfl
  · rw [h.2, set_transport_finish_fst, set_transport_finish_medias]
    exact set_transport_medias_loop_sections K E R _ hR msg.medias _ _ rfl

/-- C11: when the encoding name of a payload type depends only on the media
type, the formats and the `rtpmap` attributes of a section, the `rtcp-fb`
attributes of a section processed by
`kms_base_rtp_endpoint_update_sdp_media` are the old ones followed, for a
video section and for each of its formats whose encoding is VP8, in order, by
one value (the format, a blank, the feedback type) for each flag that is set,
in the order FIR, NACK, PLI, REMB, and by nothing else; so after
`kms_base_rtp_endpoint_set_transport_to_sdp` every section is untouched or has
got exactly these, and after a successful call all sections have. -/
theorem c11_rtcp_fb_attributes_added (K : SdpUtils) (hK : K.encoding_from_rtpmap) (E : Env)
    (self : KmsBaseRtpEndpoint) (msg : GstSDPMessage) :
    (∀ (media : GstSDPMedia) (s : String),
      (kms_base_rtp_endpoint_update_sdp_media K E self media E.use_ipv6 E.cname).2.2 = some s →
      FbAdded K self.priv.flags media
        (kms_base_rtp_endpoint_update_sdp_media K E self media E.use_ipv6 E.cname).2.1) ∧
    List.Forall₂
      (fun m m1 => m1 = m ∨ FbAdded K (set_transport_derive_flags K E self.priv).flags m m1)
      msg.medias (kms_base_rtp_endpoint_set_transport_to_sdp K E self msg).2.2.medias ∧
    ((kms_base_rtp_endpoint_set_transport_to_sdp K E self msg).1 = true →
      List.Forall₂ (FbAdded K (set_transport_derive_flags K E self.priv).flags)
        msg.medias (kms_base_rtp_endpoint_set_transport_to_sdp K E self msg).2.2.medias) := by
  have key := set_transport_to_sdp_sections K E
    (FbAdded K (set_transport_derive_flags K E self.priv).flags) self msg
    (fun self1 media s hfl hs => by
      have := (update_sdp_media_some_fb K hK E self1 media E.use_ipv6 E.cname s hs).1
      rwa [hfl] at this)
  exact ⟨fun media s hs =>
    (update_sdp_media_some_fb K hK E self media E.use_ipv6 E.cname s hs).1, key.1, key.2⟩

theorem sampleUtils_encoding_from_rtpmap : sampleUtils.encoding_from_rtpmap := by
  intro m m1 pt _ _ _
  rfl

/-- Witness of C11: with NACK and REMB set, a video section with the formats
96 (not VP8), 100 and 101 (VP8) gets the four values for 100 and 101 after its
old `rtcp-fb` attribute, and an audio section gets none. -/
theorem c11_rtcp_fb_attributes_added_witness :
    attribute_vals (kms_base_rtp_endpoint_update_sdp_media sampleUtils sampleEnv
        endpointNackRemb mediaVideoThreeFormats false "user@host").2.1.attributes RTCP_FB
      = ["96 nack", "100 nack", "100 goog-remb", "101 nack", "101 goog-remb"] ∧
    attribute_vals (kms_base_rtp_endpoint_update_sdp_media sampleUtils sampleEnv
        endpointNackRemb (sampleMedia "audio" "100") false "user@host").2.1.attributes RTCP_FB
      = [] :=
  ⟨((c11_rtcp_fb_attributes_added sampleUtils sampleUtils_encoding_from_rtpmap sampleEnv
      endpointNackRemb sampleSdp).1 mediaVideoThreeFormats "video" (by decide)).trans
      (by decide),
    ((c11_rtcp_fb_attributes_added sampleUtils sampleUtils_encoding_from_rtpmap sampleEnv
      endpointNackRemb sampleSdp).1 (sampleMedia "audio" "100") "audio" (by decide)).trans
      (by decide)⟩


/-! ## Re-deriving the flags from the SDP produced -/

theorem sdp_message_is_bundle_loop_value (mids post : List String) (hmids : mids ≠ []) :
    sdp_message_is_bundle_loop (bundle_group_value mids :: post) = true := by
  obtain ⟨m, ms, rfl⟩ := List.exists_cons_of_ne_nil hmids
  have hdata : (bundle_group_value (m :: ms)).data = "BUNDLE".data ++ (' ' :: (m.data ++
      ms.flatMap (fun mid => ' ' :: mid.data))) := by
    rw [bundle_group_value_data]; simp
  simp only [sdp_message_is_bundle_loop, bundle_regex_mids, hdata]
  rw [afterFirstOccurrence_append_left _ _ (by decide)]
  simp only [Option.map_some']
  rw [g_strv_length_g_strsplit_pos]
  have : isNewlineChar ' ' = false := by decide
  simp [List.takeWhile_cons, this]

theorem exists_key_iff_attribute_vals (attrs : List GstSDPAttribute) (k : String) :
    (∃ a ∈ attrs, a.key = k) ↔ attribute_vals attrs k ≠ [] := by
  unfold attribute_vals
  rw [Ne, List.map_eq_nil_iff, List.filter_eq_nil_iff]
  constructor
  · rintro ⟨a, ha, hk⟩ hall
    exact hall a ha (by simp [hk])
  · intro h
    by_contra hcon
    apply h
    intro a ha hk
    exact hcon ⟨a, ha, by simpa using hk⟩

/-- The group attribute of the message produced (the content of the last step
of `kms_base_rtp_endpoint_set_transport_to_sdp`). -/
theorem set_transport_to_sdp_group (K : SdpUtils) (E : Env) (self : KmsBaseRtpEndpoint)
    (msg : GstSDPMessage) :
    (kms_base_rtp_endpoint_set_transport_to_sdp K E self msg).2.2.attributes =
      if (kms_base_rtp_endpoint_set_transport_to_sdp K E self msg).1
          && (set_transport_derive_flags K E self.priv).bundle then
        msg.attributes ++ [⟨"group", bundle_group_value (msg.medias.map (fun m => m.media))⟩]
      else msg.attributes := by
  rcases set_transport_to_sdp_cases K E self msg with h | h | h
  · rw [h.2.2]; simp
  · obtain ⟨hb, c, _, h3⟩ := h
    rw [h3, set_transport_finish_fst, set_transport_finish_attributes,
      flags_bundle (set_transport_medias_loop_flags K E msg.medias _ _),
      set_transport_loop_start_bundle, hb]
    cases hret : (set_transport_medias_loop K E
        (set_transport_loop_start K E self (some c)) (some "BUNDLE") msg.medias).ret with
    | false => simp
    | true =>
      rw [set_transport_medias_loop_mids K E msg.medias _ _ hret
        (by rw [set_transport_loop_start_bundle]; exact hb)]
      simp [bundle_group_value]
  · obtain ⟨hb, h3⟩ := h
    rw [h3, set_transport_finish_fst, set_transport_finish_attributes,
      flags_bundle (set_transport_medias_loop_flags K E msg.medias _ _),
      set_transport_loop_start_bundle, hb]
    simp

theorem append_cons_inj_of_not_mem (x : Char) (l1 l2 r1 r2 : List Char)
    (h1 : x ∉ l1) (h2 : x ∉ l2) (h : l1 ++ x :: r1 = l2 ++ x :: r2) :
    l1 = l2 ∧ r1 = r2 := by
  induction l1 generalizing l2 with
  | nil =>
    cases l2 with
    | nil => simpa using h
    | cons b l2 =>
      simp only [List.nil_append, List.cons_append, List.cons.injEq] at h
      exact absurd (h.1 ▸ List.mem_cons_self _ _) h2
  | cons a l1 ih =>
    cases l2 with
    | nil =>
      simp only [List.nil_append, List.cons_append, List.cons.injEq] at h
      exact absurd (h.1 ▸ List.mem_cons_self _ _) h1
    | cons b l2 =>
      simp only [List.cons_append, List.cons.injEq] at h
      obtain ⟨e1, e2⟩ := ih l2 (fun hm => h1 (List.mem_cons_of_mem _ hm))
        (fun hm => h2 (List.mem_cons_of_mem _ hm)) h.2
      exact ⟨by rw [h.1, e1], e2⟩

/-- Two feedback values of formats without blank are equal only for the same
format and the same feedback type. -/
theorem fb_value_inj (pt pt1 a b : String) (h1 : ' ' ∉ pt.data) (h2 : ' ' ∉ pt1.data)
    (h : pt ++ " " ++ a = pt1 ++ " " ++ b) : pt = pt1 ∧ a = b := by
  have hd := congrArg String.data h
  simp only [String.data_append] at hd
  rw [List.append_assoc, List.append_assoc, List.singleton_append,
    List.singleton_append] at hd
  obtain ⟨e1, e2⟩ := append_cons_inj_of_not_mem ' ' _ _ _ _ h1 h2 hd
  exact ⟨String.ext e1, String.ext e2⟩

theorem mem_fb_values_iff (K : SdpUtils) (fl : NegotiationFlags) (pt x : String) :
    x ∈ fb_values K fl pt ↔
      (fl.rtcp_fir = true ∧ x = pt ++ " " ++ K.RTCP_FB_FIR) ∨
      (fl.rtcp_nack = true ∧ x = pt ++ " " ++ K.RTCP_FB_NACK) ∨
      (fl.rtcp_pli = true ∧ x = pt ++ " " ++ K.RTCP_FB_PLI) ∨
      (fl.rtcp_remb = true ∧ x = pt ++ " " ++ K.RTCP_FB_REMB) := by
  unfold fb_values
  cases fl.rtcp_fir <;> cases fl.rtcp_nack <;> cases fl.rtcp_pli <;> cases fl.rtcp_remb <;>
    simp

/-- In a video section whose formats have no blank, the feedback value of a
VP8 format `pt` and a type `T` is among the feedback values of the section
exactly when `T` is the type of a flag that is set. -/
theorem mem_vp8_fb_values_iff (K : SdpUtils) (fl : NegotiationFlags) (m : GstSDPMedia)
    (pt T : String) (hv : m.media = VIDEO_STREAM_NAME)
    (hblank : ∀ p ∈ m.fmts, ' ' ∉ p.data) (hpt : pt ∈ m.fmts)
    (hvp8 : g_ascii_strcasecmp_eq VP8_ENCONDING_NAME
      (K.gst_sdp_media_format_get_encoding_name m pt) = true) :
    (pt ++ " " ++ T) ∈ vp8_fb_values K fl m ↔
      (fl.rtcp_fir = true ∧ T = K.RTCP_FB_FIR) ∨ (fl.rtcp_nack = true ∧ T = K.RTCP_FB_NACK) ∨
      (fl.rtcp_pli = true ∧ T = K.RTCP_FB_PLI) ∨ (fl.rtcp_remb = true ∧ T = K.RTCP_FB_REMB) := by
  unfold vp8_fb_values
  rw [if_pos hv, List.mem_flatMap]
  constructor
  · rintro ⟨p, hp, hx⟩
    split at hx
    · rw [mem_fb_values_iff] at hx
      have inj := fun b (h : pt ++ " " ++ T = p ++ " " ++ b) =>
        (fb_value_inj pt p T b (hblank pt hpt) (hblank p hp) h).2
      rcases hx with ⟨f, e⟩ | ⟨f, e⟩ | ⟨f, e⟩ | ⟨f, e⟩
      · exact Or.inl ⟨f, inj _ e⟩
      · exact Or.inr (Or.inl ⟨f, inj _ e⟩)
      · exact Or.inr (Or.inr (Or.inl ⟨f, inj _ e⟩))
      · exact Or.inr (Or.inr (Or.inr ⟨f, inj _ e⟩))
    · simp at hx
  · intro h
    refine ⟨pt, hpt, ?_⟩
    rw [if_pos hvp8, mem_fb_values_iff]
    rcases h with ⟨f, e⟩ | ⟨f, e⟩ | ⟨f, e⟩ | ⟨f, e⟩
    · exact Or.inl ⟨f, by rw [e]⟩
    · exact Or.inr (Or.inl ⟨f, by rw [e]⟩)
    · exact Or.inr (Or.inr (Or.inl ⟨f, by rw [e]⟩))
    · exact Or.inr (Or.inr (Or.inr ⟨f, by rw [e]⟩))


theorem first_vp8_format_spec (K : SdpUtils) (m : GstSDPMedia) (pt : String)
    (h : first_vp8_format K m = some pt) :
    pt ∈ m.fmts ∧ g_ascii_strcasecmp_eq VP8_ENCONDING_NAME
      (K.gst_sdp_media_format_get_encoding_name m pt) = true := by
  unfold first_vp8_format at h
  have h2 := @List.find?_some _ (fun p => g_ascii_strcasecmp_eq VP8_ENCONDING_NAME
      (K.gst_sdp_media_format_get_encoding_name m p)) pt m.fmts h
  exact ⟨List.mem_of_find?_eq_some h, h2⟩

theorem first_vp8_format_same (K : SdpUtils) (hK : K.encoding_from_rtpmap)
    (m m1 : GstSDPMedia) (h : SameEncodingData m m1) :
    first_vp8_format K m1 = first_vp8_format K m := by
  unfold first_vp8_format
  rw [h.2.1]
  congr 1
  funext pt
  rw [hK m m1 pt h.1 h.2.1 h.2.2]

theorem first_vp8_video_cons (K : SdpUtils) (m : GstSDPMedia) (ms : List GstSDPMedia) :
    first_vp8_video K (m :: ms) =
      if m.media = VIDEO_STREAM_NAME then
        match first_vp8_format K m with
        | some pt => some (m, pt)
        | none => first_vp8_video K ms
      else first_vp8_video K ms := by
  unfold first_vp8_video
  rw [List.findSome?_cons]
  by_cases hv : m.media = VIDEO_STREAM_NAME
  · simp only [hv, if_true]
    cases first_vp8_format K m <;> rfl
  · simp only [hv, if_false]

theorem first_vp8_video_spec (K : SdpUtils) (medias : List GstSDPMedia) (m : GstSDPMedia)
    (pt : String) (h : first_vp8_video K medias = some (m, pt)) :
    m ∈ medias ∧ m.media = VIDEO_STREAM_NAME ∧ first_vp8_format K m = some pt := by
  induction medias with
  | nil => simp [first_vp8_video] at h
  | cons a as ih =>
    rw [first_vp8_video_cons] at h
    by_cases hv : a.media = VIDEO_STREAM_NAME
    · rw [if_pos hv] at h
      cases hf : first_vp8_format K a with
      | some p =>
        rw [hf] at h
        simp only [Option.some.injEq, Prod.mk.injEq] at h
        obtain ⟨rfl, rfl⟩ := h
        exact ⟨List.mem_cons_self _ _, hv, hf⟩
      | none =>
        rw [hf] at h
        obtain ⟨i1, i2, i3⟩ := ih h
        exact ⟨List.mem_cons_of_mem _ i1, i2, i3⟩
    · rw [if_neg hv] at h
      obtain ⟨i1, i2, i3⟩ := ih h
      exact ⟨List.mem_cons_of_mem _ i1, i2, i3⟩

theorem first_vp8_video_ne_none (K : SdpUtils) (medias : List GstSDPMedia)
    (h : ∃ m ∈ medias, m.media = VIDEO_STREAM_NAME ∧ ∃ pt ∈ m.fmts,
      g_ascii_strcasecmp_eq VP8_ENCONDING_NAME
        (K.gst_sdp_media_format_get_encoding_name m pt) = true) :
    first_vp8_video K medias ≠ none := by
  induction medias with
  | nil => obtain ⟨m, hm, _⟩ := h; exact absurd hm (List.not_mem_nil _)
  | cons a as ih =>
    rw [first_vp8_video_cons]
    obtain ⟨m, hm, hv, pt, hpt, hvp8⟩ := h
    rcases List.mem_cons.mp hm with rfl | hm
    · rw [if_pos hv]
      cases hf : first_vp8_format K m with
      | some p => simp
      | none =>
        unfold first_vp8_format at hf
        rw [List.find?_eq_none] at hf
        exact absurd hvp8 (hf pt hpt)
    · have := ih ⟨m, hm, hv, pt, hpt, hvp8⟩
      split
      · split
        · simp
        · exact this
      · exact this

/-- The first video section with a VP8 format, and that format, are found at
the same place in two lists of sections that agree, section by section, on
what the encoding names depend on. -/
theorem first_vp8_video_forall2 (K : SdpUtils) (hK : K.encoding_from_rtpmap)
    (R : GstSDPMedia → GstSDPMedia → Prop) (hR : ∀ m m1, R m m1 → SameEncodingData m m1)
    (medias medias1 : List GstSDPMedia) (h : List.Forall₂ R medias medias1)
    (m : GstSDPMedia) (pt : String) (hf : first_vp8_video K medias = some (m, pt)) :
    ∃ m1, first_vp8_video K medias1 = some (m1, pt) ∧ R m m1 := by
  induction h with
  | nil => simp [first_vp8_video] at hf
  | @cons a b as bs hab _ ih =>
    have hsame := hR a b hab
    rw [first_vp8_video_cons] at hf ⊢
    rw [first_vp8_format_same K hK a b hsame, hsame.1]
    by_cases hv : a.media = VIDEO_STREAM_NAME
    · rw [if_pos hv] at hf ⊢
      cases hfa : first_vp8_format K a with
      | some p =>
        rw [hfa] at hf
        simp only [Option.some.injEq, Prod.mk.injEq] at hf
        obtain ⟨rfl, rfl⟩ := hf
        exact ⟨b, rfl, hab⟩
      | none =>
        rw [hfa] at hf
        exact ih hf
    · rw [if_neg hv] at hf ⊢
      exact ih hf

/-- What `sdp_message_get_vp8_rtcp_fb_attrs` gives, for pairwise distinct
feedback type strings. -/
theorem sdp_message_get_vp8_rtcp_fb_attrs_eq (K : SdpUtils) (hK : K.distinct)
    (msg : GstSDPMessage) :
    sdp_message_get_vp8_rtcp_fb_attrs K msg =
      match first_vp8_video K msg.medias with
      | none => ⟨false, false, false, false⟩
      | some (m, pt) =>
        { fir := decide ((pt ++ " " ++ K.RTCP_FB_FIR) ∈ attribute_vals m.attributes RTCP_FB)
          nack := decide ((pt ++ " " ++ K.RTCP_FB_NACK) ∈ attribute_vals m.attributes RTCP_FB)
          pli := decide ((pt ++ " " ++ K.RTCP_FB_PLI) ∈ attribute_vals m.attributes RTCP_FB)
          remb := decide ((pt ++ " " ++ K.RTCP_FB_REMB) ∈ attribute_vals m.attributes RTCP_FB) } := by
  unfold sdp_message_get_vp8_rtcp_fb_attrs
  rw [vp8_rtcp_fb_medias_loop_eq]
  cases first_vp8_video K msg.medias with
  | none => rfl
  | some mp =>
    obtain ⟨m, pt⟩ := mp
    simp only []
    rw [vp8_rtcp_fb_attrs_loop_eq K hK]
    simp


theorem forall2_mem_right {R : GstSDPMedia → GstSDPMedia → Prop}
    {l l1 : List GstSDPMedia} (h : List.Forall₂ R l l1) (m1 : GstSDPMedia) (hm : m1 ∈ l1) :
    ∃ m ∈ l, R m m1 := by
  induction h with
  | nil => exact absurd hm (List.not_mem_nil _)
  | @cons a b as bs hab _ ih =>
    rcases List.mem_cons.mp hm with rfl | hm
    · exact ⟨a, List.mem_cons_self _ _, hab⟩
    · obtain ⟨m, hml, hr⟩ := ih hm
      exact ⟨m, List.mem_cons_of_mem _ hml, hr⟩

/-- C13 (as amended): let `kms_base_rtp_endpoint_set_transport_to_sdp` succeed
on an SDP that has at least one media section, among them a video section
with a VP8 format, whose formats contain no blank, and that carries no
`group`, `rtcp-mux` or `rtcp-fb` attribute beforehand (the feedback type
strings being pairwise distinct and the encoding names depending only on media
type, formats and `rtpmap` attributes).  Re-deriving the flags from the SDP
produced gives the bundle flag used, the four feedback flags used, and for
rtcp-mux the disjunction of the bundle flag and the rtcp-mux flag used. -/
theorem c13_round_trip (K : SdpUtils) (hKd : K.distinct) (hKe : K.encoding_from_rtpmap)
    (E : Env) (self : KmsBaseRtpEndpoint) (msg : GstSDPMessage)
    (hret : (kms_base_rtp_endpoint_set_transport_to_sdp K E self msg).1 = true)
    (hne : msg.medias ≠ [])
    (hgroup : attribute_vals msg.attributes "group" = [])
    (hmux : ∀ m ∈ msg.medias, attribute_vals m.attributes RTCP_MUX = [])
    (hfb : ∀ m ∈ msg.medias, attribute_vals m.attributes RTCP_FB = [])
    (hblank : ∀ m ∈ msg.medias, ∀ pt ∈ m.fmts, ' ' ∉ pt.data)
    (hvp8 : ∃ m ∈ msg.medias, m.media = VIDEO_STREAM_NAME ∧ ∃ pt ∈ m.fmts,
      g_ascii_strcasecmp_eq VP8_ENCONDING_NAME
        (K.gst_sdp_media_format_get_encoding_name m pt) = true) :
    sdp_message_is_bundle (kms_base_rtp_endpoint_set_transport_to_sdp K E self msg).2.2
        = (set_transport_derive_flags K E self.priv).bundle ∧
    sdp_message_is_rtcp_mux (kms_base_rtp_endpoint_set_transport_to_sdp K E self msg).2.2
        = ((set_transport_derive_flags K E self.priv).bundle
          || (set_transport_derive_flags K E self.priv).rtcp_mux) ∧
    sdp_message_get_vp8_rtcp_fb_attrs K
        (kms_base_rtp_endpoint_set_transport_to_sdp K E self msg).2.2
        = ⟨(set_transport_derive_flags K E self.priv).rtcp_fir,
            (set_transport_derive_flags K E self.priv).rtcp_nack,
            (set_transport_derive_flags K E self.priv).rtcp_pli,
            (set_transport_derive_flags K E self.priv).rtcp_remb⟩ := by
  have hsec := (set_transport_to_sdp_sections K E
    (fun m m1 =>
      MuxAdded (set_transport_derive_flags K E self.priv).bundle
        (set_transport_derive_flags K E self.priv).rtcp_mux m m1 ∧
      FbAdded K (set_transport_derive_flags K E self.priv).flags m m1 ∧
      SameEncodingData m m1) self msg
    (fun self1 media s hfl hs => by
      have h1 := (update_sdp_media_some K E self1 media E.use_ipv6 E.cname s hs).2.2.2.2
      have h2 := update_sdp_media_some_fb K hKe E self1 media E.use_ipv6 E.cname s hs
      have eb : self1.priv.bundle = (set_transport_derive_flags K E self.priv).bundle :=
        congrArg NegotiationFlags.bundle hfl
      have ex : self1.priv.rtcp_mux = (set_transport_derive_flags K E self.priv).rtcp_mux :=
        congrArg NegotiationFlags.rtcp_mux hfl
      rw [hfl] at h2
      refine ⟨?_, h2.1, h2.2⟩
      unfold MuxAdded
      rw [h1, eb, ex])).2 hret
  have hattr := set_transport_to_sdp_group K E self msg
  rw [hret] at hattr
  refine ⟨?_, ?_, ?_⟩
  · unfold sdp_message_is_bundle
    rw [hattr]
    cases hb : (set_transport_derive_flags K E self.priv).bundle with
    | false => simp [hgroup, sdp_message_is_bundle_loop]
    | true =>
      simp only [Bool.and_self, if_true, attribute_vals_append, hgroup, List.nil_append]
      have : attribute_vals [(⟨"group", bundle_group_value (msg.medias.map (fun m => m.media))⟩ :
          GstSDPAttribute)] "group"
          = [bundle_group_value (msg.medias.map (fun m => m.media))] := by
        simp [attribute_vals]
      rw [this]
      exact sdp_message_is_bundle_loop_value _ [] (by simpa using hne)
  · cases hbx : ((set_transport_derive_flags K E self.priv).bundle
        || (set_transport_derive_flags K E self.priv).rtcp_mux) with
    | true =>
      unfold sdp_message_is_rtcp_mux
      rw [sdp_message_is_rtcp_mux_loop_iff]
      intro m1 hm1
      obtain ⟨m, hm, hmuxadded, -, -⟩ := forall2_mem_right hsec m1 hm1
      rw [exists_key_iff_attribute_vals]
      unfold MuxAdded at hmuxadded
      rw [hmuxadded, hbx]
      simp
    | false =>
      rw [← Bool.not_eq_true]
      intro htrue
      unfold sdp_message_is_rtcp_mux at htrue
      rw [sdp_message_is_rtcp_mux_loop_iff] at htrue
      obtain ⟨a, as, hmed⟩ := List.exists_cons_of_ne_nil hne
      rw [hmed, List.forall₂_cons_left_iff] at hsec
      obtain ⟨b, bs, hab, -, hprod⟩ := hsec
      have hex := htrue b (by rw [hprod]; exact List.mem_cons_self _ _)
      rw [exists_key_iff_attribute_vals] at hex
      apply hex
      have := hab.1
      unfold MuxAdded at this
      rw [this, hbx, hmux a (by rw [hmed]; exact List.mem_cons_self _ _)]
      simp
  · rw [sdp_message_get_vp8_rtcp_fb_attrs_eq K hKd]
    cases hf : first_vp8_video K msg.medias with
    | none => exact absurd hf (first_vp8_video_ne_none K msg.medias hvp8)
    | some mp =>
      obtain ⟨m, pt⟩ := mp
      obtain ⟨hm, hv, hfmt⟩ := first_vp8_video_spec K msg.medias m pt hf
      obtain ⟨hpt, hptvp8⟩ := first_vp8_format_spec K m pt hfmt
      obtain ⟨m1, hf1, -, hfbadded, -⟩ := first_vp8_video_forall2 K hKe _
        (fun _ _ h => h.2.2) _ _ hsec m pt hf
      rw [hf1]
      simp only []
      unfold FbAdded at hfbadded
      rw [hfbadded, hfb m hm, List.nil_append]
      obtain ⟨h12, h13, h14, h23, h24, h34⟩ := hKd
      have key := fun T => mem_vp8_fb_values_iff K
        (set_transport_derive_flags K E self.priv).flags m pt T hv (hblank m hm) hpt hptvp8
      have e1 : decide ((pt ++ " " ++ K.RTCP_FB_FIR) ∈ vp8_fb_values K
          (set_transport_derive_flags K E self.priv).flags m)
          = (set_transport_derive_flags K E self.priv).rtcp_fir := by
        rw [Bool.eq_iff_iff, decide_eq_true_iff, key]
        simp [h12, h13, h14, KmsBaseRtpEndpointPrivate.flags]
      have e2 : decide ((pt ++ " " ++ K.RTCP_FB_NACK) ∈ vp8_fb_values K
          (set_transport_derive_flags K E self.priv).flags m)
          = (set_transport_derive_flags K E self.priv).rtcp_nack := by
        rw [Bool.eq_iff_iff, decide_eq_true_iff, key]
        simp [Ne.symm h12, h23, h24, KmsBaseRtpEndpointPrivate.flags]
      have e3 : decide ((pt ++ " " ++ K.RTCP_FB_PLI) ∈ vp8_fb_values K
          (set_transport_derive_flags K E self.priv).flags m)
          = (set_transport_derive_flags K E self.priv).rtcp_pli := by
        rw [Bool.eq_iff_iff, decide_eq_true_iff, key]
        simp [Ne.symm h13, Ne.symm h23, h34, KmsBaseRtpEndpointPrivate.flags]
      have e4 : decide ((pt ++ " " ++ K.RTCP_FB_REMB) ∈ vp8_fb_values K
          (set_transport_derive_flags K E self.priv).flags m)
          = (set_transport_derive_flags K E self.priv).rtcp_remb := by
        rw [Bool.eq_iff_iff, decide_eq_true_iff, key]
        simp [Ne.symm h14, Ne.symm h24, Ne.symm h34, KmsBaseRtpEndpointPrivate.flags]
      rw [e1, e2, e3, e4]

/-- Witness of C13 (as amended): bundle, NACK and REMB configured, no remote
offer, the audio and video sample SDP. -/
theorem c13_round_trip_witness :
    sdp_message_is_bundle (kms_base_rtp_endpoint_set_transport_to_sdp sampleUtils sampleEnv
        endpointBundleNackRemb sampleSdp).2.2 = true ∧
    sdp_message_is_rtcp_mux (kms_base_rtp_endpoint_set_transport_to_sdp sampleUtils sampleEnv
        endpointBundleNackRemb sampleSdp).2.2 = true ∧
    sdp_message_get_vp8_rtcp_fb_attrs sampleUtils
        (kms_base_rtp_endpoint_set_transport_to_sdp sampleUtils sampleEnv
          endpointBundleNackRemb sampleSdp).2.2 = ⟨false, true, false, true⟩ :=
  c13_round_trip sampleUtils sampleUtils_distinct sampleUtils_encoding_from_rtpmap sampleEnv
    endpointBundleNackRemb sampleSdp (by decide) (by decide) (by decide) (by decide)
    (by decide) (by decide)
    ⟨sampleMedia "video" "100", by decide, by decide, "100", by decide, by decide⟩

/-- Counterexample to C13 as stated, four successful calls without remote
offer: with bundle and without rtcp-mux the SDP produced gives rtcp-mux true;
with bundle and an SDP without media section it gives bundle false; with NACK
and an SDP without video section it gives NACK false; without rtcp-mux and
with sections that carry `rtcp-mux` already it gives rtcp-mux true. -/
theorem c13_counterexample :
    ((kms_base_rtp_endpoint_set_transport_to_sdp sampleUtils sampleEnv endpointBundle
        sampleSdp).1 = true ∧
      (kms_base_rtp_endpoint_set_transport_to_sdp sampleUtils sampleEnv endpointBundle
        sampleSdp).2.1.priv.rtcp_mux = false ∧
      sdp_message_is_rtcp_mux (kms_base_rtp_endpoint_set_transport_to_sdp sampleUtils sampleEnv
        endpointBundle sampleSdp).2.2 = true) ∧
    ((kms_base_rtp_endpoint_set_transport_to_sdp sampleUtils sampleEnv endpointBundle
        sdpNoMedia).1 = true ∧
      (kms_base_rtp_endpoint_set_transport_to_sdp sampleUtils sampleEnv endpointBundle
        sdpNoMedia).2.1.priv.bundle = true ∧
      sdp_message_is_bundle (kms_base_rtp_endpoint_set_transport_to_sdp sampleUtils sampleEnv
        endpointBundle sdpNoMedia).2.2 = false) ∧
    ((kms_base_rtp_endpoint_set_transport_to_sdp sampleUtils sampleEnv endpointNackRemb
        sdpAudioOnly).1 = true ∧
      (kms_base_rtp_endpoint_set_transport_to_sdp sampleUtils sampleEnv endpointNackRemb
        sdpAudioOnly).2.1.priv.rtcp_nack = true ∧
      (sdp_message_get_vp8_rtcp_fb_attrs sampleUtils
        (kms_base_rtp_endpoint_set_transport_to_sdp sampleUtils sampleEnv endpointNackRemb
          sdpAudioOnly).2.2).nack = false) ∧
    ((kms_base_rtp_endpoint_set_transport_to_sdp sampleUtils sampleEnv initEndpoint
        sdpWithMux).1 = true ∧
      (kms_base_rtp_endpoint_set_transport_to_sdp sampleUtils sampleEnv initEndpoint
        sdpWithMux).2.1.priv.rtcp_mux = false ∧
      sdp_message_is_rtcp_mux (kms_base_rtp_endpoint_set_transport_to_sdp sampleUtils sampleEnv
        initEndpoint sdpWithMux).2.2 = true) := by
  decide


/-! ## Media-stop notifications -/

/-- The handling of a stop event for the active SSRC of the session, when the
other media has another active SSRC: the active SSRC of the media is cleared,
the other one stays, and one media-stop for that media is emitted. -/
theorem stop_signal_active (self : KmsBaseRtpEndpoint) :
    ((kms_base_rtp_endpoint_stop_signal self AUDIO_RTP_SESSION self.priv.audio_ssrc).1.priv.audio_ssrc
        = 0 ∧
      (kms_base_rtp_endpoint_stop_signal self AUDIO_RTP_SESSION
        self.priv.audio_ssrc).1.priv.video_ssrc = self.priv.video_ssrc ∧
      (kms_base_rtp_endpoint_stop_signal self AUDIO_RTP_SESSION self.priv.audio_ssrc).2
        = [⟨ KMS_MEDIA_TYPE_AUDIO, false⟩]) ∧
    (self.priv.audio_ssrc ≠ self.priv.video_ssrc →
      (kms_base_rtp_endpoint_stop_signal self VIDEO_RTP_SESSION
        self.priv.video_ssrc).1.priv.video_ssrc = 0 ∧
      (kms_base_rtp_endpoint_stop_signal self VIDEO_RTP_SESSION
        self.priv.video_ssrc).1.priv.audio_ssrc = self.priv.audio_ssrc ∧
      (kms_base_rtp_endpoint_stop_signal self VIDEO_RTP_SESSION self.priv.video_ssrc).2
        = [⟨ KMS_MEDIA_TYPE_VIDEO, false⟩]) := by
  have hne : VIDEO_RTP_SESSION ≠ AUDIO_RTP_SESSION := by decide
  refine ⟨?_, ?_⟩
  · simp [kms_base_rtp_endpoint_stop_signal, stop_signal_clear]
  · intro h
    simp [kms_base_rtp_endpoint_stop_signal, stop_signal_clear, hne, h]

/-- C21 (the code at the failing input): after the new-SSRC events (audio, 7)
and (video, 7) both active SSRCs are 7; handling the stop event (video, 7)
emits one media-stop for video, but clears the active audio SSRC and leaves
the active video SSRC 7. -/
theorem c21_video_stop_clears_audio :
    endpointSameActive.priv.audio_ssrc = 7 ∧ endpointSameActive.priv.video_ssrc = 7 ∧
    (kms_base_rtp_endpoint_stop_signal endpointSameActive VIDEO_RTP_SESSION 7).1.priv.video_ssrc
      = 7 ∧
    (kms_base_rtp_endpoint_stop_signal endpointSameActive VIDEO_RTP_SESSION 7).1.priv.audio_ssrc
      = 0 ∧
    (kms_base_rtp_endpoint_stop_signal endpointSameActive VIDEO_RTP_SESSION 7).2
      = [⟨ KMS_MEDIA_TYPE_VIDEO, false⟩] := by
  decide

theorem stop_signal_clear_no_match (self : KmsBaseRtpEndpoint) (ssrc : Nat)
    (ha : ssrc ≠ self.priv.audio_ssrc) (hv : ssrc ≠ self.priv.video_ssrc) :
    stop_signal_clear self ssrc = (self, true) := by
  simp [stop_signal_clear, ha, hv]

theorem dispose_audio_eq (self : KmsBaseRtpEndpoint) :
    (dispose_audio self).1.priv.audio_ssrc = 0 ∧
    (dispose_audio self).1.priv.video_ssrc = self.priv.video_ssrc ∧
    (dispose_audio self).2 =
      (if self.priv.audio_ssrc ≠ 0 then
        [⟨ KMS_MEDIA_TYPE_AUDIO, false⟩, ⟨ KMS_MEDIA_TYPE_AUDIO, true⟩]
      else []) := by
  unfold dispose_audio
  by_cases h : self.priv.audio_ssrc = 0
  · simp [h]
  · have hb : (self.priv.audio_ssrc != 0) = true := by simp [h]
    obtain ⟨h1, h2, h3⟩ := (stop_signal_active self).1
    simp only [hb, if_true, h1, h2, h3, ne_eq, h, not_false_eq_true]
    exact ⟨trivial, trivial, rfl⟩

theorem dispose_video_eq (self : KmsBaseRtpEndpoint) (ha : self.priv.audio_ssrc = 0) :
    (dispose_video self).1.priv.audio_ssrc = 0 ∧
    (dispose_video self).1.priv.video_ssrc = 0 ∧
    (dispose_video self).2 =
      (if self.priv.video_ssrc ≠ 0 then
        [⟨ KMS_MEDIA_TYPE_VIDEO, false⟩, ⟨ KMS_MEDIA_TYPE_VIDEO, true⟩]
      else []) := by
  unfold dispose_video
  by_cases h : self.priv.video_ssrc = 0
  · simp [h, ha]
  · have hb : (self.priv.video_ssrc != 0) = true := by simp [h]
    have hne : self.priv.audio_ssrc ≠ self.priv.video_ssrc := by
      rw [ha]; exact fun e => h e.symm
    obtain ⟨h1, h2, h3⟩ := (stop_signal_active self).2 hne
    simp only [hb, if_true, h1, h2, h3, ne_eq, h, not_false_eq_true, ha]
    exact ⟨trivial, trivial, rfl⟩

/-- What `kms_base_rtp_endpoint_dispose` leaves and emits. -/
theorem dispose_eq (self : KmsBaseRtpEndpoint) :
    (kms_base_rtp_endpoint_dispose self).1.priv.audio_ssrc = 0 ∧
    (kms_base_rtp_endpoint_dispose self).1.priv.video_ssrc = 0 ∧
    (kms_base_rtp_endpoint_dispose self).2 =
      (if self.priv.audio_ssrc ≠ 0 then
        [⟨ KMS_MEDIA_TYPE_AUDIO, false⟩, ⟨ KMS_MEDIA_TYPE_AUDIO, true⟩]
      else []) ++
      (if self.priv.video_ssrc ≠ 0 then
        [⟨ KMS_MEDIA_TYPE_VIDEO, false⟩, ⟨ KMS_MEDIA_TYPE_VIDEO, true⟩]
      else []) := by
  unfold kms_base_rtp_endpoint_dispose
  obtain ⟨a1, a2, a3⟩ := dispose_audio_eq self
  obtain ⟨v1, v2, v3⟩ := dispose_video_eq (dispose_audio self).1 a1
  simp only []
  rw [a2] at v3
  exact ⟨v1, v2, by rw [a3, v3]⟩

/-- C22 (as amended): `kms_base_rtp_endpoint_dispose` leaves both active SSRCs
unset and emits, for each media that was active, two media-stop signals, one
with `local` false (the stop of the remote source) followed by one with
`local` true, first for audio and then for video; it emits none for a media
that was not active. -/
theorem c22_dispose_stops (self : KmsBaseRtpEndpoint) :
    (kms_base_rtp_endpoint_dispose self).1.priv.audio_ssrc = 0 ∧
    (kms_base_rtp_endpoint_dispose self).1.priv.video_ssrc = 0 ∧
    (kms_base_rtp_endpoint_dispose self).2 =
      (if self.priv.audio_ssrc ≠ 0 then
        [⟨ KMS_MEDIA_TYPE_AUDIO, false⟩, ⟨ KMS_MEDIA_TYPE_AUDIO, true⟩]
      else []) ++
      (if self.priv.video_ssrc ≠ 0 then
        [⟨ KMS_MEDIA_TYPE_VIDEO, false⟩, ⟨ KMS_MEDIA_TYPE_VIDEO, true⟩]
      else []) :=
  dispose_eq self

/-- Counterexample to C22 as stated: disposing the endpoint whose active audio
SSRC is 41 and whose active video SSRC is 43 emits two media-stop signals for
audio and two for video. -/
theorem c22_counterexample :
    endpointActive.priv.audio_ssrc = 41 ∧ endpointActive.priv.video_ssrc = 43 ∧
    (stops_of KMS_MEDIA_TYPE_AUDIO (kms_base_rtp_endpoint_dispose endpointActive).2).length = 2 ∧
    (stops_of KMS_MEDIA_TYPE_VIDEO (kms_base_rtp_endpoint_dispose endpointActive).2).length = 2 ∧
    (kms_base_rtp_endpoint_dispose endpointActive).2 =
      [⟨ KMS_MEDIA_TYPE_AUDIO, false⟩, ⟨ KMS_MEDIA_TYPE_AUDIO, true⟩,
        ⟨ KMS_MEDIA_TYPE_VIDEO, false⟩, ⟨ KMS_MEDIA_TYPE_VIDEO, true⟩] := by
  decide

/-- C23 (as amended): after `kms_base_rtp_endpoint_dispose`, a late stop event
for a non-zero SSRC (as any SSRC that was active is) changes nothing in the
endpoint and, for the audio or the video session, emits one media-stop signal
for that media with `local` true; for another session it emits none. -/
theorem c23_late_stop_after_dispose (self : KmsBaseRtpEndpoint) (session ssrc : Nat)
    (h0 : ssrc ≠ 0) :
    kms_base_rtp_endpoint_stop_signal (kms_base_rtp_endpoint_dispose self).1 session ssrc =
      ((kms_base_rtp_endpoint_dispose self).1,
        if session = AUDIO_RTP_SESSION then [⟨ KMS_MEDIA_TYPE_AUDIO, true⟩]
        else if session = VIDEO_RTP_SESSION then [⟨ KMS_MEDIA_TYPE_VIDEO, true⟩]
        else []) := by
  obtain ⟨d1, d2, -⟩ := dispose_eq self
  unfold kms_base_rtp_endpoint_stop_signal
  rw [stop_signal_clear_no_match _ ssrc (by rw [d1]; exact h0) (by rw [d2]; exact h0)]
  simp only []
  split
  · rfl
  · split <;> rfl

/-- Witness of C23 (as amended): after the disposal of the endpoint whose
active audio SSRC was 41, the late stop event (audio, 41) emits one media-stop
for audio with `local` true. -/
theorem c23_late_stop_after_dispose_witness :
    kms_base_rtp_endpoint_stop_signal (kms_base_rtp_endpoint_dispose endpointActive).1 0 41 =
      ((kms_base_rtp_endpoint_dispose endpointActive).1, [⟨ KMS_MEDIA_TYPE_AUDIO, true⟩]) :=
  c23_late_stop_after_dispose endpointActive 0 41 (by decide)

/-- Counterexample to C23 as stated: the SSRC 41 was the active audio SSRC
before the disposal, and handling the late stop event (audio, 41) after the
disposal emits a media-stop signal. -/
theorem c23_counterexample :
    endpointActive.priv.audio_ssrc = 41 ∧
    (kms_base_rtp_endpoint_stop_signal (kms_base_rtp_endpoint_dispose endpointActive).1
      AUDIO_RTP_SESSION 41).2 = [⟨ KMS_MEDIA_TYPE_AUDIO, true⟩] := by
  decide


/-! ## The send bandwidth bounds -/

theorem set_property_min (self : KmsBaseRtpEndpoint) (v : Nat) :
    kms_base_rtp_endpoint_set_property self .PROP_MIN_VIDEO_SEND_BW (.uint v) =
      { self with priv := { self.priv with
          min_video_send_bw := min v self.priv.max_video_send_bw } } := by
  simp only [kms_base_rtp_endpoint_set_property, g_value_get_uint]
  by_cases h : v > self.priv.max_video_send_bw
  · rw [if_pos h, Nat.min_eq_right (Nat.le_of_lt h)]
  · rw [if_neg h, Nat.min_eq_left (Nat.le_of_not_lt h)]

theorem set_property_max (self : KmsBaseRtpEndpoint) (v : Nat) :
    kms_base_rtp_endpoint_set_property self .PROP_MAX_VIDEO_SEND_BW (.uint v) =
      { self with priv := { self.priv with
          max_video_send_bw := max v self.priv.min_video_send_bw } } := by
  simp only [kms_base_rtp_endpoint_set_property, g_value_get_uint]
  by_cases h : v < self.priv.min_video_send_bw
  · rw [if_pos h, Nat.max_eq_right (Nat.le_of_lt h)]
  · rw [if_neg h, Nat.max_eq_left (Nat.le_of_not_lt h)]

/-- Every property write keeps min ≤ max. -/
theorem set_property_min_le_max (self : KmsBaseRtpEndpoint) (property_id : PropId)
    (value : GValue) (h : self.priv.min_video_send_bw ≤ self.priv.max_video_send_bw) :
    (kms_base_rtp_endpoint_set_property self property_id value).priv.min_video_send_bw
      ≤ (kms_base_rtp_endpoint_set_property self property_id value).priv.max_video_send_bw := by
  cases property_id <;> simp only [kms_base_rtp_endpoint_set_property] <;> try exact h
  · split
    · exact Nat.le_refl _
    · rename_i hv
      exact Nat.le_of_not_lt hv
  · split
    · exact Nat.le_refl _
    · rename_i hv
      exact Nat.le_of_not_lt hv

theorem update_sdp_media_send_bw (K : SdpUtils) (E : Env) (self : KmsBaseRtpEndpoint)
    (media : GstSDPMedia) (use_ipv6 : Bool) (cname : String) :
    send_bw (kms_base_rtp_endpoint_update_sdp_media K E self media use_ipv6 cname).1
      = send_bw self := by
  unfold kms_base_rtp_endpoint_update_sdp_media
  simp only []
  split
  · rfl
  · split
    · rfl
    · simp only [update_sdp_media_local_ssrc]
      split
      · rfl
      · split <;> rfl

theorem set_transport_medias_loop_send_bw (K : SdpUtils) (E : Env)
    (medias : List GstSDPMedia) (self : KmsBaseRtpEndpoint) (bm : Option String) :
    send_bw (set_transport_medias_loop K E self bm medias).self = send_bw self := by
  induction medias generalizing self bm with
  | nil => rfl
  | cons media rest ih =>
    have hu := update_sdp_media_send_bw K E self media E.use_ipv6 E.cname
    rcases hup : kms_base_rtp_endpoint_update_sdp_media K E self media E.use_ipv6 E.cname with
      ⟨self1, media1, ms⟩
    rw [hup] at hu
    simp only [] at hu
    cases ms with
    | none =>
      simp only [set_transport_medias_loop, hup]
      exact hu
    | some s =>
      simp only [set_transport_medias_loop, hup]
      split
      · exact (ih self1 _).trans hu
      · split
        · exact (ih self1 _).trans hu
        · split
          · rename_i self2 heq
            simp only [kms_base_rtp_endpoint_create_connection, Prod.mk.injEq] at heq
            rw [← heq.1]
            exact hu
          · rename_i self2 c heq
            simp only [kms_base_rtp_endpoint_create_connection, Prod.mk.injEq] at heq
            refine (ih self2 _).trans ?_
            rw [← heq.1]
            exact hu

theorem set_transport_to_sdp_send_bw (K : SdpUtils) (E : Env) (self : KmsBaseRtpEndpoint)
    (msg : GstSDPMessage) :
    send_bw (kms_base_rtp_endpoint_set_transport_to_sdp K E self msg).2.1 = send_bw self := by
  have hstart : ∀ c, send_bw (set_transport_loop_start K E self c) = send_bw self := by
    intro c
    unfold send_bw set_transport_loop_start set_transport_derive_flags
    cases E.remote_offer_sdp <;> rfl
  rcases set_transport_to_sdp_cases K E self msg with h | h | h
  · rw [h.2.2]; exact hstart none
  · obtain ⟨_, c, _, h3⟩ := h
    rw [h3, set_transport_finish_self, set_transport_medias_loop_send_bw]
    exact hstart (some c)
  · rw [h.2, set_transport_finish_self, set_transport_medias_loop_send_bw]
    exact hstart none

theorem start_transport_send_media_send_bw (S : SendEnv) (self : KmsBaseRtpEndpoint)
    (media : GstSDPMedia) : send_bw (start_transport_send_media S self media) = send_bw self := by
  unfold start_transport_send_media
  simp only []
  split
  · rfl
  · split
    · split
      · unfold kms_base_rtp_endpoint_create_remb_managers
        cases S.internal_session VIDEO_RTP_SESSION <;> rfl
      · rfl
    · rfl

theorem start_transport_send_send_bw (S : SendEnv) (self : KmsBaseRtpEndpoint)
    (offer answer : GstSDPMessage) (local_offer : Bool) :
    send_bw (kms_base_rtp_endpoint_start_transport_send S self offer answer local_offer)
      = send_bw self := by
  unfold kms_base_rtp_endpoint_start_transport_send
  simp only []
  generalize (if local_offer = true then answer else offer).medias = medias
  induction medias generalizing self with
  | nil => rfl
  | cons m ms ih =>
    simp only [List.foldl_cons]
    exact (ih _).trans (start_transport_send_media_send_bw S self m)

theorem on_new_ssrc_send_bw (session ssrc : Nat) (self : KmsBaseRtpEndpoint) :
    send_bw (kms_base_rtp_endpoint_rtpbin_on_new_ssrc session ssrc self) = send_bw self := by
  unfold kms_base_rtp_endpoint_rtpbin_on_new_ssrc
  split
  · split <;> rfl
  · split
    · split <;> rfl
    · rfl

theorem stop_signal_send_bw (self : KmsBaseRtpEndpoint) (session ssrc : Nat) :
    send_bw (kms_base_rtp_endpoint_stop_signal self session ssrc).1 = send_bw self := by
  have hc : send_bw (stop_signal_clear self ssrc).1 = send_bw self := by
    unfold stop_signal_clear
    split
    · split
      · rfl
      · split <;> rfl
    · rfl
  unfold kms_base_rtp_endpoint_stop_signal
  simp only []
  split
  · exact hc
  · split <;> exact hc

theorem dispose_send_bw (self : KmsBaseRtpEndpoint) :
    send_bw (kms_base_rtp_endpoint_dispose self).1 = send_bw self := by
  have ha : send_bw (dispose_audio self).1 = send_bw self := by
    unfold dispose_audio
    split
    · exact stop_signal_send_bw _ _ _
    · rfl
  have hv : ∀ s, send_bw (dispose_video s).1 = send_bw s := by
    intro s
    unfold dispose_video
    split
    · exact stop_signal_send_bw _ _ _
    · rfl
  unfold kms_base_rtp_endpoint_dispose
  exact (hv _).trans ha

theorem send_bw_le {a b : KmsBaseRtpEndpoint} (h : send_bw a = send_bw b)
    (hb : b.priv.min_video_send_bw ≤ b.priv.max_video_send_bw) :
    a.priv.min_video_send_bw ≤ a.priv.max_video_send_bw := by
  unfold send_bw at h
  simp only [Prod.mk.injEq] at h
  rw [h.1, h.2]
  exact hb

theorem reachable_min_le_max (self : KmsBaseRtpEndpoint) (h : Reachable self) :
    self.priv.min_video_send_bw ≤ self.priv.max_video_send_bw := by
  induction h with
  | init => decide
  | set_property s id value _ ih => exact set_property_min_le_max s id value ih
  | set_transport_to_sdp K E s msg _ ih =>
    exact send_bw_le (set_transport_to_sdp_send_bw K E s msg) ih
  | start_transport_send S s offer answer lo _ ih =>
    exact send_bw_le (start_transport_send_send_bw S s offer answer lo) ih
  | on_new_ssrc session ssrc s _ ih => exact send_bw_le (on_new_ssrc_send_bw session ssrc s) ih
  | stop_signal s session ssrc _ ih => exact send_bw_le (stop_signal_send_bw s session ssrc) ih
  | dispose s _ ih => exact send_bw_le (dispose_send_bw s) ih

/-- C24: after `kms_base_rtp_endpoint_init` the bounds are 100 and 500; every
property write keeps min-video-send-bandwidth ≤ max-video-send-bandwidth, so
it holds after any sequence of property writes, and in every state reached by
property writes and the other operations (which do not touch the bounds). -/
theorem c24_min_le_max (self : KmsBaseRtpEndpoint) :
    (initEndpoint.priv.min_video_send_bw = 100 ∧ initEndpoint.priv.max_video_send_bw = 500) ∧
    (∀ (property_id : PropId) (value : GValue),
      self.priv.min_video_send_bw ≤ self.priv.max_video_send_bw →
      (kms_base_rtp_endpoint_set_property self property_id value).priv.min_video_send_bw
        ≤ (kms_base_rtp_endpoint_set_property self property_id
            value).priv.max_video_send_bw) ∧
    (∀ writes : List (PropId × GValue),
      (writes.foldl (fun s w => kms_base_rtp_endpoint_set_property s w.1 w.2)
          initEndpoint).priv.min_video_send_bw
        ≤ (writes.foldl (fun s w => kms_base_rtp_endpoint_set_property s w.1 w.2)
            initEndpoint).priv.max_video_send_bw) ∧
    (Reachable self → self.priv.min_video_send_bw ≤ self.priv.max_video_send_bw) := by
  refine ⟨⟨rfl, rfl⟩, fun id value h => set_property_min_le_max self id value h, ?_,
    reachable_min_le_max self⟩
  intro writes
  have : ∀ (ws : List (PropId × GValue)) (s : KmsBaseRtpEndpoint), Reachable s →
      Reachable (ws.foldl (fun s w => kms_base_rtp_endpoint_set_property s w.1 w.2) s) := by
    intro ws
    induction ws with
    | nil => exact fun s hs => hs
    | cons w ws ih => exact fun s hs => ih _ (Reachable.set_property s w.1 w.2 hs)
  exact reachable_min_le_max _ (this writes initEndpoint Reachable.init)

/-- Witness of C24: writing min 600 and then max 50 to a fresh endpoint, and
an endpoint reached by a negotiation and a disposal in between. -/
theorem c24_min_le_max_witness :
    (kms_base_rtp_endpoint_set_property initEndpoint .PROP_MIN_VIDEO_SEND_BW
        (.uint 600)).priv.min_video_send_bw
      ≤ (kms_base_rtp_endpoint_set_property initEndpoint .PROP_MIN_VIDEO_SEND_BW
          (.uint 600)).priv.max_video_send_bw ∧
    (kms_base_rtp_endpoint_dispose
        (kms_base_rtp_endpoint_set_transport_to_sdp sampleUtils sampleEnv
          (kms_base_rtp_endpoint_set_property initEndpoint .PROP_MAX_VIDEO_SEND_BW (.uint 50))
          sampleSdp).2.1).1.priv.min_video_send_bw
      ≤ (kms_base_rtp_endpoint_dispose
          (kms_base_rtp_endpoint_set_transport_to_sdp sampleUtils sampleEnv
            (kms_base_rtp_endpoint_set_property initEndpoint .PROP_MAX_VIDEO_SEND_BW (.uint 50))
            sampleSdp).2.1).1.priv.max_video_send_bw :=
  ⟨(c24_min_le_max initEndpoint).2.1 .PROP_MIN_VIDEO_SEND_BW (.uint 600) (by decide),
    (c24_min_le_max _).2.2.2
      (Reachable.dispose _ (Reachable.set_transport_to_sdp sampleUtils sampleEnv _ sampleSdp
        (Reachable.set_property initEndpoint .PROP_MAX_VIDEO_SEND_BW (.uint 50)
          Reachable.init)))⟩

/-- C25 (as amended): writing a value greater than the current
max-video-send-bandwidth to min-video-send-bandwidth leaves min equal to max,
both equal to the max-video-send-bandwidth stored before the write (the
written value is replaced by it), and changes nothing else. -/
theorem c25_min_above_max (self : KmsBaseRtpEndpoint) (v : Nat)
    (h : v > self.priv.max_video_send_bw) :
    (kms_base_rtp_endpoint_set_property self .PROP_MIN_VIDEO_SEND_BW
        (.uint v)).priv.min_video_send_bw = self.priv.max_video_send_bw ∧
    (kms_base_rtp_endpoint_set_property self .PROP_MIN_VIDEO_SEND_BW
        (.uint v)).priv.max_video_send_bw = self.priv.max_video_send_bw ∧
    kms_base_rtp_endpoint_set_property self .PROP_MIN_VIDEO_SEND_BW (.uint v) =
      { self with priv := { self.priv with
          min_video_send_bw := self.priv.max_video_send_bw } } := by
  rw [set_property_min, Nat.min_eq_right (Nat.le_of_lt h)]
  exact ⟨rfl, rfl, rfl⟩

/-- Witness of C25 (as amended): writing min 600 to a fresh endpoint (max 500)
gives min 500 and max 500. -/
theorem c25_min_above_max_witness :
    (kms_base_rtp_endpoint_set_property initEndpoint .PROP_MIN_VIDEO_SEND_BW
        (.uint 600)).priv.min_video_send_bw = 500 ∧
    (kms_base_rtp_endpoint_set_property initEndpoint .PROP_MIN_VIDEO_SEND_BW
        (.uint 600)).priv.max_video_send_bw = 500 :=
  ⟨(c25_min_above_max initEndpoint 600 (by decide)).1,
    (c25_min_above_max initEndpoint 600 (by decide)).2.1⟩

/-- Counterexample to C25 as stated: 600 is greater than the max 500 of a
fresh endpoint, and after writing 600 to min-video-send-bandwidth neither
bound is 600. -/
theorem c25_counterexample :
    600 > initEndpoint.priv.max_video_send_bw ∧
    (kms_base_rtp_endpoint_set_property initEndpoint .PROP_MIN_VIDEO_SEND_BW
        (.uint 600)).priv.min_video_send_bw ≠ 600 ∧
    (kms_base_rtp_endpoint_set_property initEndpoint .PROP_MIN_VIDEO_SEND_BW
        (.uint 600)).priv.max_video_send_bw ≠ 600 := by
  decide

/-- C26: writing `v` to min-video-send-bandwidth stores the minimum of `v` and
the current max as the new min and changes no other field; writing `v` to
max-video-send-bandwidth stores the maximum of `v` and the current min as the
new max and changes no other field; reading either property gives the stored
value, also right after the write. -/
theorem c26_exact_clamp (self : KmsBaseRtpEndpoint) (v : Nat) :
    kms_base_rtp_endpoint_set_property self .PROP_MIN_VIDEO_SEND_BW (.uint v) =
      { self with priv := { self.priv with
          min_video_send_bw := min v self.priv.max_video_send_bw } } ∧
    kms_base_rtp_endpoint_set_property self .PROP_MAX_VIDEO_SEND_BW (.uint v) =
      { self with priv := { self.priv with
          max_video_send_bw := max v self.priv.min_video_send_bw } } ∧
    kms_bse_rtp_endpoint_get_property self .PROP_MIN_VIDEO_SEND_BW
      = some (.uint self.priv.min_video_send_bw) ∧
    kms_bse_rtp_endpoint_get_property self .PROP_MAX_VIDEO_SEND_BW
      = some (.uint self.priv.max_video_send_bw) ∧
    kms_bse_rtp_endpoint_get_property
        (kms_base_rtp_endpoint_set_property self .PROP_MIN_VIDEO_SEND_BW (.uint v))
        .PROP_MIN_VIDEO_SEND_BW
      = some (.uint (min v self.priv.max_video_send_bw)) ∧
    kms_bse_rtp_endpoint_get_property
        (kms_base_rtp_endpoint_set_property self .PROP_MAX_VIDEO_SEND_BW (.uint v))
        .PROP_MAX_VIDEO_SEND_BW
      = some (.uint (max v self.priv.min_video_send_bw)) := by
  refine ⟨set_property_min self v, set_property_max self v, rfl, rfl, ?_, ?_⟩
  · rw [set_property_min]; rfl
  · rw [set_property_max]; rfl


end Kms
